import Mathlib

/-!
# libiio device accessors and the AD9371 streaming example

A shallow embedding of two C sources:

* `src/device.c` (namespace `Device`): the indexed accessors of
  `struct iio_device`, the attribute read and write, and `free_device`.
* `src/dp_ecpri/ad9371-iiostream.c` (namespace `Stream`): `shutdown`,
  `handle_sig`, `errchk` and its two callers, and the part of `main` from the
  channel enabling step to the final `shutdown()` call, including the chunked
  RX copy and TX fill.

Calls into libiio are recorded as events of a trace; what the outside world
answers (return values of `iio_buffer_push`, pointers of a buffer, delivery of
SIGINT) is an explicit input.  `printf`, `perror` and the clock reads are not
modelled.
-/

namespace Device

/-- A `struct iio_channel *` stored in a device: the address identifies it. -/
structure iio_channel where
  addr : Nat
  deriving DecidableEq, Repr

/-- The fields of `struct iio_device` that `device.c` uses.  The two arrays are
lists; the counts are fields of their own, as in C, so that a count and the
array it describes can disagree. -/
structure iio_device where
  ctx : Nat
  id : Option String
  name : Option String
  nb_channels : Nat
  channels : List iio_channel
  nb_attrs : Nat
  attrs : List String
  deriving DecidableEq, Repr

/-- The counts describe the arrays: what the code that builds a device
establishes. -/
def iio_device.wf (dev : iio_device) : Prop :=
  dev.channels.length = dev.nb_channels ∧ dev.attrs.length = dev.nb_attrs

instance (dev : iio_device) : Decidable dev.wf := by
  unfold iio_device.wf
  exact inferInstance

/-- What a pointer-returning accessor hands back. -/
inductive Ret (α : Type)
  | null
  | ptr (a : α)
  | fault
  deriving DecidableEq, Repr

/-- One call of an accessor: the returned pointer, the indices of the array it
read, and the device as the call leaves it. -/
structure Call (α : Type) where
  ret : Ret α
  reads : List Nat
  dev : iio_device
  deriving DecidableEq, Repr

/-- Source: `iio_device_get_channels_count`. -/
def iio_device_get_channels_count (dev : iio_device) : Nat :=
  dev.nb_channels

/-- Source: `iio_device_get_channel`.  A read of `dev->channels[index]` outside
the array is `Ret.fault`. -/
def iio_device_get_channel (dev : iio_device) (index : Nat) : Call iio_channel :=
  if index ≥ dev.nb_channels then
    { ret := Ret.null, reads := [], dev := dev }
  else
    match dev.channels[index]? with
    | some chn => { ret := Ret.ptr chn, reads := [index], dev := dev }
    | none => { ret := Ret.fault, reads := [index], dev := dev }

/-- Source: `iio_device_get_attrs_count`. -/
def iio_device_get_attrs_count (dev : iio_device) : Nat :=
  dev.nb_attrs

/-- Source: `iio_device_get_attr`. -/
def iio_device_get_attr (dev : iio_device) (index : Nat) : Call String :=
  if index ≥ dev.nb_attrs then
    { ret := Ret.null, reads := [], dev := dev }
  else
    match dev.attrs[index]? with
    | some attr => { ret := Ret.ptr attr, reads := [index], dev := dev }
    | none => { ret := Ret.fault, reads := [index], dev := dev }

/-- The pointers returned by `n` successive calls of `iio_device_get_channel`
with the same index, each made on the device as the call before left it. -/
def get_channel_calls (dev : iio_device) (index : Nat) : Nat → List (Ret iio_channel)
  | 0 => []
  | n + 1 =>
    (iio_device_get_channel dev index).ret ::
      get_channel_calls (iio_device_get_channel dev index).dev index n

/-- A device with two channels and three attributes, to evaluate the accessors
on. -/
def sample_device : iio_device :=
  { ctx := 4096, id := some "iio:device3", name := some "axi-ad9371-rx-hpc",
    nb_channels := 2, channels := [{ addr := 8192 }, { addr := 8448 }],
    nb_attrs := 3, attrs := ["sampling_frequency", "calibrate", "ensm_mode"] }

/-- The heap blocks that belong to one device: the attribute strings, the
array of their pointers, the channels, the array of their pointers, the name,
the id, and the `struct iio_device` itself. -/
inductive Block
  | attr (index : Nat)
  | attrs
  | channel (index : Nat)
  | channels
  | name
  | id
  | dev
  deriving DecidableEq, Repr

/-- The releasing calls of `free_device`: `free(p)` for a block, and
`free_channel(dev->channels[i])`, which releases channel `i`. -/
inductive Op
  | free (b : Block)
  | free_channel (index : Nat) (chn : iio_channel)
  deriving DecidableEq, Repr

/-- The block that a releasing call releases. -/
def Op.block : Op → Block
  | Op.free b => b
  | Op.free_channel index _ => Block.channel index

/-- One releasing call after the calls `hist`: every block of the device is
live until it is released, and releasing a block a second time is undefined
(`none`). -/
def do_free (hist : List Op) (op : Op) : Option (List Op) :=
  if op.block ∈ hist.map Op.block then none else some (hist ++ [op])

/-- The statement `for (i = 0; i < n; i++) release(array[i])` over the indices
`is`; `f i` is the call for index `i`, `none` when `array[i]` is outside the
array. -/
def free_loop (f : Nat → Option Op) : List Nat → List Op → Option (List Op)
  | [], hist => some hist
  | i :: is, hist =>
    match f i with
    | none => none
    | some op => (do_free hist op).bind (free_loop f is)

/-- The statement `if (c) free(p);`. -/
def free_if (c : Bool) (op : Op) (hist : List Op) : Option (List Op) :=
  if c then do_free hist op else some hist

/-- Source: `free_device`, run after the releasing calls `hist`; the result is
the calls made so far, `none` when the behaviour is undefined (the device
itself was released before, a block is released twice, an array is read outside
its bounds). -/
def free_device (hist : List Op) (dev : iio_device) : Option (List Op) :=
  if Block.dev ∈ hist.map Op.block then none else
  (free_loop (fun i => (dev.attrs[i]?).map (fun _ => Op.free (Block.attr i)))
      (List.range dev.nb_attrs) hist).bind fun h1 =>
  (free_if (decide (dev.nb_attrs ≠ 0)) (Op.free Block.attrs) h1).bind fun h2 =>
  (free_loop (fun i => (dev.channels[i]?).map (fun chn => Op.free_channel i chn))
      (List.range dev.nb_channels) h2).bind fun h3 =>
  (free_if (decide (dev.nb_channels ≠ 0)) (Op.free Block.channels) h3).bind fun h4 =>
  (free_if dev.name.isSome (Op.free Block.name) h4).bind fun h5 =>
  (free_if dev.id.isSome (Op.free Block.id) h5).bind fun h6 =>
  do_free h6 (Op.free Block.dev)

/-- The calls that the destruction of a device is expected to make, in the
order of the source. -/
def expected_releases (dev : iio_device) : List Op :=
  (List.range dev.nb_attrs).map (fun i => Op.free (Block.attr i)) ++
  (if dev.nb_attrs ≠ 0 then [Op.free Block.attrs] else []) ++
  (List.range dev.nb_channels).filterMap
    (fun i => (dev.channels[i]?).map (fun chn => Op.free_channel i chn)) ++
  (if dev.nb_channels ≠ 0 then [Op.free Block.channels] else []) ++
  (if dev.name.isSome then [Op.free Block.name] else []) ++
  (if dev.id.isSome then [Op.free Block.id] else []) ++
  [Op.free Block.dev]

/-- What `iio-private.h` declares of `struct iio_context_ops`, for a transport
with states of type `σ`: `read_attr(dev, attr, dst, len)` gives the new
transport state, the returned `ssize_t` and the bytes stored to `dst`;
`write_attr(dev, attr, src)` gives the new transport state and the returned
`ssize_t`. -/
structure iio_context_ops (σ : Type) where
  read_attr : σ → iio_device → String → Nat → σ × Int × String
  write_attr : σ → iio_device → String → String → σ × Int

/-- What `device.c` uses of `struct iio_context`. -/
structure iio_context (σ : Type) where
  ops : iio_context_ops σ

/-- Source: `iio_device_attr_read`; `ctxs` is memory, read at `dev->ctx`. -/
def iio_device_attr_read {σ : Type} (ctxs : Nat → iio_context σ) (t : σ)
    (dev : iio_device) (attr : String) (len : Nat) : σ × Int × String :=
  (ctxs dev.ctx).ops.read_attr t dev attr len

/-- Source: `iio_device_attr_write`. -/
def iio_device_attr_write {σ : Type} (ctxs : Nat → iio_context σ) (t : σ)
    (dev : iio_device) (attr : String) (src : String) : σ × Int :=
  (ctxs dev.ctx).ops.write_attr t dev attr src

/-- A call that reaches the transport. -/
inductive TransportCall
  | read_attr (dev : iio_device) (attr : String) (len : Nat)
  | write_attr (dev : iio_device) (attr : String) (src : String)
  deriving DecidableEq, Repr

/-- A transport that also keeps the list of the calls it received. -/
def logged {σ : Type} (ops : iio_context_ops σ) : iio_context_ops (σ × List TransportCall) :=
  { read_attr := fun t dev attr len =>
      ((( ops.read_attr t.1 dev attr len).1, t.2 ++ [TransportCall.read_attr dev attr len]),
        (ops.read_attr t.1 dev attr len).2)
    write_attr := fun t dev attr src =>
      (((ops.write_attr t.1 dev attr src).1, t.2 ++ [TransportCall.write_attr dev attr src]),
        (ops.write_attr t.1 dev attr src).2) }

/-- The loopback property of a transport: a read of an attribute right after a
write of `src` to it, into a destination with room for `src` and its NUL,
stores `src`. -/
def is_loopback {σ : Type} (ops : iio_context_ops σ) : Prop :=
  ∀ (t : σ) (dev : iio_device) (attr src : String) (len : Nat), src.length < len →
    (ops.read_attr (ops.write_attr t dev attr src).1 dev attr len).2.2 = src

/-- A loopback-simulated backend, to instantiate the transport with.  Its
state is the list of the values written, latest first; a read returns the
latest value written for the device and the attribute, `-ENOENT` (-2) when
there is none, `-ENOSPC` (-28) when `dst` is too small. -/
def loopback_ops : iio_context_ops (List (iio_device × String × String)) :=
  { read_attr := fun t dev attr len =>
      match t.find? (fun w => decide (w.1 = dev ∧ w.2.1 = attr)) with
      | none => (t, -2, "")
      | some w => if w.2.2.length < len then (t, w.2.2.length + 1, w.2.2) else (t, -28, "")
    write_attr := fun t dev attr src => ((dev, attr, src) :: t, src.length + 1) }

end Device

namespace Stream

/-- Subtraction of two `size_t` values (64 bits on the target:
`18446744073709551616` is `2 ^ 64`). -/
def size_sub (a b : Nat) : Nat :=
  (a % 18446744073709551616 + 18446744073709551616 - b % 18446744073709551616)
    % 18446744073709551616

/-- Addition of two `size_t` values. -/
def size_add (a b : Nat) : Nat :=
  (a + b) % 18446744073709551616

/-- Conversion of an `ssize_t` to `size_t`. -/
def to_size (v : Int) : Nat :=
  (v % 18446744073709551616).toNat

/-- The literal `1200*4` of the two chunk loops. -/
def CHUNK : Nat := 1200 * 4

/-- Source: `#define LIBIIO_PORT_SAMPLES (1024*1024/2)` (both branches of the
`#ifdef`). -/
def LIBIIO_PORT_SAMPLES : Nat := 1024 * 1024 / 2

/-- Where a `memcpy` reads or writes: an address of buffer memory, or an offset
into one of the two staging arrays `eth_txbuf[80+1200*4*1]` and
`eth_rxbuf[90+1200*4*1]`. -/
inductive Loc
  | mem (addr : Nat)
  | eth_txbuf (off : Nat)
  | eth_rxbuf (off : Nat)
  deriving DecidableEq, Repr

/-- The observable operations of the program.  Handles are addresses; an
argument of type `Option Nat` is a global passed as it is (`none` is NULL).
`swap_iq` and `zero_iq` are the bodies of the two `ENABLE_PORT1` loops.
`printf` is the call that the signal handler makes; what `main` and `shutdown`
print is left out. -/
inductive Event
  | iio_channel_enable (chn : Option Nat)
  | iio_device_create_buffer (dev : Nat) (samples_count : Nat) (cyclic : Bool)
  | iio_buffer_push (buf : Option Nat)
  | iio_buffer_refill (buf : Option Nat)
  | memcpy (dst src : Loc) (n : Nat)
  | swap_iq (p_dat : Nat)
  | zero_iq (p_dat : Nat)
  | iio_buffer_destroy (buf : Nat)
  | iio_channel_disable (chn : Nat)
  | iio_context_destroy (ctx : Nat)
  | exit (status : Int)
  | iio_channel_attr_write_longlong (chn : Nat) (attr : String) (val : Int)
  | iio_channel_attr_read_longlong (chn : Nat) (attr : String)
  | iio_create_default_context
  | iio_context_get_devices_count (ctx : Option Nat)
  | iio_context_find_device (ctx : Option Nat) (name : String)
  | iio_device_find_channel (dev : Nat) (name : String) (output : Bool)
  | abort
  | printf (msg : String)
  deriving DecidableEq, Repr

/-- The file-scope variables of `ad9371-iiostream.c`. -/
structure Globals where
  ctx : Option Nat
  rx0_i : Option Nat
  rx0_q : Option Nat
  rx1_i : Option Nat
  rx1_q : Option Nat
  tx0_i : Option Nat
  tx0_q : Option Nat
  tx1_i : Option Nat
  tx1_q : Option Nat
  rxbuf : Option Nat
  txbuf : Option Nat
  stop : Bool
  deriving DecidableEq, Repr

/-- The locals of `main` that outlive one loop iteration. -/
structure Locals where
  rx : Nat
  tx : Nat
  nrx : Nat
  ntx : Nat
  deriving DecidableEq, Repr

/-- Program state. -/
structure State where
  g : Globals
  l : Locals
  deriving DecidableEq, Repr

/-- How far a piece of code got. `running`: control reached its end; `exited`:
`exit` was called; `stuck`: neither (a `for` loop that never ends, a division by
zero); `aborted`: `abort` was called by a failed `ASSERT`. -/
inductive Status
  | running
  | exited (status : Int)
  | stuck
  | aborted
  deriving DecidableEq, Repr

/-- A piece of an execution: the operations issued, the state reached, the
status. -/
structure Run where
  trace : List Event
  s : State
  status : Status
  deriving DecidableEq, Repr

/-- Sequencing: the continuation runs only if the first part reached its end. -/
def Run.seq (r : Run) (k : State → Run) : Run :=
  match r.status with
  | Status.running =>
    { trace := r.trace ++ (k r.s).trace, s := (k r.s).s, status := (k r.s).status }
  | _ => r

/-- The statement `if (h) { f(h); }`. -/
def if_set (h : Option Nat) (f : Nat → Event) : List Event :=
  match h with
  | some p => [f p]
  | none => []

/-- Source: `shutdown`, up to and including `exit(0)`. -/
def shutdown (g : Globals) : List Event :=
  if_set g.rxbuf Event.iio_buffer_destroy ++
  if_set g.txbuf Event.iio_buffer_destroy ++
  if_set g.rx0_i Event.iio_channel_disable ++
  if_set g.rx0_q Event.iio_channel_disable ++
  if_set g.tx0_i Event.iio_channel_disable ++
  if_set g.tx0_q Event.iio_channel_disable ++
  if_set g.ctx Event.iio_context_destroy ++
  [Event.exit 0]

/-- A call of `shutdown()` in state `s` after the operations `pre`. -/
def shutdown_run (pre : List Event) (s : State) : Run :=
  { trace := pre ++ shutdown s.g, s := s, status := Status.exited 0 }

/-- What a call of the signal handler did: the operations it issued, in
order, and the globals it left. -/
structure Handled where
  ops : List Event
  g : Globals
  deriving DecidableEq, Repr

/-- Source: `handle_sig`:
`printf("Waiting for process to finish...\n"); stop = true;`. -/
def handle_sig (_sig : Int) (g : Globals) : Handled :=
  { ops := [Event.printf "Waiting for process to finish...\n"],
    g := { g with stop := true } }

/-- The decreasing quantity of the chunk loops: a counter below one chunk wraps
once, then only counts down. -/
def chunk_measure (n : Nat) : Nat :=
  if n % 18446744073709551616 < 4800 then
    18446744073709551616 + n % 18446744073709551616
  else
    n % 18446744073709551616

/-- Source: the `do { ... } while(1)` of the RX path, entered with the counter
`n1rx` and the read pointer `p_dat`. -/
def rx_chunk_loop (n1rx p_dat : Nat) : List Event :=
  if h : size_sub n1rx CHUNK ≤ CHUNK then
    [Event.memcpy (Loc.eth_txbuf 80) (Loc.mem p_dat) CHUNK,
     Event.memcpy (Loc.eth_txbuf 80) (Loc.mem (p_dat + CHUNK)) (size_sub n1rx CHUNK)]
  else
    Event.memcpy (Loc.eth_txbuf 80) (Loc.mem p_dat) CHUNK ::
      rx_chunk_loop (size_sub n1rx CHUNK) (p_dat + CHUNK)
termination_by chunk_measure n1rx
decreasing_by
  unfold chunk_measure
  unfold size_sub CHUNK at h
  unfold size_sub CHUNK
  split_ifs <;> omega

/-- Source: the `do { ... } while(1)` of the TX path, entered with the counter
`n1tx` and the write pointer `p_dat`. -/
def tx_chunk_loop (n1tx p_dat : Nat) : List Event :=
  if h : size_sub n1tx CHUNK ≤ CHUNK then
    [Event.memcpy (Loc.mem p_dat) (Loc.eth_rxbuf 90) CHUNK,
     Event.memcpy (Loc.mem p_dat) (Loc.eth_rxbuf 90) (size_sub n1tx CHUNK)]
  else
    Event.memcpy (Loc.mem p_dat) (Loc.eth_rxbuf 90) CHUNK ::
      tx_chunk_loop (size_sub n1tx CHUNK) p_dat
termination_by chunk_measure n1tx
decreasing_by
  unfold chunk_measure
  unfold size_sub CHUNK at h
  unfold size_sub CHUNK
  split_ifs <;> omega

/-- Source: `for (p_dat = first; p_dat < p_end; p_dat += p_inc)`, the pointers
visited, with a bound on the number of tests of the condition; `none` when the
bound is reached. -/
def foreach_sample_fuel : Nat → Nat → Nat → Nat → Option (List Nat)
  | 0, _, _, _ => none
  | fuel + 1, p_dat, p_end, p_inc =>
    if p_dat < p_end then
      (foreach_sample_fuel fuel (p_dat + p_inc) p_end p_inc).map (fun ps => p_dat :: ps)
    else
      some []

/-- The `for` loop with as many tests as a positive stride can need; `none`
exactly when the loop does not end (a zero stride below `p_end`). -/
def foreach_sample (first p_end p_inc : Nat) : Option (List Nat) :=
  foreach_sample_fuel (p_end - first + 1) first p_end p_inc

/-- Points of one loop iteration at which SIGINT can be delivered. -/
inductive SigPoint
  | before_push
  | after_push
  | after_refill
  deriving DecidableEq, Repr

/-- What the outside world does during one iteration of `while (!stop)`: the
delivery of SIGINT, the values returned by `iio_buffer_push` and
`iio_buffer_refill`, and the values of `iio_buffer_step`, `iio_buffer_end`,
`iio_buffer_first` and `iio_device_get_sample_size` for the two buffers. -/
structure IterEnv where
  sigint : Option SigPoint
  push_ret : Int
  refill_ret : Int
  rx_step : Nat
  rx_end : Nat
  rx0_first : Nat
  rx1_first : Nat
  tx_step : Nat
  tx_end : Nat
  tx0_first : Nat
  tx1_first : Nat
  rx_sample_size : Int
  tx_sample_size : Int
  deriving DecidableEq, Repr

/-- The signal handler runs at point `pt` if SIGINT is delivered there.  What
the handler prints goes to the terminal, as does what `main` and `shutdown`
print, and is not part of the operations recorded for the loop. -/
def deliver (pt : SigPoint) (e : IterEnv) (g : Globals) : Globals :=
  if e.sigint = some pt then (handle_sig 2 g).g else g

/-- The globals at the end of an iteration: the handler has run at the point
where SIGINT was delivered, if it was. -/
def after_iteration (e : IterEnv) (g : Globals) : Globals :=
  deliver SigPoint.after_refill e (deliver SigPoint.after_push e
    (deliver SigPoint.before_push e g))

/-- The `for` loop over the samples of one port-1 channel, compiled in only
with `ENABLE_PORT1`; `body` is what it does at each sample. -/
def port1_loop (port1 : Bool) (body : Nat → Event) (first p_end p_inc : Nat)
    (pre : List Event) (s : State) (k : List Event → Run) : Run :=
  if port1 then
    match foreach_sample first p_end p_inc with
    | some ps => k (pre ++ ps.map body)
    | none => { trace := pre, s := s, status := Status.stuck }
  else
    k pre

/-- Source: the counter update `n += nbytes / iio_device_get_sample_size(dev)`;
`none` for a zero sample size. -/
def count_samples (n : Nat) (nbytes sample_size : Int) : Option Nat :=
  if sample_size = 0 then none
  else some (size_add n (to_size (Int.tdiv nbytes sample_size)))

/-- Source: the body of `while (!stop)` in `main`. -/
def loop_body (port1 : Bool) (e : IterEnv) (s : State) : Run :=
  let g0 := deliver SigPoint.before_push e s.g
  let t1 := [Event.iio_buffer_push g0.txbuf]
  let g1 := deliver SigPoint.after_push e g0
  if e.push_ret < 0 then shutdown_run t1 { g := g1, l := s.l } else
  let t2 := t1 ++ [Event.iio_buffer_refill g1.rxbuf]
  let g2 := deliver SigPoint.after_refill e g1
  if e.refill_ret < 0 then shutdown_run t2 { g := g2, l := s.l } else
  let t3 := t2 ++ rx_chunk_loop (to_size e.refill_ret) e.rx0_first
  port1_loop port1 Event.swap_iq e.rx1_first e.rx_end e.rx_step t3 { g := g2, l := s.l }
    fun t4 =>
  let t5 := t4 ++ tx_chunk_loop (size_sub e.tx_end e.tx0_first) e.tx0_first
  port1_loop port1 Event.zero_iq e.tx1_first e.tx_end e.tx_step t5 { g := g2, l := s.l }
    fun t6 =>
  match count_samples s.l.nrx e.refill_ret e.rx_sample_size with
  | none => { trace := t6, s := { g := g2, l := s.l }, status := Status.stuck }
  | some nrx =>
  match count_samples s.l.ntx e.push_ret e.tx_sample_size with
  | none => { trace := t6, s := { g := g2, l := { s.l with nrx := nrx } },
              status := Status.stuck }
  | some ntx =>
    { trace := t6, s := { g := g2, l := { s.l with nrx := nrx, ntx := ntx } },
      status := Status.running }

/-- Source: `while (!stop) { ... }` followed by the final `shutdown()` of
`main`, run against the iterations `envs` of the outside world.  The status
is `running` when the flag is still clear after the last of them. -/
def main_loop (port1 : Bool) : List IterEnv → State → Run
  | [], s =>
    if s.g.stop then shutdown_run [] s
    else { trace := [], s := s, status := Status.running }
  | e :: rest, s =>
    if s.g.stop then shutdown_run [] s
    else (loop_body port1 e s).seq (main_loop port1 rest)

/-- Source: the `iio_channel_enable` calls of `main`. -/
def main_enable_channels (port1 : Bool) (g : Globals) : List Event :=
  [Event.iio_channel_enable g.rx0_i, Event.iio_channel_enable g.rx0_q,
   Event.iio_channel_enable g.tx0_i, Event.iio_channel_enable g.tx0_q] ++
  if port1 then
    [Event.iio_channel_enable g.rx1_i, Event.iio_channel_enable g.rx1_q,
     Event.iio_channel_enable g.tx1_i, Event.iio_channel_enable g.tx1_q]
  else []

/-- What the two `iio_device_create_buffer` calls return. -/
structure CreateEnv where
  rxbuf : Option Nat
  txbuf : Option Nat
  deriving DecidableEq, Repr

/-- Source: the creation of the two buffers in `main`. -/
def main_create_buffers (c : CreateEnv) (s : State) : Run :=
  let t1 := [Event.iio_device_create_buffer s.l.rx LIBIIO_PORT_SAMPLES false]
  let g1 : Globals := { s.g with rxbuf := c.rxbuf }
  if g1.rxbuf.isNone then shutdown_run t1 { g := g1, l := s.l } else
  let t2 := t1 ++ [Event.iio_device_create_buffer s.l.tx LIBIIO_PORT_SAMPLES false]
  let g2 : Globals := { g1 with txbuf := c.txbuf }
  if g2.txbuf.isNone then shutdown_run t2 { g := g2, l := s.l } else
  { trace := t2, s := { g := g2, l := s.l }, status := Status.running }

/-- Source: `main` from the enabling of the streaming channels to its end. -/
def main_streaming (port1 : Bool) (c : CreateEnv) (envs : List IterEnv) (s : State) : Run :=
  (Run.seq { trace := main_enable_channels port1 s.g, s := s, status := Status.running }
    (main_create_buffers c)).seq (main_loop port1 envs)

/-- Globals as `main` has them when the loop starts: every handle of the
single-port build acquired, the flag clear. -/
def sample_globals : Globals :=
  { ctx := some 1, rx0_i := some 10, rx0_q := some 11, rx1_i := none, rx1_q := none,
    tx0_i := some 20, tx0_q := some 21, tx1_i := none, tx1_q := none,
    rxbuf := some 100, txbuf := some 200, stop := false }

/-- A state of `main` before the channels are enabled: no buffer yet. -/
def sample_setup_state : State :=
  { g := { sample_globals with rxbuf := none, txbuf := none },
    l := { rx := 2, tx := 3, nrx := 0, ntx := 0 } }

/-- A state of `main` at the loop head, to evaluate the loop on. -/
def sample_state : State :=
  { g := sample_globals, l := { rx := 2, tx := 3, nrx := 0, ntx := 0 } }

/-- One iteration of the outside world with the configured buffers
(524288 samples of 4 bytes at `rx0_first` and `tx0_first`), for a given signal
delivery and given results of push and refill. -/
def sample_env (sigint : Option SigPoint) (push_ret refill_ret : Int) : IterEnv :=
  { sigint := sigint, push_ret := push_ret, refill_ret := refill_ret,
    rx_step := 4, rx_end := 268435456 + 2097152, rx0_first := 268435456,
    rx1_first := 268435456 + 4,
    tx_step := 4, tx_end := 536870912 + 2097152, tx0_first := 536870912,
    tx1_first := 536870912 + 4,
    rx_sample_size := 4, tx_sample_size := 4 }

/-- The operations that `shutdown` issues. -/
def Event.is_shutdown_op : Event → Bool
  | Event.iio_buffer_destroy _ => true
  | Event.iio_channel_disable _ => true
  | Event.iio_context_destroy _ => true
  | Event.exit _ => true
  | _ => false

/-- Calls of `iio_buffer_push` and `iio_buffer_refill`. -/
def Event.is_push_or_refill : Event → Bool
  | Event.iio_buffer_push _ => true
  | Event.iio_buffer_refill _ => true
  | _ => false

/-- The addresses of buffer memory that an operation reads, in order. -/
def Event.read_bytes : Event → List Nat
  | Event.memcpy _ (Loc.mem src) n => (List.range n).map (fun i => src + i)
  | _ => []

/-- Whether an operation reads the byte of buffer memory at address `a`. -/
def Event.reads_mem (ev : Event) (a : Nat) : Bool :=
  match ev with
  | Event.memcpy _ (Loc.mem src) n => decide (src ≤ a ∧ a < src + n)
  | _ => false

/-- Whether an operation writes the byte of buffer memory at address `a`. -/
def Event.writes_mem (ev : Event) (a : Nat) : Bool :=
  match ev with
  | Event.memcpy (Loc.mem dst) _ n => decide (dst ≤ a ∧ a < dst + n)
  | _ => false

/-- The buffer that a destroy operation is applied to. -/
def Event.destroyed_buffer : Event → Option Nat
  | Event.iio_buffer_destroy buf => some buf
  | _ => none

/-- The stage of `shutdown` an operation belongs to. -/
def Event.stage : Event → Nat
  | Event.iio_buffer_destroy _ => 1
  | Event.iio_channel_disable _ => 2
  | Event.iio_context_destroy _ => 3
  | Event.exit _ => 4
  | _ => 0

/-- Source: `errchk`: a negative result of an attribute operation ends the
program through `shutdown`. -/
def errchk (v : Int) (s : State) : Run :=
  if v < 0 then shutdown_run [] s
  else { trace := [], s := s, status := Status.running }

/-- Source: `wr_ch_lli`; `ret` is what `iio_channel_attr_write_longlong`
returns. -/
def wr_ch_lli (ret : Int) (chn : Nat) (what : String) (val : Int) (s : State) : Run :=
  Run.seq { trace := [Event.iio_channel_attr_write_longlong chn what val], s := s,
            status := Status.running } (errchk ret)

/-- Source: `rd_ch_lli`; `ret` is what `iio_channel_attr_read_longlong`
returns.  The value read is only printed by the callers and is left out. -/
def rd_ch_lli (ret : Int) (chn : Nat) (what : String) (s : State) : Run :=
  Run.seq { trace := [Event.iio_channel_attr_read_longlong chn what], s := s,
            status := Status.running } (errchk ret)

/-- The length of a copy. -/
def Event.copy_len : Event → Option Nat
  | Event.memcpy _ _ n => some n
  | _ => none

/-- The copies that the spec describes for a region of `r` bytes and a chunk
of `c` bytes: `r / c` full chunks, then one copy of `r % c` bytes. -/
def two_phase_lengths (r c : Nat) : List Nat :=
  List.replicate (r / c) c ++ [r % c]

/-- The operations of the loop body: push, refill, the copies and the bodies
of the port-1 loops. -/
def Event.is_stream_op : Event → Bool
  | Event.iio_buffer_push _ => true
  | Event.iio_buffer_refill _ => true
  | Event.memcpy _ _ _ => true
  | Event.swap_iq _ => true
  | Event.zero_iq _ => true
  | _ => false

/-- Calls of `iio_channel_enable`. -/
def Event.is_enable : Event → Bool
  | Event.iio_channel_enable _ => true
  | _ => false

/-- Calls of `iio_channel_disable`. -/
def Event.is_disable : Event → Bool
  | Event.iio_channel_disable _ => true
  | _ => false

/-- Calls of `iio_device_create_buffer`. -/
def Event.is_create : Event → Bool
  | Event.iio_device_create_buffer _ _ _ => true
  | _ => false

/-- The channel that an enable call is applied to (`none` for a call with
NULL). -/
def Event.enabled_channel : Event → Option (Option Nat)
  | Event.iio_channel_enable chn => some chn
  | _ => none

/-- The channel that a disable call is applied to. -/
def Event.disabled_channel : Event → Option (Option Nat)
  | Event.iio_channel_disable chn => some (some chn)
  | _ => none

/-- The buffers that the creation step of `main` has created: the TX buffer is
only asked for when the RX buffer was created. -/
def created_buffers (c : CreateEnv) : List Nat :=
  match c.rxbuf with
  | none => []
  | some b => b :: c.txbuf.toList

/-- The creation calls that `main` makes. -/
def creation_calls (c : CreateEnv) (l : Locals) : List Event :=
  Event.iio_device_create_buffer l.rx LIBIIO_PORT_SAMPLES false ::
    (if c.rxbuf.isSome then [Event.iio_device_create_buffer l.tx LIBIIO_PORT_SAMPLES false]
     else [])

/-- The globals after the creation step of `main`. -/
def globals_after_creation (c : CreateEnv) (g : Globals) : Globals :=
  { g with rxbuf := c.rxbuf, txbuf := if c.rxbuf.isSome then c.txbuf else g.txbuf }

/-- Globals of an `ENABLE_PORT1` build when the loop starts: all eight
streaming channels acquired. -/
def sample_globals_port1 : Globals :=
  { ctx := some 1, rx0_i := some 10, rx0_q := some 11, rx1_i := some 12, rx1_q := some 13,
    tx0_i := some 20, tx0_q := some 21, tx1_i := some 22, tx1_q := some 23,
    rxbuf := none, txbuf := none, stop := true }

/-- The context that a destroy operation is applied to. -/
def Event.destroyed_context : Event → Option Nat
  | Event.iio_context_destroy ctx => some ctx
  | _ => none

/-- Whether an operation is a call of the IIO library (a Context, Device,
Channel or Buffer operation) or an access to the memory of a buffer. -/
def Event.is_iio_op : Event → Bool
  | Event.printf _ => false
  | Event.exit _ => false
  | Event.abort => false
  | _ => true

/-- The shape of a piece of an execution that starts with the handles of `g`:
operations of the loop body, then either nothing more (the piece has not
exited) or the `shutdown` of these handles and `exit(0)`; the handles are as in
`g` afterwards. -/
def Run.stream_shape (g : Globals) (r : Run) : Prop :=
  ∃ body, body.all Event.is_stream_op = true ∧
    ((r.trace = body ∧ ∀ n, r.status ≠ Status.exited n) ∨
     (r.trace = body ++ shutdown g ∧ r.status = Status.exited 0)) ∧
    shutdown r.s.g = shutdown g

/-- The decimal digits of a natural number, most significant first: what `%d`
prints for a non-negative `int`. -/
def decimal_nat (n : Nat) : List Char :=
  if n = 0 then ['0'] else ((Nat.digits 10 n).map Nat.digitChar).reverse

/-- What the conversion `%d` of `snprintf` prints. -/
def fmt_d (i : Int) : List Char :=
  match i with
  | Int.ofNat n => decimal_nat n
  | Int.negSucc n => '-' :: decimal_nat (n + 1)

/-- Source: `static char tmpstr[64]`. -/
def TMPSTR_SIZE : Nat := 64

/-- What `snprintf(tmpstr, sizeof(tmpstr), ...)` leaves in `tmpstr` for the
formatted characters `out`: at most `sizeof(tmpstr) - 1` of them. -/
def snprintf_tmpstr (out : List Char) : String :=
  String.mk (out.take (TMPSTR_SIZE - 1))

/-- What the conversion `%c` adds to the C string: a NUL character ends the
string. -/
def fmt_c (c : Char) : List Char :=
  if c = Char.ofNat 0 then [] else [c]

/-- Source: `get_ch_name_mod`: the string that the call leaves in `tmpstr` and
returns (format `"%s%d_%c"`). -/
def get_ch_name_mod (type : String) (id : Int) (modify : Char) : String :=
  snprintf_tmpstr (type.data ++ fmt_d id ++ ['_'] ++ fmt_c modify)

/-- Source: `get_ch_name` (format `"%s%d"`). -/
def get_ch_name (type : String) (id : Int) : String :=
  snprintf_tmpstr (type.data ++ fmt_d id)

/-- Source: `enum iodev { RX, TX }`. -/
inductive iodev
  | RX
  | TX
  deriving DecidableEq, Repr

/-- Source: `struct stream_cfg`. -/
structure stream_cfg where
  bw_hz : Int
  fs_hz : Int
  lo_hz : Int
  deriving DecidableEq, Repr

/-- What libiio answers during the setup of `main`: the default context, its
number of devices, the lookups of devices and channels by name, and the
values returned by the attribute reads and writes. -/
structure SetupEnv where
  default_context : Option Nat
  devices_count : Nat
  find_device : String → Option Nat
  find_channel : Nat → String → Bool → Option Nat
  read_ret : Nat → String → Int
  write_ret : Nat → String → Int → Int

/-- A call of a function that returns a value: what it did, and the value it
returned, if it returned. -/
structure Call (α : Type) where
  run : Run
  val : Option α

/-- The rest of the program after a call that returns a value. -/
def Call.seq {α : Type} (c : Call α) (k : α → State → Run) : Run :=
  match c.val with
  | some v => c.run.seq (k v)
  | none => c.run

/-- Source: the macro `ASSERT(expr)`: a false expression ends the program
through `abort()`. -/
def ASSERT (expr : Bool) (s : State) : Run :=
  if expr then { trace := [], s := s, status := Status.running }
  else { trace := [Event.abort], s := s, status := Status.aborted }

/-- Source: `get_ad9371_phy`. -/
def get_ad9371_phy (env : SetupEnv) (ctx : Option Nat) (s : State) : Call Nat :=
  { run := Run.seq { trace := [Event.iio_context_find_device ctx "ad9371-phy"], s := s,
                     status := Status.running }
             (ASSERT (env.find_device "ad9371-phy").isSome),
    val := env.find_device "ad9371-phy" }

/-- Source: `get_ad9371_stream_dev`: the value is the returned `bool` and what
the call stores in `*dev`. -/
def get_ad9371_stream_dev (env : SetupEnv) (ctx : Option Nat) (d : iodev) (s : State) :
    Call (Bool × Option Nat) :=
  match d with
  | iodev.TX =>
    { run := { trace := [Event.iio_context_find_device ctx "axi-ad9371-tx-hpc"], s := s,
               status := Status.running },
      val := some ((env.find_device "axi-ad9371-tx-hpc").isSome,
        env.find_device "axi-ad9371-tx-hpc") }
  | iodev.RX =>
    { run := { trace := [Event.iio_context_find_device ctx "axi-ad9371-rx-hpc"], s := s,
               status := Status.running },
      val := some ((env.find_device "axi-ad9371-rx-hpc").isSome,
        env.find_device "axi-ad9371-rx-hpc") }

/-- The name that `get_ad9371_stream_ch` looks up:
`modify ? get_ch_name_mod("voltage", chid, modify) : get_ch_name("voltage", chid)`. -/
def stream_ch_name (chid : Int) (modify : Char) : String :=
  if modify ≠ Char.ofNat 0 then get_ch_name_mod "voltage" chid modify
  else get_ch_name "voltage" chid

/-- Source: `get_ad9371_stream_ch`, with a lookup that may answer the second
attempt (attempt 1) differently from the first (attempt 0): the value is the
returned `bool` and what the call stores in `*chn`.  The parameter `ctx` of the
source is not used by it and is left out. -/
def get_ad9371_stream_ch (lookup : Nat → Nat → String → Bool → Option Nat) (d : iodev)
    (dev : Nat) (chid : Int) (modify : Char) (s : State) : Call (Bool × Option Nat) :=
  let first := lookup 0 dev (stream_ch_name chid modify) (decide (d = iodev.TX))
  let t1 := [Event.iio_device_find_channel dev (stream_ch_name chid modify)
    (decide (d = iodev.TX))]
  if first.isNone then
    let second := lookup 1 dev (stream_ch_name chid modify) (decide (d = iodev.TX))
    { run := { trace := t1 ++ [Event.iio_device_find_channel dev (stream_ch_name chid modify)
                 (decide (d = iodev.TX))],
               s := s, status := Status.running },
      val := some (second.isSome, second) }
  else
    { run := { trace := t1, s := s, status := Status.running },
      val := some (first.isSome, first) }

/-- The single lookup that `get_ad9371_stream_ch` is said to amount to: one
call of `iio_device_find_channel`, its result stored, `true` returned when a
channel was found. -/
def stream_ch_single_lookup (find : Nat → String → Bool → Option Nat) (d : iodev)
    (dev : Nat) (chid : Int) (modify : Char) : Bool × Option Nat :=
  ((find dev (stream_ch_name chid modify) (decide (d = iodev.TX))).isSome,
    find dev (stream_ch_name chid modify) (decide (d = iodev.TX)))

/-- Source: `get_phy_chan`: the value is the returned `bool` and what the call
stores in `*chn`. -/
def get_phy_chan (env : SetupEnv) (ctx : Option Nat) (d : iodev) (chid : Int) (s : State) :
    Call (Bool × Option Nat) :=
  let output := match d with
    | iodev.RX => false
    | iodev.TX => true
  let phy := get_ad9371_phy env ctx s
  match phy.val with
  | none => { run := phy.run, val := none }
  | some dev =>
    { run := phy.run.seq fun s1 =>
        { trace := [Event.iio_device_find_channel dev (get_ch_name "voltage" chid) output],
          s := s1, status := Status.running },
      val := some ((env.find_channel dev (get_ch_name "voltage" chid) output).isSome,
        env.find_channel dev (get_ch_name "voltage" chid) output) }

/-- Source: `get_lo_chan`: the value is the returned `bool` and what the call
stores in `*chn`. -/
def get_lo_chan (env : SetupEnv) (ctx : Option Nat) (d : iodev) (s : State) :
    Call (Bool × Option Nat) :=
  let id : Int := match d with
    | iodev.RX => 0
    | iodev.TX => 1
  let phy := get_ad9371_phy env ctx s
  match phy.val with
  | none => { run := phy.run, val := none }
  | some dev =>
    { run := phy.run.seq fun s1 =>
        { trace := [Event.iio_device_find_channel dev (get_ch_name "altvoltage" id) true],
          s := s1, status := Status.running },
      val := some ((env.find_channel dev (get_ch_name "altvoltage" id) true).isSome,
        env.find_channel dev (get_ch_name "altvoltage" id) true) }

/-- Source: `type == TX ? "TX_LO_frequency" : "RX_LO_frequency"`. -/
def lo_attr (type : iodev) : String :=
  if type = iodev.TX then "TX_LO_frequency" else "RX_LO_frequency"

/-- A call that did `r` and returned `v` if `r` reached its end. -/
def Call.of_run {α : Type} (r : Run) (v : α) : Call α :=
  { run := r,
    val := match r.status with
      | Status.running => some v
      | _ => none }

/-- Source: `cfg_ad9371_streaming_ch`.  A channel handle that is `NULL` is
never passed on: the function returns before. -/
def cfg_ad9371_streaming_ch (env : SetupEnv) (ctx : Option Nat) (cfg : stream_cfg)
    (type : iodev) (chid : Int) (s : State) : Call Bool :=
  let phy := get_phy_chan env ctx type chid s
  match phy.val with
  | none => { run := phy.run, val := none }
  | some (false, _) => { run := phy.run, val := some false }
  | some (true, none) => { run := phy.run, val := some false }
  | some (true, some chn) =>
    let reads := (phy.run.seq
      (rd_ch_lli (env.read_ret chn "rf_bandwidth") chn "rf_bandwidth")).seq
      (rd_ch_lli (env.read_ret chn "sampling_frequency") chn "sampling_frequency")
    match reads.status with
    | Status.running =>
      let lo := get_lo_chan env ctx type reads.s
      let found : Run := { trace := reads.trace ++ lo.run.trace, s := lo.run.s,
                           status := lo.run.status }
      match lo.val with
      | none => { run := found, val := none }
      | some (false, _) => { run := found, val := some false }
      | some (true, none) => { run := found, val := some false }
      | some (true, some lochn) =>
        Call.of_run (found.seq
          (wr_ch_lli (env.write_ret lochn (lo_attr type) cfg.lo_hz) lochn (lo_attr type)
            cfg.lo_hz)) true
    | _ => { run := reads, val := none }

/-- Source: `GHZ(2.5)`, that is `(long long)(2.5*1000000000.0 + .5)`. -/
def GHZ_2_5 : Int := 2500000000

/-- The state in which `main` starts: the file-scope handles are `NULL`, the
flag is clear, the counters are 0. -/
def initial_state : State :=
  { g := { ctx := none, rx0_i := none, rx0_q := none, rx1_i := none, rx1_q := none,
           tx0_i := none, tx0_q := none, tx1_i := none, tx1_q := none,
           rxbuf := none, txbuf := none, stop := false },
    l := { rx := 0, tx := 0, nrx := 0, ntx := 0 } }

/-- Source: the acquisition of the context in `main`. -/
def main_acquire_context (env : SetupEnv) (s : State) : Run :=
  (Run.seq { trace := [Event.iio_create_default_context],
             s := { s with g := { s.g with ctx := env.default_context } },
             status := Status.running }
    (ASSERT env.default_context.isSome)).seq fun s1 =>
  Run.seq { trace := [Event.iio_context_get_devices_count s1.g.ctx], s := s1,
            status := Status.running }
    (ASSERT (decide (0 < env.devices_count)))

/-- Source: the acquisition of the two streaming devices in `main`.  A device
that is `NULL` is stored as 0; the `ASSERT` then ends the program. -/
def main_acquire_devices (env : SetupEnv) (s : State) : Run :=
  ((get_ad9371_stream_dev env s.g.ctx iodev.TX s).seq fun r s1 =>
    ASSERT r.1 { s1 with l := { s1.l with tx := r.2.getD 0 } }).seq fun s2 =>
  (get_ad9371_stream_dev env s2.g.ctx iodev.RX s2).seq fun r s3 =>
    ASSERT r.1 { s3 with l := { s3.l with rx := r.2.getD 0 } }

/-- Source: `ASSERT(cfg_ad9371_streaming_ch(ctx, &cfg, type, chid) && "...")`. -/
def assert_cfg (env : SetupEnv) (cfg : stream_cfg) (type : iodev) (chid : Int)
    (s : State) : Run :=
  (cfg_ad9371_streaming_ch env s.g.ctx cfg type chid s).seq fun ok s1 => ASSERT ok s1

/-- Source: the configuration of the ports in `main`. -/
def main_configure (port1 : Bool) (env : SetupEnv) (rxcfg txcfg : stream_cfg)
    (s : State) : Run :=
  ((assert_cfg env rxcfg iodev.RX 0 s).seq (assert_cfg env txcfg iodev.TX 0)).seq fun s1 =>
    if port1 then (assert_cfg env rxcfg iodev.RX 1 s1).seq (assert_cfg env txcfg iodev.TX 1)
    else { trace := [], s := s1, status := Status.running }

/-- Source: `ASSERT(get_ad9371_stream_ch(ctx, d, dev, chid, modify, &chn) && "...")`,
with `store` putting the handle into the variable `chn`. -/
def assert_stream_ch (env : SetupEnv) (d : iodev) (dev : Nat) (chid : Int) (modify : Char)
    (store : Option Nat → Globals → Globals) (s : State) : Run :=
  (get_ad9371_stream_ch (fun _ => env.find_channel) d dev chid modify s).seq fun r s1 =>
    ASSERT r.1 { s1 with g := store r.2 s1.g }

/-- Source: the acquisition of the streaming channels in `main`. -/
def main_acquire_channels (port1 : Bool) (env : SetupEnv) (s : State) : Run :=
  ((((assert_stream_ch env iodev.RX s.l.rx 0 'i' (fun c g => { g with rx0_i := c }) s).seq
    fun s1 => assert_stream_ch env iodev.RX s1.l.rx 0 'q'
      (fun c g => { g with rx0_q := c }) s1).seq
    fun s2 => assert_stream_ch env iodev.TX s2.l.tx 0 (Char.ofNat 0)
      (fun c g => { g with tx0_i := c }) s2).seq
    fun s3 => assert_stream_ch env iodev.TX s3.l.tx 1 (Char.ofNat 0)
      (fun c g => { g with tx0_q := c }) s3).seq fun s4 =>
  if port1 then
    (((assert_stream_ch env iodev.RX s4.l.rx 1 'i' (fun c g => { g with rx1_i := c }) s4).seq
      fun s5 => assert_stream_ch env iodev.RX s5.l.rx 1 'q'
        (fun c g => { g with rx1_q := c }) s5).seq
      fun s6 => assert_stream_ch env iodev.TX s6.l.tx 2 (Char.ofNat 0)
        (fun c g => { g with tx1_i := c }) s6).seq
      fun s7 => assert_stream_ch env iodev.TX s7.l.tx 3 (Char.ofNat 0)
        (fun c g => { g with tx1_q := c }) s7
  else { trace := [], s := s4, status := Status.running }

/-- Source: `main` up to the enabling of the streaming channels. -/
def main_setup (port1 : Bool) (env : SetupEnv) (rxcfg txcfg : stream_cfg) (s : State) : Run :=
  (((main_acquire_context env s).seq (main_acquire_devices env)).seq
    (main_configure port1 env rxcfg txcfg)).seq (main_acquire_channels port1 env)

/-- Source: `main`.  The two configurations are locals of which only `lo_hz`
is assigned: `bw_hz` and `fs_hz` keep whatever the stack held. -/
def main (port1 : Bool) (env : SetupEnv) (rx_stack tx_stack : stream_cfg) (c : CreateEnv)
    (envs : List IterEnv) : Run :=
  (main_setup port1 env { rx_stack with lo_hz := GHZ_2_5 } { tx_stack with lo_hz := GHZ_2_5 }
    initial_state).seq (main_streaming port1 c envs)

/-- Attribute writes. -/
def Event.is_attr_write : Event → Bool
  | Event.iio_channel_attr_write_longlong _ _ _ => true
  | _ => false

/-- Attribute reads and writes. -/
def Event.is_attr_io : Event → Bool
  | Event.iio_channel_attr_write_longlong _ _ _ => true
  | Event.iio_channel_attr_read_longlong _ _ => true
  | _ => false

/-- A board on which everything `main` looks for is there: context 1, the
devices 2 (RX), 3 (TX) and 4 (phy), their channels, and attribute operations
that succeed. -/
def sample_setup_env : SetupEnv :=
  { default_context := some 1,
    devices_count := 3,
    find_device := fun name =>
      if name = "axi-ad9371-rx-hpc" then some 2
      else if name = "axi-ad9371-tx-hpc" then some 3
      else if name = "ad9371-phy" then some 4
      else none,
    find_channel := fun dev name output =>
      if dev = 2 ∧ output = false ∧ name = "voltage0_i" then some 10
      else if dev = 2 ∧ output = false ∧ name = "voltage0_q" then some 11
      else if dev = 3 ∧ output = true ∧ name = "voltage0" then some 20
      else if dev = 3 ∧ output = true ∧ name = "voltage1" then some 21
      else if dev = 4 ∧ output = false ∧ name = "voltage0" then some 40
      else if dev = 4 ∧ output = true ∧ name = "voltage0" then some 41
      else if dev = 4 ∧ output = true ∧ name = "altvoltage0" then some 42
      else if dev = 4 ∧ output = true ∧ name = "altvoltage1" then some 43
      else none,
    read_ret := fun _ _ => 0,
    write_ret := fun _ _ _ => 0 }

/-- The board of `sample_setup_env` with a context that has no device. -/
def zero_devices_env : SetupEnv :=
  { sample_setup_env with devices_count := 0 }

/-- The board of `sample_setup_env` on which reading `rf_bandwidth` fails. -/
def failing_read_env : SetupEnv :=
  { sample_setup_env with
    read_ret := fun _ attr => if attr = "rf_bandwidth" then -22 else 0 }

/-- The state of `main` once the context is acquired on these boards. -/
def sample_cfg_state : State :=
  { initial_state with g := { initial_state.g with ctx := some 1 } }

/-- Source: the values that the counter of a chunk loop takes, one after each
`n -= 1200*4`, up to the one that ends the loop. -/
def chunk_countdown (n : Nat) : List Nat :=
  if h : size_sub n CHUNK ≤ CHUNK then
    [size_sub n CHUNK]
  else
    size_sub n CHUNK :: chunk_countdown (size_sub n CHUNK)
termination_by chunk_measure n
decreasing_by
  unfold chunk_measure
  unfold size_sub CHUNK at h
  unfold size_sub CHUNK
  split_ifs <;> omega

/-- Subtraction of two unsigned values of `w` bits. -/
def size_sub_w (w a b : Nat) : Nat :=
  (a % 2 ^ w + 2 ^ w - b % 2 ^ w) % 2 ^ w

/-- Source: the size of `uint8_t eth_txbuf[80+1200*4*1]`. -/
def ETH_TXBUF_SIZE : Nat := 80 + 1200 * 4 * 1

/-- Source: the size of `uint8_t eth_rxbuf[90+1200*4*1]`. -/
def ETH_RXBUF_SIZE : Nat := 90 + 1200 * 4 * 1

/-- Whether an access of `n` bytes at a location stays inside the staging array
it is in; buffer memory is not judged here. -/
def Loc.in_array (l : Loc) (n : Nat) : Bool :=
  match l with
  | Loc.mem _ => true
  | Loc.eth_txbuf off => decide (off + n ≤ ETH_TXBUF_SIZE)
  | Loc.eth_rxbuf off => decide (off + n ≤ ETH_RXBUF_SIZE)

/-- Whether an operation keeps to the staging arrays it touches. -/
def Event.in_staging_arrays : Event → Bool
  | Event.memcpy dst src n => dst.in_array n && src.in_array n
  | _ => true

end Stream

namespace Device

/-- C7: for every device and every index at or above its channel count,
`iio_device_get_channel` returns NULL, reads no element of the channel array
and faults nowhere. -/
theorem get_channel_out_of_range (dev : iio_device) (index : Nat)
    (h : iio_device_get_channels_count dev ≤ index) :
    iio_device_get_channel dev index = { ret := Ret.null, reads := [], dev := dev } := by
  unfold iio_device_get_channels_count at h
  simp [iio_device_get_channel, h]

theorem get_channel_out_of_range_witness :
    iio_device_get_channels_count sample_device ≤ 2 ∧
    iio_device_get_channel sample_device 2 =
      { ret := Ret.null, reads := [], dev := sample_device } :=
  ⟨by decide, get_channel_out_of_range sample_device 2 (by decide)⟩

/-- C8: for every well-formed device and every index below its channel count,
`iio_device_get_channel` returns the channel at position `index` of the channel
list, reading that one element; the device is as it was, and any number of
repeated calls all return that same channel. -/
theorem get_channel_in_range (dev : iio_device) (index : Nat) (hwf : dev.wf)
    (h : index < iio_device_get_channels_count dev) :
    ∃ chn, dev.channels[index]? = some chn ∧
      iio_device_get_channel dev index = { ret := Ret.ptr chn, reads := [index], dev := dev } ∧
      (iio_device_get_channel dev index).dev = dev ∧
      ∀ n, get_channel_calls dev index n = List.replicate n (Ret.ptr chn) := by
  unfold iio_device_get_channels_count at h
  have hlen : index < dev.channels.length := by rw [hwf.1]; exact h
  refine ⟨dev.channels[index], List.getElem?_eq_getElem hlen, ?_⟩
  have hcall : iio_device_get_channel dev index =
      { ret := Ret.ptr dev.channels[index], reads := [index], dev := dev } := by
    simp [iio_device_get_channel, h, List.getElem?_eq_getElem hlen]
  refine ⟨hcall, ?_, ?_⟩
  · rw [hcall]
  · intro n
    induction n with
    | zero => rfl
    | succ k ih =>
      rw [get_channel_calls, hcall]
      simp only [List.replicate_succ]
      rw [ih]

theorem get_channel_in_range_witness :
    sample_device.wf ∧ 1 < iio_device_get_channels_count sample_device ∧
    ∃ chn, sample_device.channels[1]? = some chn ∧
      iio_device_get_channel sample_device 1 =
        { ret := Ret.ptr chn, reads := [1], dev := sample_device } ∧
      (iio_device_get_channel sample_device 1).dev = sample_device ∧
      ∀ n, get_channel_calls sample_device 1 n = List.replicate n (Ret.ptr chn) :=
  ⟨by decide, by decide, get_channel_in_range sample_device 1 (by decide) (by decide)⟩

/-- C9: for every well-formed device and every index, `iio_device_get_attr`
returns the attribute name at position `index` of the attribute list when the
index is below `iio_device_get_attrs_count`, and NULL, without reading the
list, when it is not. -/
theorem get_attr_by_index (dev : iio_device) (index : Nat) (hwf : dev.wf) :
    (index < iio_device_get_attrs_count dev →
      ∃ attr, dev.attrs[index]? = some attr ∧
        iio_device_get_attr dev index =
          { ret := Ret.ptr attr, reads := [index], dev := dev }) ∧
    (iio_device_get_attrs_count dev ≤ index →
      iio_device_get_attr dev index = { ret := Ret.null, reads := [], dev := dev }) := by
  unfold iio_device_get_attrs_count
  constructor
  · intro h
    have hlen : index < dev.attrs.length := by rw [hwf.2]; exact h
    refine ⟨dev.attrs[index], List.getElem?_eq_getElem hlen, ?_⟩
    simp [iio_device_get_attr, h, List.getElem?_eq_getElem hlen]
  · intro h
    simp [iio_device_get_attr, h]

theorem get_attr_by_index_witness :
    sample_device.wf ∧
    (∃ attr, sample_device.attrs[2]? = some attr ∧
      iio_device_get_attr sample_device 2 =
        { ret := Ret.ptr attr, reads := [2], dev := sample_device }) ∧
    iio_device_get_attr sample_device 3 =
      { ret := Ret.null, reads := [], dev := sample_device } :=
  ⟨by decide, (get_attr_by_index sample_device 2 (by decide)).1 (by decide),
    (get_attr_by_index sample_device 3 (by decide)).2 (by decide)⟩

end Device

namespace Stream

/-- The number of samples a stride `t` visits from `s` below `e`. -/
theorem sample_count_step (s e t : Nat) (ht : 0 < t) (h : s < e) :
    (e - s + t - 1) / t = (e - (s + t) + t - 1) / t + 1 := by
  by_cases hle : s + t ≤ e
  · have h1 : e - s + t - 1 = (e - (s + t) + t - 1) + t := by omega
    rw [h1, Nat.add_div_right _ ht]
  · have h2 : e - (s + t) + t - 1 < t := by omega
    rw [Nat.div_eq_of_lt h2]
    have h3 : e - s + t - 1 = (e - s - 1) + t := by omega
    rw [h3, Nat.add_div_right _ ht]
    have h4 : e - s - 1 < t := by omega
    rw [Nat.div_eq_of_lt h4]

theorem sample_count_zero (s e t : Nat) (ht : 0 < t) (h : ¬ s < e) :
    (e - s + t - 1) / t = 0 := by
  apply Nat.div_eq_of_lt
  omega

theorem lt_sample_count_iff (s e t k : Nat) (ht : 0 < t) :
    k < (e - s + t - 1) / t ↔ k * t < e - s := by
  rw [Nat.lt_iff_add_one_le, Nat.le_div_iff_mul_le ht, Nat.add_mul]
  omega

theorem sample_count_le (s e t : Nat) (ht : 0 < t) : (e - s + t - 1) / t ≤ e - s := by
  apply Nat.le_of_not_lt
  intro hlt
  have h1 := (lt_sample_count_iff s e t (e - s) ht).1 hlt
  have h2 : e - s ≤ (e - s) * t := Nat.le_mul_of_pos_right _ ht
  omega

/-- With a positive stride and enough tests, the `for` loop ends and visits
`s, s + t, s + 2 t, ...` below `e`. -/
theorem foreach_sample_fuel_eq (fuel : Nat) :
    ∀ s e t : Nat, 0 < t → (e - s + t - 1) / t < fuel →
      foreach_sample_fuel fuel s e t =
        some ((List.range ((e - s + t - 1) / t)).map (fun k => s + k * t)) := by
  induction fuel with
  | zero => intro s e t _ h; exact absurd h (Nat.not_lt_zero _)
  | succ f ih =>
    intro s e t ht hf
    unfold foreach_sample_fuel
    by_cases h : s < e
    · rw [if_pos h]
      have hstep := sample_count_step s e t ht h
      rw [ih (s + t) e t ht (by omega), hstep, List.range_succ_eq_map]
      simp only [Option.map_some', List.map_cons, List.map_map, Option.some.injEq,
        Nat.zero_mul, Nat.add_zero, List.cons.injEq, true_and]
      apply List.map_congr_left
      intro k _
      simp only [Function.comp, Nat.succ_eq_add_one, Nat.add_mul, Nat.one_mul]
      omega
    · rw [if_neg h, sample_count_zero s e t ht h]
      rfl

theorem foreach_sample_eq (s e t : Nat) (ht : 0 < t) :
    foreach_sample s e t =
      some ((List.range ((e - s + t - 1) / t)).map (fun k => s + k * t)) := by
  unfold foreach_sample
  apply foreach_sample_fuel_eq _ s e t ht
  have := sample_count_le s e t ht
  omega

/-- C10: for every start `s`, end `e` and stride `t > 0`, the sample loop ends
and visits the offsets `s + k * t`, `k = 0, 1, ...`, that are below `e`: exactly
those, in strictly increasing order (so each once), and any larger number of
tests of the loop condition gives the same result.  For `s = 0`, `e = 4096`,
`t = 4` these are the 1024 offsets `0, 4, ..., 4092`. -/
theorem foreach_sample_visits :
    (∀ s e t : Nat, 0 < t →
      ∃ ps, foreach_sample s e t = some ps ∧
        ps = (List.range ((e - s + t - 1) / t)).map (fun k => s + k * t) ∧
        (∀ x, x ∈ ps ↔ ∃ k, x = s + k * t ∧ x < e) ∧
        List.Pairwise (fun a b => a < b) ps ∧
        ∀ fuel, e - s + 1 ≤ fuel → foreach_sample_fuel fuel s e t = some ps) ∧
    (foreach_sample 0 4096 4 = some ((List.range 1024).map (fun k => k * 4)) ∧
      ((List.range 1024).map (fun k => k * 4)).length = 1024 ∧
      ((List.range 1024).map (fun k => k * 4)).head? = some 0) := by
  constructor
  · intro s e t ht
    refine ⟨_, foreach_sample_eq s e t ht, rfl, ?_, ?_, ?_⟩
    · intro x
      simp only [List.mem_map, List.mem_range]
      constructor
      · rintro ⟨k, hk, rfl⟩
        refine ⟨k, rfl, ?_⟩
        have := (lt_sample_count_iff s e t k ht).1 hk
        omega
      · rintro ⟨k, rfl, hx⟩
        refine ⟨k, ?_, rfl⟩
        apply (lt_sample_count_iff s e t k ht).2
        omega
    · rw [List.pairwise_map]
      apply List.Pairwise.imp _ (List.pairwise_lt_range _)
      intro a b hab
      have : a * t < b * t := Nat.mul_lt_mul_of_pos_right hab ht
      omega
    · intro fuel hfuel
      apply foreach_sample_fuel_eq fuel s e t ht
      have := sample_count_le s e t ht
      omega
  · refine ⟨?_, by simp, by rw [List.range_succ_eq_map]; rfl⟩
    rw [foreach_sample_eq 0 4096 4 (by decide)]
    simp

theorem foreach_sample_visits_witness :
    0 < 4 ∧ ∃ ps, foreach_sample 0 4096 4 = some ps ∧
      ps = (List.range ((4096 - 0 + 4 - 1) / 4)).map (fun k => 0 + k * 4) ∧
      (∀ x, x ∈ ps ↔ ∃ k, x = 0 + k * 4 ∧ x < 4096) ∧
      List.Pairwise (fun a b => a < b) ps ∧
      ∀ fuel, 4096 - 0 + 1 ≤ fuel → foreach_sample_fuel fuel 0 4096 4 = some ps :=
  ⟨by decide, foreach_sample_visits.1 0 4096 4 (by decide)⟩

/-- A zero stride below the end never leaves the loop, whatever the number of
tests. -/
theorem foreach_sample_fuel_zero_stride (fuel s e : Nat) (h : s < e) :
    foreach_sample_fuel fuel s e 0 = none := by
  induction fuel with
  | zero => rfl
  | succ f ih =>
    unfold foreach_sample_fuel
    rw [if_pos h, Nat.add_zero, ih]
    rfl

theorem staged_append_if_set (l : List Event) (m n : Nat) (h : Option Nat) (f : Nat → Event)
    (hf : ∀ p, (f p).stage = n) (hmn : m ≤ n)
    (hl : List.Pairwise (fun a b => a.stage ≤ b.stage) l ∧ ∀ ev ∈ l, ev.stage ≤ m) :
    List.Pairwise (fun a b => a.stage ≤ b.stage) (l ++ if_set h f) ∧
      ∀ ev ∈ l ++ if_set h f, ev.stage ≤ n := by
  cases h with
  | none =>
    simp only [if_set, List.append_nil]
    exact ⟨hl.1, fun ev hev => Nat.le_trans (hl.2 ev hev) hmn⟩
  | some p =>
    simp only [if_set]
    refine ⟨?_, ?_⟩
    · rw [List.pairwise_append]
      refine ⟨hl.1, List.pairwise_singleton _ _, ?_⟩
      intro a ha b hb
      rw [List.mem_singleton] at hb
      rw [hb, hf p]
      exact Nat.le_trans (hl.2 a ha) hmn
    · intro ev hev
      rw [List.mem_append, List.mem_singleton] at hev
      rcases hev with hev | hev
      · exact Nat.le_trans (hl.2 ev hev) hmn
      · rw [hev, hf p]

theorem all_if_set (P : Event → Bool) (h : Option Nat) (f : Nat → Event)
    (hf : ∀ p, P (f p) = true) : (if_set h f).all P = true := by
  cases h with
  | none => rfl
  | some p => simp [if_set, hf p]

theorem filter_if_set_nil (P : Event → Bool) (h : Option Nat) (f : Nat → Event)
    (hf : ∀ p, P (f p) = false) : (if_set h f).filter P = [] := by
  cases h with
  | none => rfl
  | some p => simp [if_set, hf p]

theorem filter_if_set_self (P : Event → Bool) (h : Option Nat) (f : Nat → Event)
    (hf : ∀ p, P (f p) = true) : (if_set h f).filter P = if_set h f := by
  cases h with
  | none => rfl
  | some p => simp [if_set, hf p]

theorem destroyed_if_set_destroy (h : Option Nat) :
    (if_set h Event.iio_buffer_destroy).filterMap Event.destroyed_buffer = h.toList := by
  cases h <;> simp [if_set, Event.destroyed_buffer]

theorem destroyed_if_set_other (h : Option Nat) (f : Nat → Event)
    (hf : ∀ p, (f p).destroyed_buffer = none) :
    (if_set h f).filterMap Event.destroyed_buffer = [] := by
  cases h with
  | none => rfl
  | some p => simp [if_set, hf p]

theorem shutdown_destroyed_buffers (g : Globals) :
    (shutdown g).filterMap Event.destroyed_buffer = g.rxbuf.toList ++ g.txbuf.toList := by
  simp [shutdown, List.filterMap_append, destroyed_if_set_destroy,
    destroyed_if_set_other _ Event.iio_channel_disable (fun _ => rfl),
    destroyed_if_set_other _ Event.iio_context_destroy (fun _ => rfl),
    Event.destroyed_buffer]

theorem shutdown_deliver (pt : SigPoint) (e : IterEnv) (g : Globals) :
    shutdown (deliver pt e g) = shutdown g := by
  unfold deliver
  split <;> rfl

theorem deliver_txbuf (pt : SigPoint) (e : IterEnv) (g : Globals) :
    (deliver pt e g).txbuf = g.txbuf := by
  unfold deliver
  split <;> rfl

theorem deliver_rxbuf (pt : SigPoint) (e : IterEnv) (g : Globals) :
    (deliver pt e g).rxbuf = g.rxbuf := by
  unfold deliver
  split <;> rfl

theorem rx_chunk_loop_filter (P : Event → Bool)
    (hP : ∀ d s n, P (Event.memcpy d s n) = false) (n p : Nat) :
    (rx_chunk_loop n p).filter P = [] := by
  induction n, p using rx_chunk_loop.induct with
  | case1 n p h =>
    rw [rx_chunk_loop, dif_pos h]
    simp [hP]
  | case2 n p h ih =>
    rw [rx_chunk_loop, dif_neg h]
    simp [hP, ih]

theorem tx_chunk_loop_filter (P : Event → Bool)
    (hP : ∀ d s n, P (Event.memcpy d s n) = false) (n p : Nat) :
    (tx_chunk_loop n p).filter P = [] := by
  induction n, p using tx_chunk_loop.induct with
  | case1 n p h =>
    rw [tx_chunk_loop, dif_pos h]
    simp [hP]
  | case2 n p h ih =>
    rw [tx_chunk_loop, dif_neg h]
    simp [hP, ih]

theorem map_filter_nil (P : Event → Bool) (body : Nat → Event)
    (hP : ∀ p, P (body p) = false) (ps : List Nat) : (ps.map body).filter P = [] := by
  induction ps with
  | nil => rfl
  | cons a l ih => simp [hP a, ih]

theorem shutdown_filter_push_or_refill (g : Globals) :
    (shutdown g).filter Event.is_push_or_refill = [] := by
  simp [shutdown, List.filter_append, Event.is_push_or_refill,
    filter_if_set_nil Event.is_push_or_refill _ Event.iio_buffer_destroy (fun _ => rfl),
    filter_if_set_nil Event.is_push_or_refill _ Event.iio_channel_disable (fun _ => rfl),
    filter_if_set_nil Event.is_push_or_refill _ Event.iio_context_destroy (fun _ => rfl)]

theorem shutdown_filter_shutdown_op (g : Globals) :
    (shutdown g).filter Event.is_shutdown_op = shutdown g := by
  simp [shutdown, List.filter_append, Event.is_shutdown_op,
    filter_if_set_self Event.is_shutdown_op _ Event.iio_buffer_destroy (fun _ => rfl),
    filter_if_set_self Event.is_shutdown_op _ Event.iio_channel_disable (fun _ => rfl),
    filter_if_set_self Event.is_shutdown_op _ Event.iio_context_destroy (fun _ => rfl)]

theorem loop_body_push_fails (port1 : Bool) (e : IterEnv) (s : State)
    (h : e.push_ret < 0) :
    loop_body port1 e s =
      { trace := Event.iio_buffer_push s.g.txbuf :: shutdown s.g,
        s := { g := deliver SigPoint.after_push e (deliver SigPoint.before_push e s.g),
               l := s.l },
        status := Status.exited 0 } := by
  simp [loop_body, h, shutdown_run, shutdown_deliver, deliver_txbuf]

theorem loop_body_refill_fails (port1 : Bool) (e : IterEnv) (s : State)
    (hpush : 0 ≤ e.push_ret) (h : e.refill_ret < 0) :
    loop_body port1 e s =
      { trace := Event.iio_buffer_push s.g.txbuf :: Event.iio_buffer_refill s.g.rxbuf ::
          shutdown s.g,
        s := { g := after_iteration e s.g, l := s.l },
        status := Status.exited 0 } := by
  simp [loop_body, h, not_lt.mpr hpush, shutdown_run, shutdown_deliver, deliver_txbuf,
    deliver_rxbuf, after_iteration]

theorem port1_loop_trace_filter (P : Event → Bool) (X : List Event) (port1 : Bool)
    (body : Nat → Event) (first p_end p_inc : Nat) (pre : List Event) (s : State)
    (k : List Event → Run) (hbody : ∀ p, P (body p) = false) (hpre : pre.filter P = X)
    (hk : ∀ t, t.filter P = X → (k t).trace.filter P = X) :
    (port1_loop port1 body first p_end p_inc pre s k).trace.filter P = X := by
  unfold port1_loop
  cases port1 with
  | false => exact hk pre hpre
  | true =>
    simp only [if_true]
    cases foreach_sample first p_end p_inc with
    | none => exact hpre
    | some ps =>
      apply hk
      rw [List.filter_append, hpre, map_filter_nil P body hbody, List.append_nil]

/-- Every iteration calls `iio_buffer_push` first and once, and
`iio_buffer_refill` after it, once, unless the push failed. -/
theorem loop_body_calls (port1 : Bool) (e : IterEnv) (s : State) :
    (loop_body port1 e s).trace.filter Event.is_push_or_refill =
      if e.push_ret < 0 then [Event.iio_buffer_push s.g.txbuf]
      else [Event.iio_buffer_push s.g.txbuf, Event.iio_buffer_refill s.g.rxbuf] := by
  by_cases hpush : e.push_ret < 0
  · rw [loop_body_push_fails port1 e s hpush, if_pos hpush]
    simp [shutdown_filter_push_or_refill, Event.is_push_or_refill]
  · rw [if_neg hpush]
    by_cases hrefill : e.refill_ret < 0
    · rw [loop_body_refill_fails port1 e s (not_lt.mp hpush) hrefill]
      simp [shutdown_filter_push_or_refill, Event.is_push_or_refill]
    · unfold loop_body
      simp only [if_neg hpush, if_neg hrefill]
      apply port1_loop_trace_filter _ _ _ _ _ _ _ _ _ _ (fun _ => rfl)
      · simp [List.filter_append, Event.is_push_or_refill, deliver_txbuf, deliver_rxbuf,
          rx_chunk_loop_filter Event.is_push_or_refill (fun _ _ _ => rfl)]
      · intro t4 ht4
        apply port1_loop_trace_filter _ _ _ _ _ _ _ _ _ _ (fun _ => rfl)
        · rw [List.filter_append, ht4,
            tx_chunk_loop_filter Event.is_push_or_refill (fun _ _ _ => rfl), List.append_nil]
        · intro t6 ht6
          split
          · exact ht6
          · split <;> exact ht6

theorem port1_loop_head (a : Event) (port1 : Bool)
    (body : Nat → Event) (first p_end p_inc : Nat) (pre : List Event) (s : State)
    (k : List Event → Run) (hpre : ∃ tl, pre = a :: tl)
    (hk : ∀ t, (∃ tl, t = a :: tl) → ∃ tl, (k t).trace = a :: tl) :
    ∃ tl, (port1_loop port1 body first p_end p_inc pre s k).trace = a :: tl := by
  unfold port1_loop
  cases port1 with
  | false => exact hk pre hpre
  | true =>
    simp only [if_true]
    cases foreach_sample first p_end p_inc with
    | none => exact hpre
    | some ps =>
      apply hk
      obtain ⟨tl, htl⟩ := hpre
      exact ⟨tl ++ ps.map body, by rw [htl]; rfl⟩

theorem loop_body_head (port1 : Bool) (e : IterEnv) (s : State) :
    ∃ tl, (loop_body port1 e s).trace = Event.iio_buffer_push s.g.txbuf :: tl := by
  by_cases hpush : e.push_ret < 0
  · rw [loop_body_push_fails port1 e s hpush]
    exact ⟨_, rfl⟩
  · by_cases hrefill : e.refill_ret < 0
    · rw [loop_body_refill_fails port1 e s (not_lt.mp hpush) hrefill]
      exact ⟨_, rfl⟩
    · unfold loop_body
      simp only [if_neg hpush, if_neg hrefill]
      apply port1_loop_head
      · rw [deliver_txbuf]
        exact ⟨_, rfl⟩
      · intro t4 ht4
        apply port1_loop_head
        · obtain ⟨tl, htl⟩ := ht4
          exact ⟨tl ++ _, by rw [htl]; rfl⟩
        · intro t6 ht6
          split
          · exact ht6
          · split <;> exact ht6

/-- C3: in an iteration entered with the flag clear, the calls of push and
refill are the push, first, then at most the refill.  If the push returns a
negative value the execution is the push followed by `shutdown`, which exits
(no refill in that iteration, and the later iterations are not run).  If the
refill returns a negative value the execution is the push, the refill and
`shutdown`: no copy, the counters are as before, and again nothing follows.
`shutdown` issues no push and no refill. -/
theorem push_refill_fail_fast (port1 : Bool) (e : IterEnv) (rest : List IterEnv) (s : State)
    (hstop : s.g.stop = false) :
    ((loop_body port1 e s).trace.filter Event.is_push_or_refill =
      if e.push_ret < 0 then [Event.iio_buffer_push s.g.txbuf]
      else [Event.iio_buffer_push s.g.txbuf, Event.iio_buffer_refill s.g.rxbuf]) ∧
    (∃ tl, (loop_body port1 e s).trace = Event.iio_buffer_push s.g.txbuf :: tl) ∧
    (e.push_ret < 0 →
      (main_loop port1 (e :: rest) s).trace =
        Event.iio_buffer_push s.g.txbuf :: shutdown s.g ∧
      (main_loop port1 (e :: rest) s).status = Status.exited 0 ∧
      (main_loop port1 (e :: rest) s).s.l = s.l) ∧
    (0 ≤ e.push_ret → e.refill_ret < 0 →
      (main_loop port1 (e :: rest) s).trace =
        Event.iio_buffer_push s.g.txbuf :: Event.iio_buffer_refill s.g.rxbuf ::
          shutdown s.g ∧
      (main_loop port1 (e :: rest) s).status = Status.exited 0 ∧
      (main_loop port1 (e :: rest) s).s.l = s.l) ∧
    (shutdown s.g).filter Event.is_push_or_refill = [] ∧
    (shutdown s.g).filter Event.is_shutdown_op = shutdown s.g := by
  refine ⟨loop_body_calls port1 e s, loop_body_head port1 e s, ?_, ?_,
    shutdown_filter_push_or_refill s.g,
    shutdown_filter_shutdown_op s.g⟩
  · intro hpush
    simp [main_loop, hstop, loop_body_push_fails port1 e s hpush, Run.seq]
  · intro hpush hrefill
    simp [main_loop, hstop, loop_body_refill_fails port1 e s hpush hrefill, Run.seq]

theorem push_refill_fail_fast_witness :
    sample_state.g.stop = false ∧
    (main_loop false [sample_env none (-5) 2097152, sample_env none 2097152 2097152]
        sample_state).trace =
      [Event.iio_buffer_push (some 200),
       Event.iio_buffer_destroy 100, Event.iio_buffer_destroy 200,
       Event.iio_channel_disable 10, Event.iio_channel_disable 11,
       Event.iio_channel_disable 20, Event.iio_channel_disable 21,
       Event.iio_context_destroy 1, Event.exit 0] ∧
    (main_loop false [sample_env none 2097152 (-5), sample_env none 2097152 2097152]
        sample_state).trace =
      [Event.iio_buffer_push (some 200), Event.iio_buffer_refill (some 100),
       Event.iio_buffer_destroy 100, Event.iio_buffer_destroy 200,
       Event.iio_channel_disable 10, Event.iio_channel_disable 11,
       Event.iio_channel_disable 20, Event.iio_channel_disable 21,
       Event.iio_context_destroy 1, Event.exit 0] :=
  ⟨rfl,
   ((push_refill_fail_fast false (sample_env none (-5) 2097152)
      [sample_env none 2097152 2097152] sample_state rfl).2.2.1 (by decide)).1,
   ((push_refill_fail_fast false (sample_env none 2097152 (-5))
      [sample_env none 2097152 2097152] sample_state rfl).2.2.2.1 (by decide) (by decide)).1⟩

/-- C6: if the RX buffer is created and the creation of the TX buffer then
returns NULL, the execution is the channel enables, the two creation calls and
`shutdown` with `rxbuf` set and `txbuf` NULL; it ends in `exit`; the one buffer
destroy of the whole execution is that of the RX buffer; there is no push and
no refill. -/
theorem tx_buffer_creation_fails (port1 : Bool) (c : CreateEnv) (envs : List IterEnv)
    (s : State) (rxb : Nat) (hrx : c.rxbuf = some rxb) (htx : c.txbuf = none) :
    (main_streaming port1 c envs s).status = Status.exited 0 ∧
    (main_streaming port1 c envs s).trace =
      main_enable_channels port1 s.g ++
      [Event.iio_device_create_buffer s.l.rx LIBIIO_PORT_SAMPLES false,
       Event.iio_device_create_buffer s.l.tx LIBIIO_PORT_SAMPLES false] ++
      shutdown { s.g with rxbuf := some rxb, txbuf := none } ∧
    (main_streaming port1 c envs s).trace.filterMap Event.destroyed_buffer = [rxb] ∧
    (main_streaming port1 c envs s).trace.filter Event.is_push_or_refill = [] := by
  have hrun : main_streaming port1 c envs s =
      { trace := main_enable_channels port1 s.g ++
          [Event.iio_device_create_buffer s.l.rx LIBIIO_PORT_SAMPLES false,
           Event.iio_device_create_buffer s.l.tx LIBIIO_PORT_SAMPLES false] ++
          shutdown { s.g with rxbuf := some rxb, txbuf := none },
        s := { g := { s.g with rxbuf := some rxb, txbuf := none }, l := s.l },
        status := Status.exited 0 } := by
    simp [main_streaming, Run.seq, main_create_buffers, hrx, htx, shutdown_run]
  rw [hrun]
  refine ⟨rfl, rfl, ?_, ?_⟩
  · simp only [List.filterMap_append, shutdown_destroyed_buffers]
    cases port1 <;> simp [main_enable_channels, Event.destroyed_buffer]
  · simp only [List.filter_append, shutdown_filter_push_or_refill]
    cases port1 <;> simp [main_enable_channels, Event.is_push_or_refill]

theorem tx_buffer_creation_fails_witness :
    (CreateEnv.mk (some 100) none).rxbuf = some 100 ∧
    (CreateEnv.mk (some 100) none).txbuf = none ∧
    (main_streaming false (CreateEnv.mk (some 100) none) [sample_env none 2097152 2097152]
        sample_setup_state).trace =
      [Event.iio_channel_enable (some 10), Event.iio_channel_enable (some 11),
       Event.iio_channel_enable (some 20), Event.iio_channel_enable (some 21),
       Event.iio_device_create_buffer 2 524288 false,
       Event.iio_device_create_buffer 3 524288 false,
       Event.iio_buffer_destroy 100,
       Event.iio_channel_disable 10, Event.iio_channel_disable 11,
       Event.iio_channel_disable 20, Event.iio_channel_disable 21,
       Event.iio_context_destroy 1, Event.exit 0] :=
  ⟨rfl, rfl,
   (tx_buffer_creation_fails false (CreateEnv.mk (some 100) none)
      [sample_env none 2097152 2097152] sample_setup_state 100 rfl rfl).2.1⟩

theorem writes_mem_above (d a n : Nat) (src : Loc) (h : d + n ≤ a) :
    (Event.memcpy (Loc.mem d) src n).writes_mem a = false := by
  show decide (d ≤ a ∧ a < d + n) = false
  exact decide_eq_false (by omega)

theorem size_sub_short_region : size_sub (to_size 4096) CHUNK = 18446744073709550912 := by
  simp [size_sub, to_size, CHUNK]

theorem size_sub_wrapped : size_sub 18446744073709550912 CHUNK = 18446744073709546112 := by
  simp [size_sub, CHUNK]

theorem rx_chunk_loop_short_step1 :
    rx_chunk_loop (to_size 4096) 0 =
      Event.memcpy (Loc.eth_txbuf 80) (Loc.mem 0) CHUNK ::
        rx_chunk_loop 18446744073709550912 (0 + CHUNK) := by
  have c : ¬ size_sub (to_size 4096) CHUNK ≤ CHUNK := by
    rw [size_sub_short_region]
    simp [CHUNK]
  rw [rx_chunk_loop.eq_1, dif_neg c, size_sub_short_region]

theorem rx_chunk_loop_short_step2 :
    rx_chunk_loop 18446744073709550912 (0 + CHUNK) =
      Event.memcpy (Loc.eth_txbuf 80) (Loc.mem (0 + CHUNK)) CHUNK ::
        rx_chunk_loop 18446744073709546112 (0 + CHUNK + CHUNK) := by
  have c : ¬ size_sub 18446744073709550912 CHUNK ≤ CHUNK := by
    rw [size_sub_wrapped]
    simp [CHUNK]
  rw [rx_chunk_loop.eq_1, dif_neg c, size_sub_wrapped]

theorem size_sub_chunk (n : Nat) (h1 : CHUNK ≤ n) (h2 : n < 18446744073709551616) :
    size_sub n CHUNK = n - 4800 := by
  unfold size_sub
  unfold CHUNK at *
  omega

theorem range_map_split (p a b : Nat) :
    (List.range a).map (fun i => p + i) ++ (List.range b).map (fun i => p + a + i) =
      (List.range (a + b)).map (fun i => p + i) := by
  rw [List.range_add, List.map_append, List.map_map]
  congr 1
  apply List.map_congr_left
  intro i _
  simp only [Function.comp]
  omega

/-- From a counter of at least one chunk the RX loop reads the `n` bytes from
`p` on, each once and in order. -/
theorem rx_chunk_loop_reads_exact (n p : Nat) (h1 : CHUNK ≤ n)
    (h2 : n < 18446744073709551616) :
    (rx_chunk_loop n p).flatMap Event.read_bytes = (List.range n).map (fun i => p + i) := by
  have hc : CHUNK = 4800 := rfl
  induction n, p using rx_chunk_loop.induct with
  | case1 n p h =>
    have hs := size_sub_chunk n h1 h2
    have hn : n = CHUNK + (n - 4800) := by omega
    rw [rx_chunk_loop.eq_1, dif_pos h, hs]
    simp only [List.flatMap_cons, List.flatMap_nil, List.append_nil, Event.read_bytes]
    rw [range_map_split p CHUNK (n - 4800), ← hn]
  | case2 n p h ih =>
    have hs := size_sub_chunk n h1 h2
    have hn : n = CHUNK + (n - 4800) := by omega
    rw [hs] at h ih
    rw [rx_chunk_loop.eq_1, dif_neg (by rw [hs]; exact h), hs]
    simp only [List.flatMap_cons, Event.read_bytes]
    rw [ih (by omega) (by omega), range_map_split p CHUNK (n - 4800), ← hn]

/-- C1, at the region size 4096 (1024 samples of 4 bytes, first sample at
address 0): the RX copy starts with a full chunk of 4800 bytes, which reads
the byte at offset 4096, past the region; the counter then wraps to
`2 ^ 64 - 704` and a second full chunk is read at offset 4800.  At the region
size 2097152 the copy reads the bytes of the region, each once and in order. -/
theorem rx_copy_reads_past_short_region :
    (∃ tl, rx_chunk_loop (to_size 4096) 0 =
        Event.memcpy (Loc.eth_txbuf 80) (Loc.mem 0) 4800 ::
        Event.memcpy (Loc.eth_txbuf 80) (Loc.mem 4800) 4800 :: tl) ∧
    (Event.memcpy (Loc.eth_txbuf 80) (Loc.mem 0) 4800).reads_mem 4096 = true ∧
    size_sub (to_size 4096) CHUNK = 18446744073709550912 ∧
    (rx_chunk_loop (to_size 2097152) 0).flatMap Event.read_bytes =
      (List.range 2097152).map (fun i => 0 + i) := by
  have hc : CHUNK = 4800 := rfl
  have hsz : to_size 2097152 = 2097152 := by simp [to_size]
  refine ⟨⟨rx_chunk_loop 18446744073709546112 (0 + CHUNK + CHUNK), ?_⟩, ?_,
    size_sub_short_region, ?_⟩
  · rw [rx_chunk_loop_short_step1, rx_chunk_loop_short_step2]
    simp only [CHUNK]
  · show decide (0 ≤ 4096 ∧ 4096 < 0 + 4800) = true
    exact decide_eq_true (by omega)
  · rw [hsz]
    exact rx_chunk_loop_reads_exact 2097152 0 (by omega) (by omega)

/-- C2: the TX fill never moves its write pointer: whatever the span and the
start `p_dat`, no operation of the fill writes a byte at offset 4800 or above;
at the span 9600 the two chunks both land at offset 0. -/
theorem tx_fill_pointer_not_advanced :
    (∀ n p k, (tx_chunk_loop n p).all (fun ev => !ev.writes_mem (p + 4800 + k)) = true) ∧
    tx_chunk_loop 9600 0 =
      [Event.memcpy (Loc.mem 0) (Loc.eth_rxbuf 90) 4800,
       Event.memcpy (Loc.mem 0) (Loc.eth_rxbuf 90) 4800] := by
  have hc : CHUNK = 4800 := rfl
  constructor
  · intro n p k
    have e1 : p + CHUNK ≤ p + 4800 + k := by omega
    induction n, p using tx_chunk_loop.induct with
    | case1 n p h =>
      have e2 : p + size_sub n CHUNK ≤ p + 4800 + k := by omega
      rw [tx_chunk_loop.eq_1, dif_pos h]
      simp only [List.all_cons, List.all_nil, Bool.and_true]
      rw [writes_mem_above p _ CHUNK _ e1, writes_mem_above p _ _ _ e2]
      rfl
    | case2 n p h ih =>
      rw [tx_chunk_loop.eq_1, dif_neg h, List.all_cons, ih e1,
        writes_mem_above p _ CHUNK _ e1]
      rfl
  · have h1 : size_sub 9600 CHUNK = 4800 := by simp [size_sub, CHUNK]
    have c1 : size_sub 9600 CHUNK ≤ CHUNK := by
      rw [h1, hc]
    rw [tx_chunk_loop.eq_1, dif_pos c1, h1]
    simp only [CHUNK]

end Stream

namespace Device

theorem do_free_fresh (hist : List Op) (op : Op) (h : op.block ∉ hist.map Op.block) :
    do_free hist op = some (hist ++ [op]) := by
  unfold do_free
  rw [if_neg h]

theorem free_if_fresh (c : Bool) (op : Op) (hist : List Op)
    (h : c = true → op.block ∉ hist.map Op.block) :
    free_if c op hist = some (hist ++ if c then [op] else []) := by
  unfold free_if
  cases c with
  | false => simp
  | true => simp [do_free_fresh hist op (h rfl)]

theorem free_loop_fresh (f : Nat → Option Op) (g : Nat → Op) (is : List Nat) :
    ∀ hist : List Op, (∀ i ∈ is, f i = some (g i)) →
      (is.map (fun i => (g i).block)).Nodup →
      (∀ i ∈ is, (g i).block ∉ hist.map Op.block) →
      free_loop f is hist = some (hist ++ is.map g) := by
  induction is with
  | nil => intro hist _ _ _; simp [free_loop]
  | cons i rest ih =>
    intro hist hf hnd hlive
    rw [List.map_cons, List.nodup_cons] at hnd
    unfold free_loop
    rw [hf i (List.mem_cons_self _ _)]
    simp only []
    rw [do_free_fresh hist (g i) (hlive i (List.mem_cons_self _ _))]
    simp only [Option.some_bind]
    rw [ih (hist ++ [g i]) (fun j hj => hf j (List.mem_cons_of_mem _ hj)) hnd.2]
    · simp
    · intro j hj hmem
      rw [List.map_append, List.mem_append] at hmem
      rcases hmem with hmem | hmem
      · exact hlive j (List.mem_cons_of_mem _ hj) hmem
      · simp only [List.map_cons, List.map_nil, List.mem_singleton] at hmem
        apply hnd.1
        rw [← hmem]
        exact List.mem_map.mpr ⟨j, hj, rfl⟩

theorem filterMap_eq_map_of_some (f : Nat → Option Op) (g : Nat → Op) (is : List Nat)
    (h : ∀ i ∈ is, f i = some (g i)) : is.filterMap f = is.map g := by
  induction is with
  | nil => rfl
  | cons i rest ih =>
    rw [List.filterMap_cons, h i (List.mem_cons_self _ _), List.map_cons,
      ih (fun j hj => h j (List.mem_cons_of_mem _ hj))]

end Device

namespace Device

theorem do_free_nodup (hist h1 : List Op) (op : Op) (h : do_free hist op = some h1)
    (hnd : (hist.map Op.block).Nodup) : (h1.map Op.block).Nodup := by
  unfold do_free at h
  split at h
  · cases h
  · rename_i hn
    cases h
    rw [List.map_append, List.nodup_append]
    refine ⟨hnd, List.nodup_singleton _, ?_⟩
    intro a ha hb
    simp only [List.map_cons, List.map_nil, List.mem_singleton] at hb
    rw [hb] at ha
    exact hn ha

theorem free_if_nodup (c : Bool) (hist h1 : List Op) (op : Op)
    (h : free_if c op hist = some h1)
    (hnd : (hist.map Op.block).Nodup) : (h1.map Op.block).Nodup := by
  unfold free_if at h
  cases c with
  | false =>
    simp only [Bool.false_eq_true, if_false, Option.some.injEq] at h
    rw [← h]
    exact hnd
  | true =>
    simp only [if_true] at h
    exact do_free_nodup hist h1 op h hnd

theorem free_loop_nodup (f : Nat → Option Op) (is : List Nat) :
    ∀ hist h1 : List Op, free_loop f is hist = some h1 →
      (hist.map Op.block).Nodup → (h1.map Op.block).Nodup := by
  induction is with
  | nil =>
    intro hist h1 h hnd
    simp only [free_loop, Option.some.injEq] at h
    rw [← h]
    exact hnd
  | cons i rest ih =>
    intro hist h1 h hnd
    unfold free_loop at h
    cases hfi : f i with
    | none => rw [hfi] at h; cases h
    | some op =>
      rw [hfi] at h
      simp only [] at h
      cases hd : do_free hist op with
      | none => rw [hd] at h; cases h
      | some h2 =>
        rw [hd] at h
        exact ih h2 h1 h (do_free_nodup hist h2 op hd hnd)

/-- In a defined execution of `free_device` no block is released twice. -/
theorem free_device_nodup (hist h1 : List Op) (dev : iio_device)
    (h : free_device hist dev = some h1) (hnd : (hist.map Op.block).Nodup) :
    (h1.map Op.block).Nodup := by
  unfold free_device at h
  split at h
  · cases h
  · simp only [Option.bind_eq_some] at h
    obtain ⟨a1, e1, a2, e2, a3, e3, a4, e4, a5, e5, a6, e6, e7⟩ := h
    have n1 := free_loop_nodup _ _ _ _ e1 hnd
    have n2 := free_if_nodup _ _ _ _ e2 n1
    have n3 := free_loop_nodup _ _ _ _ e3 n2
    have n4 := free_if_nodup _ _ _ _ e4 n3
    have n5 := free_if_nodup _ _ _ _ e5 n4
    have n6 := free_if_nodup _ _ _ _ e6 n5
    exact do_free_nodup _ _ _ e7 n6

theorem free_device_fresh (dev : iio_device) (hwf : dev.wf) :
    free_device [] dev = some (expected_releases dev) := by
  obtain ⟨hc, ha⟩ := hwf
  have hfa : ∀ i ∈ List.range dev.nb_attrs,
      (dev.attrs[i]?).map (fun _ => Op.free (Block.attr i)) = some (Op.free (Block.attr i)) := by
    intro i hi
    rw [List.mem_range, ← ha] at hi
    rw [List.getElem?_eq_getElem hi]
    rfl
  have hfc : ∀ i ∈ List.range dev.nb_channels,
      (dev.channels[i]?).map (fun chn => Op.free_channel i chn) =
        some (Op.free_channel i ((dev.channels[i]?).getD { addr := 0 })) := by
    intro i hi
    rw [List.mem_range, ← hc] at hi
    rw [List.getElem?_eq_getElem hi]
    rfl
  have hnda : ((List.range dev.nb_attrs).map (fun i => (Op.free (Block.attr i)).block)).Nodup := by
    apply List.Nodup.map _ (List.nodup_range _)
    intro i j hij
    simp only [Op.block, Block.attr.injEq] at hij
    exact hij
  have hndc : ((List.range dev.nb_channels).map
      (fun i => (Op.free_channel i ((dev.channels[i]?).getD { addr := 0 })).block)).Nodup := by
    apply List.Nodup.map _ (List.nodup_range _)
    intro i j hij
    simp only [Op.block, Block.channel.injEq] at hij
    exact hij
  unfold free_device expected_releases
  rw [if_neg (by simp)]
  rw [free_loop_fresh _ (fun i => Op.free (Block.attr i)) _ [] hfa hnda (by simp)]
  simp only [Option.some_bind, List.nil_append]
  rw [free_if_fresh _ _ _ (by intro _; simp [Op.block])]
  simp only [Option.some_bind]
  rw [free_loop_fresh _ _ _ _ hfc hndc
    (by intro i _; simp only [Op.block]; split_ifs <;> simp [Op.block])]
  simp only [Option.some_bind]
  rw [free_if_fresh _ _ _ (by intro _; simp only [Op.block]; split_ifs <;> simp [Op.block])]
  simp only [Option.some_bind]
  rw [free_if_fresh _ _ _ (by intro _; simp only [Op.block]; split_ifs <;> simp [Op.block])]
  simp only [Option.some_bind]
  rw [free_if_fresh _ _ _ (by intro _; simp only [Op.block]; split_ifs <;> simp [Op.block])]
  simp only [Option.some_bind]
  rw [do_free_fresh _ _ (by simp only [Op.block]; split_ifs <;> simp [Op.block])]
  rw [filterMap_eq_map_of_some _ _ _ hfc]
  simp

end Device

namespace Device

theorem mem_expected_dev (dev : iio_device) : Op.free Block.dev ∈ expected_releases dev := by
  unfold expected_releases
  simp

theorem loopback_ops_is_loopback : is_loopback loopback_ops := by
  intro t dev attr src len hlen
  simp [loopback_ops, hlen]

/-- C11: for every well-formed device, `free_device` makes the releasing calls
of the source in order: `free` of each attribute string (each index below
`nb_attrs`), `free_channel` of each channel of the channel array (each index
below `nb_channels`), `free` of the name and of the id when they are present,
and `free(dev)` as the last call; no block is released twice. -/
theorem free_device_releases_all (dev : iio_device) (hwf : dev.wf) :
    ∃ trace, free_device [] dev = some trace ∧
      trace = expected_releases dev ∧
      (trace.map Op.block).Nodup ∧
      (∀ i, i < dev.nb_attrs → Op.free (Block.attr i) ∈ trace) ∧
      (∀ i, i < dev.nb_channels →
        ∃ chn, dev.channels[i]? = some chn ∧ Op.free_channel i chn ∈ trace) ∧
      (dev.name.isSome = true → Op.free Block.name ∈ trace) ∧
      (dev.id.isSome = true → Op.free Block.id ∈ trace) ∧
      (∃ pre, trace = pre ++ [Op.free Block.dev]) := by
  have hrun := free_device_fresh dev hwf
  refine ⟨_, hrun, rfl, free_device_nodup [] _ dev hrun (by simp), ?_, ?_, ?_, ?_, _, rfl⟩
  · intro i hi
    unfold expected_releases
    simp only [List.mem_append, List.mem_map, List.mem_range]
    exact Or.inl (Or.inl (Or.inl (Or.inl (Or.inl (Or.inl ⟨i, hi, rfl⟩)))))
  · intro i hi
    have hlen : i < dev.channels.length := by rw [hwf.1]; exact hi
    refine ⟨dev.channels[i], List.getElem?_eq_getElem hlen, ?_⟩
    unfold expected_releases
    simp only [List.mem_append, List.mem_filterMap, List.mem_range]
    refine Or.inl (Or.inl (Or.inl (Or.inl (Or.inr ⟨i, hi, ?_⟩))))
    rw [List.getElem?_eq_getElem hlen]
    rfl
  · intro hn
    unfold expected_releases
    simp [hn]
  · intro hn
    unfold expected_releases
    simp [hn]

theorem free_device_releases_all_witness :
    sample_device.wf ∧
    ∃ trace, free_device [] sample_device = some trace ∧
      trace = expected_releases sample_device ∧
      (trace.map Op.block).Nodup ∧
      (∀ i, i < sample_device.nb_attrs → Op.free (Block.attr i) ∈ trace) ∧
      (∀ i, i < sample_device.nb_channels →
        ∃ chn, sample_device.channels[i]? = some chn ∧ Op.free_channel i chn ∈ trace) ∧
      (sample_device.name.isSome = true → Op.free Block.name ∈ trace) ∧
      (sample_device.id.isSome = true → Op.free Block.id ∈ trace) ∧
      (∃ pre, trace = pre ++ [Op.free Block.dev]) :=
  ⟨by decide, free_device_releases_all sample_device (by decide)⟩

/-- C12 as stated fails on the sample device: the first call of `free_device`
is defined, and a second call after it does not leave the releases as the
first call left them. -/
theorem free_device_twice_not_noop :
    ∃ h1, free_device [] sample_device = some h1 ∧
      free_device h1 sample_device ≠ some h1 :=
  ⟨expected_releases sample_device, by decide, by decide⟩

/-- C12, amended: for every well-formed device the first call of `free_device`
releases the device itself, and a second call on the same device is undefined
(it reads the released device and would release its blocks again), not a
no-op. -/
theorem free_device_second_call_undefined (dev : iio_device) (hwf : dev.wf) :
    ∃ h1, free_device [] dev = some h1 ∧
      Op.free Block.dev ∈ h1 ∧
      free_device h1 dev = none := by
  refine ⟨_, free_device_fresh dev hwf, mem_expected_dev dev, ?_⟩
  unfold free_device
  rw [if_pos]
  exact List.mem_map.mpr ⟨_, mem_expected_dev dev, rfl⟩

theorem free_device_second_call_undefined_witness :
    sample_device.wf ∧
    ∃ h1, free_device [] sample_device = some h1 ∧
      Op.free Block.dev ∈ h1 ∧
      free_device h1 sample_device = none :=
  ⟨by decide, free_device_second_call_undefined sample_device (by decide)⟩

/-- C13: `iio_device_attr_read` and `iio_device_attr_write` return what the
`read_attr` and `write_attr` of the context of the device return for the same
arguments; with a transport that keeps the list of the calls it receives, each
of the two adds exactly one call, with the arguments it was given, and two
reads in a row add two calls. -/
theorem attr_io_single_call {σ : Type} (ops : iio_context_ops σ)
    (ctxs : Nat → iio_context (σ × List TransportCall)) (t : σ) (log : List TransportCall)
    (dev : iio_device) (attr src : String) (len : Nat)
    (h : (ctxs dev.ctx).ops = logged ops) :
    iio_device_attr_read ctxs (t, log) dev attr len =
      (((ops.read_attr t dev attr len).1, log ++ [TransportCall.read_attr dev attr len]),
        (ops.read_attr t dev attr len).2) ∧
    iio_device_attr_write ctxs (t, log) dev attr src =
      (((ops.write_attr t dev attr src).1, log ++ [TransportCall.write_attr dev attr src]),
        (ops.write_attr t dev attr src).2) ∧
    (iio_device_attr_read ctxs (iio_device_attr_read ctxs (t, log) dev attr len).1
        dev attr len).1.2 =
      log ++ [TransportCall.read_attr dev attr len, TransportCall.read_attr dev attr len] := by
  unfold iio_device_attr_read iio_device_attr_write
  rw [h]
  simp [logged]

theorem attr_io_single_call_witness :
    iio_device_attr_write (fun _ => { ops := logged loopback_ops }) ([], []) sample_device
        "calibrate" "1" =
      (([(sample_device, "calibrate", "1")],
        [TransportCall.write_attr sample_device "calibrate" "1"]), 2) ∧
    (iio_device_attr_read (fun _ => { ops := logged loopback_ops })
        ([(sample_device, "calibrate", "1")], []) sample_device "calibrate" 16).1.2 =
      [TransportCall.read_attr sample_device "calibrate" 16] :=
  ⟨(attr_io_single_call loopback_ops (fun _ => { ops := logged loopback_ops }) [] []
      sample_device "calibrate" "1" 16 rfl).2.1,
   congrArg (fun r => r.1.2)
    (attr_io_single_call loopback_ops (fun _ => { ops := logged loopback_ops })
      [(sample_device, "calibrate", "1")] [] sample_device "calibrate" "1" 16 rfl).1⟩

/-- C14: for every transport with the loopback property, every device,
attribute name and value, and every destination length that the value fits,
`iio_device_attr_write` followed by `iio_device_attr_read` of the same
attribute stores the value that was written. -/
theorem attr_write_read_round_trip {σ : Type} (ctxs : Nat → iio_context σ) (t : σ)
    (dev : iio_device) (attr src : String) (len : Nat)
    (hloop : is_loopback (ctxs dev.ctx).ops) (hfit : src.length < len) :
    (iio_device_attr_read ctxs (iio_device_attr_write ctxs t dev attr src).1
      dev attr len).2.2 = src := by
  unfold iio_device_attr_read iio_device_attr_write
  exact hloop t dev attr src len hfit

theorem attr_write_read_round_trip_witness :
    is_loopback loopback_ops ∧ "2500000000".length < 16 ∧
    (iio_device_attr_read (fun _ => { ops := loopback_ops })
      (iio_device_attr_write (fun _ => { ops := loopback_ops }) [] sample_device
        "sampling_frequency" "2500000000").1
      sample_device "sampling_frequency" 16).2.2 = "2500000000" :=
  ⟨loopback_ops_is_loopback, by decide,
   attr_write_read_round_trip (fun _ => { ops := loopback_ops }) [] sample_device
     "sampling_frequency" "2500000000" 16 loopback_ops_is_loopback (by decide)⟩

end Device

namespace Stream

/-- From a counter of at least one chunk the RX loop makes
`max 1 (ceil (n / 4800) - 1)` copies of a whole chunk and then one copy of the
rest. -/
theorem rx_chunk_loop_lengths (n p : Nat) (h1 : CHUNK ≤ n) (h2 : n < 18446744073709551616) :
    (rx_chunk_loop n p).filterMap Event.copy_len =
      List.replicate (max 1 ((n + 4799) / 4800 - 1)) 4800 ++
        [n - 4800 * max 1 ((n + 4799) / 4800 - 1)] := by
  have hc : CHUNK = 4800 := rfl
  induction n, p using rx_chunk_loop.induct with
  | case1 n p h =>
    have hs := size_sub_chunk n h1 h2
    rw [hs, hc] at h
    rw [hc] at h1
    have hk : max 1 ((n + 4799) / 4800 - 1) = 1 := by
      rw [Nat.max_def]
      split_ifs <;> omega
    rw [rx_chunk_loop.eq_1, dif_pos (by rw [hs, hc]; exact h), hs, hk]
    simp [Event.copy_len, hc]
  | case2 n p h ih =>
    have hs := size_sub_chunk n h1 h2
    rw [hs, hc] at h
    rw [hs] at ih
    rw [hc] at h1
    have hk' : max 1 ((n - 4800 + 4799) / 4800 - 1) = (n - 4800 + 4799) / 4800 - 1 := by
      rw [Nat.max_def]
      split_ifs <;> omega
    have hk : max 1 ((n + 4799) / 4800 - 1) = ((n - 4800 + 4799) / 4800 - 1) + 1 := by
      rw [Nat.max_def]
      split_ifs <;> omega
    rw [rx_chunk_loop.eq_1, dif_neg (by rw [hs, hc]; exact h), hs]
    rw [List.filterMap_cons]
    simp only [Event.copy_len]
    rw [ih (by rw [hc]; omega) (by omega), hk', hk, List.replicate_succ, hc]
    simp only [List.cons_append, List.cons.injEq, true_and, List.append_cancel_left_eq]
    refine ⟨?_, trivial⟩
    omega

end Stream

namespace Stream

theorem tx_chunk_loop_lengths (n p : Nat) (h1 : CHUNK ≤ n) (h2 : n < 18446744073709551616) :
    (tx_chunk_loop n p).filterMap Event.copy_len =
      List.replicate (max 1 ((n + 4799) / 4800 - 1)) 4800 ++
        [n - 4800 * max 1 ((n + 4799) / 4800 - 1)] := by
  have hc : CHUNK = 4800 := rfl
  induction n, p using tx_chunk_loop.induct with
  | case1 n p h =>
    have hs := size_sub_chunk n h1 h2
    rw [hs, hc] at h
    rw [hc] at h1
    have hk : max 1 ((n + 4799) / 4800 - 1) = 1 := by
      rw [Nat.max_def]
      split_ifs <;> omega
    rw [tx_chunk_loop.eq_1, dif_pos (by rw [hs, hc]; exact h), hs, hk]
    simp [Event.copy_len, hc]
  | case2 n p h ih =>
    have hs := size_sub_chunk n h1 h2
    rw [hs, hc] at h
    rw [hs] at ih
    rw [hc] at h1
    have hk' : max 1 ((n - 4800 + 4799) / 4800 - 1) = (n - 4800 + 4799) / 4800 - 1 := by
      rw [Nat.max_def]
      split_ifs <;> omega
    have hk : max 1 ((n + 4799) / 4800 - 1) = ((n - 4800 + 4799) / 4800 - 1) + 1 := by
      rw [Nat.max_def]
      split_ifs <;> omega
    rw [tx_chunk_loop.eq_1, dif_neg (by rw [hs, hc]; exact h), hs]
    rw [List.filterMap_cons]
    simp only [Event.copy_len]
    rw [ih (by rw [hc]; omega) (by omega), hk', hk, List.replicate_succ, hc]
    simp only [List.cons_append, List.cons.injEq, true_and, List.append_cancel_left_eq]
    refine ⟨?_, trivial⟩
    omega

theorem rx_chunk_loop_all (P : Event → Bool) (hP : ∀ d s n, P (Event.memcpy d s n) = true)
    (n p : Nat) : (rx_chunk_loop n p).all P = true := by
  induction n, p using rx_chunk_loop.induct with
  | case1 n p h =>
    rw [rx_chunk_loop.eq_1, dif_pos h, List.all_cons, List.all_cons, hP, hP]
    rfl
  | case2 n p h ih =>
    rw [rx_chunk_loop.eq_1, dif_neg h, List.all_cons, ih, hP]
    rfl

theorem tx_chunk_loop_all (P : Event → Bool) (hP : ∀ d s n, P (Event.memcpy d s n) = true)
    (n p : Nat) : (tx_chunk_loop n p).all P = true := by
  induction n, p using tx_chunk_loop.induct with
  | case1 n p h =>
    rw [tx_chunk_loop.eq_1, dif_pos h, List.all_cons, List.all_cons, hP, hP]
    rfl
  | case2 n p h ih =>
    rw [tx_chunk_loop.eq_1, dif_neg h, List.all_cons, ih, hP]
    rfl

theorem map_all (P : Event → Bool) (body : Nat → Event) (hP : ∀ p, P (body p) = true)
    (ps : List Nat) : (ps.map body).all P = true := by
  induction ps with
  | nil => rfl
  | cons a l ih => rw [List.map_cons, List.all_cons, hP, ih]; rfl

/-- A property of the result of a port-1 loop follows from the property of the
stuck result and of the continuation, for every trace that extends `pre` by
operations of the loop. -/
theorem port1_loop_ind (P : List Event → Prop) (Q : Run → Prop) (port1 : Bool)
    (body : Nat → Event) (first p_end p_inc : Nat) (pre : List Event) (s : State)
    (k : List Event → Run) (hpre : P pre) (hstep : ∀ ps : List Nat, P (pre ++ ps.map body))
    (hstuck : Q { trace := pre, s := s, status := Status.stuck })
    (hk : ∀ t, P t → Q (k t)) :
    Q (port1_loop port1 body first p_end p_inc pre s k) := by
  unfold port1_loop
  cases port1 with
  | false => exact hk pre hpre
  | true =>
    simp only [if_true]
    cases foreach_sample first p_end p_inc with
    | none => exact hstuck
    | some ps => exact hk _ (hstep ps)

theorem shutdown_run_shape (g : Globals) (pre : List Event) (s : State)
    (hpre : pre.all Event.is_stream_op = true) (hs : shutdown s.g = shutdown g) :
    Run.stream_shape g (shutdown_run pre s) := by
  refine ⟨pre, hpre, Or.inr ⟨?_, rfl⟩, hs⟩
  simp [shutdown_run, hs]

theorem loop_body_shape (port1 : Bool) (e : IterEnv) (s : State) :
    Run.stream_shape s.g (loop_body port1 e s) := by
  unfold loop_body
  simp only []
  split
  · exact shutdown_run_shape _ _ _ rfl (by simp [shutdown_deliver])
  · split
    · exact shutdown_run_shape _ _ _ rfl (by simp [shutdown_deliver])
    · apply port1_loop_ind (fun t => t.all Event.is_stream_op = true)
      · simp [Event.is_stream_op, rx_chunk_loop_all Event.is_stream_op (fun _ _ _ => rfl)]
      · intro ps
        simp [Event.is_stream_op, rx_chunk_loop_all Event.is_stream_op (fun _ _ _ => rfl),
          map_all Event.is_stream_op Event.swap_iq (fun _ => rfl)]
      · exact ⟨_, by simp [Event.is_stream_op,
          rx_chunk_loop_all Event.is_stream_op (fun _ _ _ => rfl)],
          Or.inl ⟨rfl, fun n h => by cases h⟩, by simp [shutdown_deliver]⟩
      · intro t4 ht4
        apply port1_loop_ind (fun t => t.all Event.is_stream_op = true)
        · simp [ht4, tx_chunk_loop_all Event.is_stream_op (fun _ _ _ => rfl)]
        · intro ps
          simp [ht4, tx_chunk_loop_all Event.is_stream_op (fun _ _ _ => rfl),
            map_all Event.is_stream_op Event.zero_iq (fun _ => rfl)]
        · exact ⟨_, by simp [ht4, tx_chunk_loop_all Event.is_stream_op (fun _ _ _ => rfl)],
            Or.inl ⟨rfl, fun n h => by cases h⟩, by simp [shutdown_deliver]⟩
        · intro t6 ht6
          split
          · exact ⟨_, ht6, Or.inl ⟨rfl, fun n h => by cases h⟩, by simp [shutdown_deliver]⟩
          · split
            · exact ⟨_, ht6, Or.inl ⟨rfl, fun n h => by cases h⟩, by simp [shutdown_deliver]⟩
            · exact ⟨_, ht6, Or.inl ⟨rfl, fun n h => by cases h⟩, by simp [shutdown_deliver]⟩

theorem seq_shape (g : Globals) (r : Run) (k : State → Run) (hr : Run.stream_shape g r)
    (hk : ∀ s, shutdown s.g = shutdown g → Run.stream_shape g (k s)) :
    Run.stream_shape g (r.seq k) := by
  unfold Run.seq
  obtain ⟨body, hb, hcase, hsd⟩ := hr
  split
  · rename_i hrun
    obtain ⟨body2, hb2, hcase2, hsd2⟩ := hk r.s hsd
    rcases hcase with ⟨ht, _⟩ | ⟨_, hst⟩
    · refine ⟨body ++ body2, by simp [hb, hb2], ?_, hsd2⟩
      rcases hcase2 with ⟨ht2, hn2⟩ | ⟨ht2, hs2⟩
      · exact Or.inl ⟨by simp [ht, ht2], hn2⟩
      · exact Or.inr ⟨by simp [ht, ht2], hs2⟩
    · rw [hrun] at hst
      cases hst
  · exact ⟨body, hb, hcase, hsd⟩

theorem main_loop_shape (port1 : Bool) (envs : List IterEnv) :
    ∀ s : State, Run.stream_shape s.g (main_loop port1 envs s) := by
  induction envs with
  | nil =>
    intro s
    unfold main_loop
    split
    · exact shutdown_run_shape _ _ _ rfl rfl
    · exact ⟨[], rfl, Or.inl ⟨rfl, fun n h => by cases h⟩, rfl⟩
  | cons e rest ih =>
    intro s
    unfold main_loop
    split
    · exact shutdown_run_shape _ _ _ rfl rfl
    · apply seq_shape _ _ _ (loop_body_shape port1 e s)
      intro s1 hs1
      obtain ⟨body, hb, hcase, hsd⟩ := ih s1
      rw [hs1] at hcase hsd
      exact ⟨body, hb, hcase, hsd⟩

end Stream

namespace Stream

theorem to_size_of_nat (n : Nat) (h : n < 18446744073709551616) : to_size (n : Int) = n := by
  unfold to_size
  have : ((n : Int) % 18446744073709551616) = (n : Int) := by omega
  rw [this]
  exact Int.toNat_ofNat n

/-- C15 as stated fails at the region size 9600, a multiple of the chunk: the
RX loop makes two copies, of 4800 and 4800 bytes, where the claim has two full
chunks followed by a final copy of 0 bytes. -/
theorem two_phase_counts_fail_at_multiple :
    (rx_chunk_loop (to_size 9600) 0).filterMap Event.copy_len = [4800, 4800] ∧
    two_phase_lengths 9600 CHUNK = [4800, 4800, 0] ∧
    (rx_chunk_loop (to_size 9600) 0).filterMap Event.copy_len ≠
      two_phase_lengths 9600 CHUNK := by
  have hc : CHUNK = 4800 := rfl
  have hsz : to_size 9600 = 9600 := to_size_of_nat 9600 (by omega)
  have h1 : (rx_chunk_loop (to_size 9600) 0).filterMap Event.copy_len = [4800, 4800] := by
    rw [hsz, rx_chunk_loop_lengths 9600 0 (by omega) (by omega)]
    rfl
  have h2 : two_phase_lengths 9600 CHUNK = [4800, 4800, 0] := by
    rw [hc]
    rfl
  refine ⟨h1, h2, ?_⟩
  rw [h1, h2]
  intro h
  cases h

/-- C15, amended: for every counter `r` of at least one chunk (RX: the refill
byte count, TX: the span), both loops make `max 1 (ceil (r / 4800) - 1)` copies
of 4800 bytes and then exactly one copy of the rest, which is at most 4800
bytes; these are `r / 4800` full chunks and a final copy of `r % 4800` bytes
when `r` is not a multiple of 4800 or is 4800 itself. -/
theorem two_phase_copy_counts (r p : Nat) (h1 : 4800 ≤ r) (h2 : r < 18446744073709551616) :
    (rx_chunk_loop r p).filterMap Event.copy_len =
      List.replicate (max 1 ((r + 4799) / 4800 - 1)) 4800 ++
        [r - 4800 * max 1 ((r + 4799) / 4800 - 1)] ∧
    (tx_chunk_loop r p).filterMap Event.copy_len =
      List.replicate (max 1 ((r + 4799) / 4800 - 1)) 4800 ++
        [r - 4800 * max 1 ((r + 4799) / 4800 - 1)] ∧
    4800 * max 1 ((r + 4799) / 4800 - 1) ≤ r ∧
    r - 4800 * max 1 ((r + 4799) / 4800 - 1) ≤ 4800 ∧
    (r % 4800 ≠ 0 ∨ r = 4800 →
      (rx_chunk_loop r p).filterMap Event.copy_len = two_phase_lengths r CHUNK ∧
      (tx_chunk_loop r p).filterMap Event.copy_len = two_phase_lengths r CHUNK) := by
  have hc : CHUNK = 4800 := rfl
  have hrx := rx_chunk_loop_lengths r p (by rw [hc]; exact h1) h2
  have htx := tx_chunk_loop_lengths r p (by rw [hc]; exact h1) h2
  have hk : max 1 ((r + 4799) / 4800 - 1) = if r ≤ 9600 then 1 else (r + 4799) / 4800 - 1 := by
    rw [Nat.max_def]
    split_ifs <;> omega
  refine ⟨hrx, htx, ?_, ?_, ?_⟩
  · rw [hk]
    split_ifs <;> omega
  · rw [hk]
    split_ifs <;> omega
  · intro hmod
    have hq : max 1 ((r + 4799) / 4800 - 1) = r / 4800 := by
      rw [hk]
      split_ifs <;> omega
    have htail : r - 4800 * (r / 4800) = r % 4800 := by omega
    rw [hrx, htx, hq, htail]
    unfold two_phase_lengths
    rw [hc]
    exact ⟨rfl, rfl⟩

theorem two_phase_copy_counts_witness :
    (4800 ≤ 2097152 ∧
      (rx_chunk_loop 2097152 0).filterMap Event.copy_len = List.replicate 436 4800 ++ [4352] ∧
      (tx_chunk_loop 2097152 0).filterMap Event.copy_len = List.replicate 436 4800 ++ [4352]) ∧
    (4800 ≤ 9600 ∧
      (rx_chunk_loop 9600 0).filterMap Event.copy_len = [4800, 4800]) :=
  ⟨⟨by omega, (two_phase_copy_counts 2097152 0 (by omega) (by omega)).1,
      (two_phase_copy_counts 2097152 0 (by omega) (by omega)).2.1⟩,
   ⟨by omega, (two_phase_copy_counts 9600 0 (by omega) (by omega)).1⟩⟩

end Stream

namespace Stream

theorem main_streaming_shape (port1 : Bool) (c : CreateEnv) (envs : List IterEnv)
    (s : State) :
    ∃ r : Run, Run.stream_shape (globals_after_creation c s.g) r ∧
      (main_streaming port1 c envs s).trace =
        main_enable_channels port1 s.g ++ creation_calls c s.l ++ r.trace ∧
      (main_streaming port1 c envs s).status = r.status := by
  obtain ⟨rxb, txb⟩ := c
  cases rxb with
  | none =>
    refine ⟨shutdown_run [] { g := { s.g with rxbuf := none }, l := s.l },
      shutdown_run_shape _ _ _ rfl (by simp [globals_after_creation]), ?_, ?_⟩ <;>
    simp [main_streaming, Run.seq, main_create_buffers, shutdown_run, creation_calls]
  | some a =>
    cases txb with
    | none =>
      refine ⟨shutdown_run [] { g := { s.g with rxbuf := some a, txbuf := none }, l := s.l },
        shutdown_run_shape _ _ _ rfl (by simp [globals_after_creation]), ?_, ?_⟩ <;>
      simp [main_streaming, Run.seq, main_create_buffers, shutdown_run, creation_calls]
    | some b =>
      refine ⟨main_loop port1 envs
          { g := { s.g with rxbuf := some a, txbuf := some b }, l := s.l }, ?_, ?_, ?_⟩
      · have h := main_loop_shape port1 envs
          { g := { s.g with rxbuf := some a, txbuf := some b }, l := s.l }
        simpa [globals_after_creation] using h
      · simp [main_streaming, Run.seq, main_create_buffers, creation_calls]
      · simp [main_streaming, Run.seq, main_create_buffers]

/-- C16 as stated fails when the push returns -5: the execution runs
`shutdown` and the exit status is 0. -/
theorem fatal_error_exit_status_zero :
    (main_loop false [sample_env none (-5) 2097152] sample_state).status =
      Status.exited 0 ∧
    ¬ ∃ n, n ≠ 0 ∧
      (main_loop false [sample_env none (-5) 2097152] sample_state).status =
        Status.exited n := by
  have h : (main_loop false [sample_env none (-5) 2097152] sample_state).status =
      Status.exited 0 := by
    rw [main_loop, if_neg (by decide), loop_body_push_fails _ _ _ (by decide)]
    rfl
  refine ⟨h, ?_⟩
  rintro ⟨n, hn, hst⟩
  rw [h] at hst
  cases hst
  exact hn rfl

/-- C16, amended: on every fatal error (a negative push or refill result, a
failed creation of the RX or of the TX buffer, a negative result of an
attribute write or read) the program performs the `shutdown` sequence, which
ends in `exit(0)`: the exit status is 0, and no execution of the streaming part
of `main` exits with another status. -/
theorem fatal_errors_run_shutdown :
    (∀ (port1 : Bool) (e : IterEnv) (rest : List IterEnv) (s : State),
      s.g.stop = false → (e.push_ret < 0 ∨ e.refill_ret < 0) →
      ∃ pre, (main_loop port1 (e :: rest) s).trace = pre ++ shutdown s.g ∧
        (main_loop port1 (e :: rest) s).status = Status.exited 0) ∧
    (∀ (port1 : Bool) (c : CreateEnv) (envs : List IterEnv) (s : State),
      (c.rxbuf = none ∨ c.txbuf = none) →
      ∃ pre, (main_streaming port1 c envs s).trace =
          pre ++ shutdown (globals_after_creation c s.g) ∧
        (main_streaming port1 c envs s).status = Status.exited 0) ∧
    (∀ (v : Int) (s : State), v < 0 →
      errchk v s = { trace := shutdown s.g, s := s, status := Status.exited 0 }) ∧
    (∀ (ret : Int) (chn : Nat) (what : String) (val : Int) (s : State), ret < 0 →
      (wr_ch_lli ret chn what val s).trace =
        Event.iio_channel_attr_write_longlong chn what val :: shutdown s.g ∧
      (wr_ch_lli ret chn what val s).status = Status.exited 0 ∧
      (rd_ch_lli ret chn what s).trace =
        Event.iio_channel_attr_read_longlong chn what :: shutdown s.g ∧
      (rd_ch_lli ret chn what s).status = Status.exited 0) ∧
    (∀ g : Globals, ∃ pre, shutdown g = pre ++ [Event.exit 0]) ∧
    (∀ (port1 : Bool) (c : CreateEnv) (envs : List IterEnv) (s : State) (n : Int),
      (main_streaming port1 c envs s).status = Status.exited n → n = 0) := by
  refine ⟨?_, ?_, ?_, ?_, fun g => ⟨_, rfl⟩, ?_⟩
  · intro port1 e rest s hstop hfail
    by_cases hpush : e.push_ret < 0
    · refine ⟨[Event.iio_buffer_push s.g.txbuf], ?_, ?_⟩ <;>
      simp [main_loop, hstop, loop_body_push_fails port1 e s hpush, Run.seq]
    · have hrefill : e.refill_ret < 0 := by
        rcases hfail with h | h
        · exact absurd h hpush
        · exact h
      refine ⟨[Event.iio_buffer_push s.g.txbuf, Event.iio_buffer_refill s.g.rxbuf], ?_, ?_⟩ <;>
      simp [main_loop, hstop, loop_body_refill_fails port1 e s (not_lt.mp hpush) hrefill,
        Run.seq]
  · intro port1 c envs s hc
    obtain ⟨rxb, txb⟩ := c
    cases rxb with
    | none =>
      refine ⟨main_enable_channels port1 s.g ++
        [Event.iio_device_create_buffer s.l.rx LIBIIO_PORT_SAMPLES false], ?_, ?_⟩ <;>
      simp [main_streaming, Run.seq, main_create_buffers, shutdown_run, globals_after_creation]
    | some a =>
      have htx : txb = none := by
        rcases hc with h | h
        · cases h
        · exact h
      subst htx
      refine ⟨main_enable_channels port1 s.g ++
        [Event.iio_device_create_buffer s.l.rx LIBIIO_PORT_SAMPLES false,
         Event.iio_device_create_buffer s.l.tx LIBIIO_PORT_SAMPLES false], ?_, ?_⟩ <;>
      simp [main_streaming, Run.seq, main_create_buffers, shutdown_run, globals_after_creation]
  · intro v s hv
    simp [errchk, hv, shutdown_run]
  · intro ret chn what val s hret
    simp [wr_ch_lli, rd_ch_lli, errchk, hret, shutdown_run, Run.seq]
  · intro port1 c envs s n hst
    obtain ⟨r, ⟨body, _, hcase, _⟩, _, hstatus⟩ := main_streaming_shape port1 c envs s
    rw [hstatus] at hst
    rcases hcase with ⟨_, hne⟩ | ⟨_, h0⟩
    · exact absurd hst (hne n)
    · rw [h0] at hst
      cases hst
      rfl

theorem fatal_errors_run_shutdown_witness :
    (sample_state.g.stop = false ∧ (sample_env none 2097152 (-5)).refill_ret < 0 ∧
      ∃ pre, (main_loop false [sample_env none 2097152 (-5)] sample_state).trace =
          pre ++ shutdown sample_state.g ∧
        (main_loop false [sample_env none 2097152 (-5)] sample_state).status =
          Status.exited 0) ∧
    ((-22 : Int) < 0 ∧
      errchk (-22) sample_setup_state =
        { trace := shutdown sample_setup_state.g, s := sample_setup_state,
          status := Status.exited 0 }) :=
  ⟨⟨rfl, by decide,
    fatal_errors_run_shutdown.1 false (sample_env none 2097152 (-5)) [] sample_state rfl
      (Or.inr (by decide))⟩,
   ⟨by decide, fatal_errors_run_shutdown.2.2.1 (-22) sample_setup_state (by decide)⟩⟩

end Stream

namespace Stream

theorem shutdown_pairwise_stage (g : Globals) :
    List.Pairwise (fun a b => a.stage ≤ b.stage) (shutdown g) := by
  have h0 : List.Pairwise (fun a b : Event => a.stage ≤ b.stage) [] ∧
      ∀ ev ∈ ([] : List Event), ev.stage ≤ 1 := by simp
  have h1 := staged_append_if_set [] 1 1 g.rxbuf Event.iio_buffer_destroy
    (fun _ => rfl) (Nat.le_refl _) h0
  have h2 := staged_append_if_set _ 1 1 g.txbuf Event.iio_buffer_destroy
    (fun _ => rfl) (Nat.le_refl _) h1
  have h3 := staged_append_if_set _ 1 2 g.rx0_i Event.iio_channel_disable
    (fun _ => rfl) (by decide) h2
  have h4 := staged_append_if_set _ 2 2 g.rx0_q Event.iio_channel_disable
    (fun _ => rfl) (Nat.le_refl _) h3
  have h5 := staged_append_if_set _ 2 2 g.tx0_i Event.iio_channel_disable
    (fun _ => rfl) (Nat.le_refl _) h4
  have h6 := staged_append_if_set _ 2 2 g.tx0_q Event.iio_channel_disable
    (fun _ => rfl) (Nat.le_refl _) h5
  have h7 := staged_append_if_set _ 2 3 g.ctx Event.iio_context_destroy
    (fun _ => rfl) (by decide) h6
  have h8 := staged_append_if_set _ 3 4 (some 0) (fun _ => Event.exit 0)
    (fun _ => rfl) (by decide) h7
  simpa [shutdown, if_set] using h8.1

theorem filter_nil_of_all (P Q : Event → Bool) (l : List Event) (hl : l.all P = true)
    (hPQ : ∀ ev, P ev = true → Q ev = false) : l.filter Q = [] := by
  rw [List.filter_eq_nil_iff]
  intro ev hev hq
  rw [List.all_eq_true] at hl
  rw [hPQ ev (hl ev hev)] at hq
  cases hq

theorem filterMap_nil_of_all {α : Type} (P : Event → Bool) (f : Event → Option α)
    (l : List Event) (hl : l.all P = true) (hPf : ∀ ev, P ev = true → f ev = none) :
    l.filterMap f = [] := by
  rw [List.filterMap_eq_nil_iff]
  intro ev hev
  rw [List.all_eq_true] at hl
  exact hPf ev (hl ev hev)

theorem stream_op_not_enable_disable (ev : Event) (h : ev.is_stream_op = true) :
    (ev.is_enable || ev.is_disable) = false := by
  cases ev <;> simp_all [Event.is_stream_op, Event.is_enable, Event.is_disable]

theorem shutdown_filter_enable_create (g : Globals) :
    (shutdown g).filter (fun ev => ev.is_enable || ev.is_create) = [] := by
  apply filter_nil_of_all Event.is_shutdown_op
  · rw [List.all_eq_true]
    intro ev hev
    have h := shutdown_filter_shutdown_op g
    rw [← h] at hev
    exact (List.mem_filter.mp hev).2
  · intro ev hev
    cases ev <;> simp_all [Event.is_shutdown_op, Event.is_enable, Event.is_create]

/-- C17: in every execution of the streaming part of `main` that starts with
no buffer (`rxbuf` and `txbuf` NULL, their initial values), the trace is the
channel enables, then the creation calls and the operations of the loop, with
no enable and no disable among them, then either nothing or one `shutdown`
sequence; that sequence has no enable and no creation, is in stage order
(buffer destroys before channel disables), and destroys exactly the buffers
that were created. -/
theorem no_enable_disable_while_buffer_alive (port1 : Bool) (c : CreateEnv)
    (envs : List IterEnv) (s : State) (h0 : s.g.rxbuf = none ∧ s.g.txbuf = none) :
    ∃ mid sd,
      (main_streaming port1 c envs s).trace = main_enable_channels port1 s.g ++ mid ++ sd ∧
      (main_enable_channels port1 s.g).all Event.is_enable = true ∧
      (∃ body, mid = creation_calls c s.l ++ body) ∧
      mid.filter (fun ev => ev.is_enable || ev.is_disable) = [] ∧
      sd.filter (fun ev => ev.is_enable || ev.is_create) = [] ∧
      List.Pairwise (fun a b => a.stage ≤ b.stage) sd ∧
      (sd = [] ∨ sd.filterMap Event.destroyed_buffer = created_buffers c) := by
  obtain ⟨r, ⟨body, hbody, hcase, _⟩, htrace, _⟩ := main_streaming_shape port1 c envs s
  have hen : (main_enable_channels port1 s.g).all Event.is_enable = true := by
    cases port1 <;> simp [main_enable_channels, Event.is_enable]
  have hmid : (creation_calls c s.l ++ body).filter
      (fun ev => ev.is_enable || ev.is_disable) = [] := by
    rw [List.filter_append,
      filter_nil_of_all Event.is_stream_op _ body hbody stream_op_not_enable_disable,
      List.append_nil]
    unfold creation_calls
    split_ifs <;> simp [Event.is_enable, Event.is_disable]
  rcases hcase with ⟨ht, _⟩ | ⟨ht, _⟩
  · refine ⟨creation_calls c s.l ++ body, [], ?_, hen, ⟨body, rfl⟩, hmid, rfl,
      List.Pairwise.nil, Or.inl rfl⟩
    rw [htrace, ht]
    simp
  · refine ⟨creation_calls c s.l ++ body, shutdown (globals_after_creation c s.g), ?_, hen,
      ⟨body, rfl⟩, hmid, shutdown_filter_enable_create _, shutdown_pairwise_stage _,
      Or.inr ?_⟩
    · rw [htrace, ht]
      simp
    · rw [shutdown_destroyed_buffers]
      obtain ⟨rxb, txb⟩ := c
      cases rxb <;> simp [globals_after_creation, created_buffers, h0.2]

theorem no_enable_disable_while_buffer_alive_witness :
    (sample_setup_state.g.rxbuf = none ∧ sample_setup_state.g.txbuf = none) ∧
    ∃ mid sd,
      (main_streaming false (CreateEnv.mk (some 100) (some 200))
          [sample_env (some SigPoint.after_refill) 2097152 2097152]
          sample_setup_state).trace =
        main_enable_channels false sample_setup_state.g ++ mid ++ sd ∧
      (main_enable_channels false sample_setup_state.g).all Event.is_enable = true ∧
      (∃ body, mid = creation_calls (CreateEnv.mk (some 100) (some 200))
        sample_setup_state.l ++ body) ∧
      mid.filter (fun ev => ev.is_enable || ev.is_disable) = [] ∧
      sd.filter (fun ev => ev.is_enable || ev.is_create) = [] ∧
      List.Pairwise (fun a b => a.stage ≤ b.stage) sd ∧
      (sd = [] ∨ sd.filterMap Event.destroyed_buffer =
        created_buffers (CreateEnv.mk (some 100) (some 200))) :=
  ⟨⟨rfl, rfl⟩,
   no_enable_disable_while_buffer_alive false (CreateEnv.mk (some 100) (some 200))
     [sample_env (some SigPoint.after_refill) 2097152 2097152] sample_setup_state ⟨rfl, rfl⟩⟩

end Stream

namespace Stream

theorem disabled_if_set_disable (h : Option Nat) :
    (if_set h Event.iio_channel_disable).filterMap Event.disabled_channel =
      (h.map some).toList := by
  cases h <;> simp [if_set, Event.disabled_channel]

theorem disabled_if_set_other (h : Option Nat) (f : Nat → Event)
    (hf : ∀ p, (f p).disabled_channel = none) :
    (if_set h f).filterMap Event.disabled_channel = [] := by
  cases h with
  | none => rfl
  | some p => simp [if_set, hf p]

theorem shutdown_disabled_channels (g : Globals) :
    (shutdown g).filterMap Event.disabled_channel =
      (g.rx0_i.map some).toList ++ (g.rx0_q.map some).toList ++
      (g.tx0_i.map some).toList ++ (g.tx0_q.map some).toList := by
  simp [shutdown, List.filterMap_append, disabled_if_set_disable,
    disabled_if_set_other _ Event.iio_buffer_destroy (fun _ => rfl),
    disabled_if_set_other _ Event.iio_context_destroy (fun _ => rfl),
    Event.disabled_channel]

theorem shutdown_enabled_channels (g : Globals) :
    (shutdown g).filterMap Event.enabled_channel = [] := by
  apply filterMap_nil_of_all Event.is_shutdown_op
  · rw [List.all_eq_true]
    intro ev hev
    have h := shutdown_filter_shutdown_op g
    rw [← h] at hev
    exact (List.mem_filter.mp hev).2
  · intro ev hev
    cases ev <;> simp_all [Event.is_shutdown_op, Event.enabled_channel]

/-- C18: in a build with `ENABLE_PORT1`, an execution that enables the eight
channels 10, 11, 20, 21, 12, 13, 22, 23 and reaches `shutdown` disables only
the four channels 10, 11, 20, 21 of port 0.  In the single-port build, every
execution that exits, started with the four channels acquired, disables the
channels that it enabled. -/
theorem port1_channels_left_enabled :
    ((main_streaming true (CreateEnv.mk (some 100) (some 200)) []
        { g := sample_globals_port1, l := sample_state.l }).trace.filterMap
          Event.enabled_channel =
        [some 10, some 11, some 20, some 21, some 12, some 13, some 22, some 23] ∧
      (main_streaming true (CreateEnv.mk (some 100) (some 200)) []
        { g := sample_globals_port1, l := sample_state.l }).trace.filterMap
          Event.disabled_channel =
        [some 10, some 11, some 20, some 21] ∧
      (main_streaming true (CreateEnv.mk (some 100) (some 200)) []
        { g := sample_globals_port1, l := sample_state.l }).status = Status.exited 0) ∧
    (∀ (c : CreateEnv) (envs : List IterEnv) (s : State) (n : Int),
      s.g.rx0_i.isSome = true → s.g.rx0_q.isSome = true →
      s.g.tx0_i.isSome = true → s.g.tx0_q.isSome = true →
      (main_streaming false c envs s).status = Status.exited n →
      (main_streaming false c envs s).trace.filterMap Event.disabled_channel =
        (main_streaming false c envs s).trace.filterMap Event.enabled_channel) := by
  constructor
  · refine ⟨by decide, by decide, by decide⟩
  · intro c envs s n h1 h2 h3 h4 hst
    obtain ⟨r, ⟨body, hbody, hcase, _⟩, htrace, hstatus⟩ :=
      main_streaming_shape false c envs s
    rw [hstatus] at hst
    rcases hcase with ⟨_, hne⟩ | ⟨ht, _⟩
    · exact absurd hst (hne n)
    · rw [htrace, ht]
      simp only [List.filterMap_append, shutdown_disabled_channels, shutdown_enabled_channels,
        filterMap_nil_of_all Event.is_stream_op Event.disabled_channel body hbody
          (by intro ev hev; cases ev <;> simp_all [Event.is_stream_op, Event.disabled_channel]),
        filterMap_nil_of_all Event.is_stream_op Event.enabled_channel body hbody
          (by intro ev hev; cases ev <;> simp_all [Event.is_stream_op, Event.enabled_channel])]
      obtain ⟨g, l⟩ := s
      obtain ⟨ctx, rx0_i, rx0_q, rx1_i, rx1_q, tx0_i, tx0_q, tx1_i, tx1_q, rxbuf, txbuf,
        stop⟩ := g
      cases rx0_i <;> cases rx0_q <;> cases tx0_i <;> cases tx0_q <;> simp at h1 h2 h3 h4
      unfold creation_calls
      split_ifs <;>
      simp [main_enable_channels, globals_after_creation, Event.disabled_channel,
        Event.enabled_channel]

end Stream

namespace Stream

end Stream

namespace Stream

end Stream

namespace Stream

theorem port1_loop_trace_congr (port1 : Bool) (body : Nat → Event) (first p_end p_inc : Nat)
    (pre : List Event) (s1 s2 : State) (k1 k2 : List Event → Run)
    (hk : ∀ t, (k1 t).trace = (k2 t).trace) :
    (port1_loop port1 body first p_end p_inc pre s1 k1).trace =
      (port1_loop port1 body first p_end p_inc pre s2 k2).trace := by
  unfold port1_loop
  cases port1 with
  | false => exact hk pre
  | true =>
    simp only [if_true]
    cases foreach_sample first p_end p_inc with
    | none => rfl
    | some ps => exact hk _

theorem loop_body_trace_signal (port1 : Bool) (e : IterEnv) (s : State)
    (sg : Option SigPoint) :
    (loop_body port1 { e with sigint := sg } s).trace =
      (loop_body port1 { e with sigint := none } s).trace := by
  unfold loop_body
  simp only [deliver_txbuf, deliver_rxbuf]
  split
  · simp [shutdown_run, shutdown_deliver]
  · split
    · simp [shutdown_run, shutdown_deliver]
    · apply port1_loop_trace_congr
      intro t4
      apply port1_loop_trace_congr
      intro t6
      split <;> [rfl; (split <;> rfl)]

end Stream

namespace Stream

/-- A `shutdown` that runs before the streaming channels are acquired (an
attribute error during configuration) disables no channel and destroys no
buffer. -/
theorem shutdown_before_acquisition (g : Globals)
    (hch : g.rx0_i = none ∧ g.rx0_q = none ∧ g.tx0_i = none ∧ g.tx0_q = none)
    (hbuf : g.rxbuf = none ∧ g.txbuf = none) :
    shutdown g = if_set g.ctx Event.iio_context_destroy ++ [Event.exit 0] := by
  obtain ⟨h1, h2, h3, h4⟩ := hch
  obtain ⟨h5, h6⟩ := hbuf
  simp [shutdown, h1, h2, h3, h4, h5, h6, if_set]

end Stream

namespace Stream

theorem digitChar_injective_lt_ten :
    ∀ a, a < 10 → ∀ b, b < 10 → Nat.digitChar a = Nat.digitChar b → a = b := by
  decide

theorem digitChar_not_separator :
    ∀ a, a < 10 → Nat.digitChar a ≠ '_' ∧ Nat.digitChar a ≠ '-' := by
  decide

theorem map_digitChar_injective (l1 : List Nat) :
    ∀ l2 : List Nat, (∀ d ∈ l1, d < 10) → (∀ d ∈ l2, d < 10) →
      l1.map Nat.digitChar = l2.map Nat.digitChar → l1 = l2 := by
  induction l1 with
  | nil =>
    intro l2 _ _ h
    cases l2 with
    | nil => rfl
    | cons b l2 => simp at h
  | cons a l1 ih =>
    intro l2 h1 h2 h
    cases l2 with
    | nil => simp at h
    | cons b l2 =>
      simp only [List.map_cons, List.cons.injEq] at h
      have hab := digitChar_injective_lt_ten a (h1 a (List.mem_cons_self _ _)) b
        (h2 b (List.mem_cons_self _ _)) h.1
      rw [hab, ih l2 (fun d hd => h1 d (List.mem_cons_of_mem _ hd))
        (fun d hd => h2 d (List.mem_cons_of_mem _ hd)) h.2]

theorem decimal_nat_pos (n : Nat) (hn : n ≠ 0) :
    decimal_nat n = ((Nat.digits 10 n).map Nat.digitChar).reverse := by
  unfold decimal_nat
  rw [if_neg hn]

theorem decimal_nat_chars (n : Nat) : ∀ c ∈ decimal_nat n, ∃ d, d < 10 ∧ c = Nat.digitChar d := by
  intro c hc
  unfold decimal_nat at hc
  split at hc
  · rw [List.mem_singleton] at hc
    exact ⟨0, by decide, hc⟩
  · rw [List.mem_reverse, List.mem_map] at hc
    obtain ⟨d, hd, hdc⟩ := hc
    exact ⟨d, Nat.digits_lt_base (by decide) hd, hdc.symm⟩

theorem decimal_nat_injective (a b : Nat) (h : decimal_nat a = decimal_nat b) : a = b := by
  have key : ∀ n, n ≠ 0 → decimal_nat n ≠ ['0'] := by
    intro n hn hd
    rw [decimal_nat_pos n hn] at hd
    have hrev := congrArg List.reverse hd
    rw [List.reverse_reverse] at hrev
    simp only [List.reverse_cons, List.reverse_nil, List.nil_append] at hrev
    cases hdig : Nat.digits 10 n with
    | nil => exact hn (Nat.digits_eq_nil_iff_eq_zero.mp hdig)
    | cons d rest =>
      rw [hdig] at hrev
      simp only [List.map_cons, List.cons.injEq, List.map_eq_nil_iff] at hrev
      have hlast := Nat.getLast_digit_ne_zero 10 hn
      have hd10 : d < 10 := Nat.digits_lt_base (by decide) (by rw [hdig]; exact List.mem_cons_self _ _)
      have hd0 : d = 0 := digitChar_injective_lt_ten d hd10 0 (by decide) hrev.1
      simp only [hdig, hrev.2, List.getLast_singleton] at hlast
      exact hlast hd0
  by_cases ha : a = 0
  · by_cases hb : b = 0
    · rw [ha, hb]
    · exfalso
      rw [ha] at h
      exact key b hb h.symm
  · by_cases hb : b = 0
    · exfalso
      rw [hb] at h
      exact key a ha h
    · rw [decimal_nat_pos a ha, decimal_nat_pos b hb] at h
      have h2 := List.reverse_injective h
      exact Nat.digits.injective 10
        (map_digitChar_injective _ _ (fun d hd => Nat.digits_lt_base (by decide) hd)
          (fun d hd => Nat.digits_lt_base (by decide) hd) h2)

theorem fmt_d_chars (i : Int) : ∀ c ∈ fmt_d i, c ≠ '_' := by
  intro c hc
  cases i with
  | ofNat n =>
    obtain ⟨d, hd, rfl⟩ := decimal_nat_chars n c hc
    exact (digitChar_not_separator d hd).1
  | negSucc n =>
    simp only [fmt_d, List.mem_cons] at hc
    rcases hc with hc | hc
    · rw [hc]
      decide
    · obtain ⟨d, hd, rfl⟩ := decimal_nat_chars (n + 1) c hc
      exact (digitChar_not_separator d hd).1

theorem decimal_nat_ne_nil (n : Nat) : decimal_nat n ≠ [] := by
  unfold decimal_nat
  split
  · simp
  · rename_i hn
    simp only [ne_eq, List.reverse_eq_nil_iff, List.map_eq_nil_iff]
    exact fun h => hn (Nat.digits_eq_nil_iff_eq_zero.mp h)

theorem fmt_d_injective (i j : Int) (h : fmt_d i = fmt_d j) : i = j := by
  have hminus : ∀ n m, decimal_nat n ≠ '-' :: decimal_nat m := by
    intro n m hnm
    have hmem : '-' ∈ decimal_nat n := by rw [hnm]; exact List.mem_cons_self _ _
    obtain ⟨d, hd, hdc⟩ := decimal_nat_chars n _ hmem
    exact (digitChar_not_separator d hd).2 hdc.symm
  cases i with
  | ofNat n =>
    cases j with
    | ofNat m =>
      simp only [fmt_d] at h
      rw [decimal_nat_injective n m h]
    | negSucc m =>
      simp only [fmt_d] at h
      exact absurd h (hminus n (m + 1))
  | negSucc n =>
    cases j with
    | ofNat m =>
      simp only [fmt_d] at h
      exact absurd h.symm (hminus m (n + 1))
    | negSucc m =>
      simp only [fmt_d, List.cons.injEq, true_and] at h
      have := decimal_nat_injective (n + 1) (m + 1) h
      have hnm : n = m := by omega
      rw [hnm]

end Stream

namespace Stream

theorem snprintf_tmpstr_fits (out : List Char) (h : out.length < TMPSTR_SIZE) :
    snprintf_tmpstr out = String.mk out := by
  unfold snprintf_tmpstr
  rw [List.take_of_length_le]
  unfold TMPSTR_SIZE at *
  omega

theorem get_ch_name_mod_fits (type : String) (id : Int) (m : Char) (hm : m ≠ Char.ofNat 0)
    (hfit : (type.data ++ fmt_d id ++ ['_', m]).length < TMPSTR_SIZE) :
    get_ch_name_mod type id m = String.mk (type.data ++ fmt_d id ++ ['_', m]) := by
  unfold get_ch_name_mod fmt_c
  rw [if_neg hm, List.append_assoc (type.data ++ fmt_d id)]
  exact snprintf_tmpstr_fits _ hfit

theorem get_ch_name_fits (type : String) (id : Int)
    (hfit : (type.data ++ fmt_d id).length < TMPSTR_SIZE) :
    get_ch_name type id = String.mk (type.data ++ fmt_d id) := by
  unfold get_ch_name
  exact snprintf_tmpstr_fits _ hfit

/-- C23: for every type string, id and non-NUL modifier whose formatted name
fits `tmpstr`, `get_ch_name` gives the type followed by the decimal id, and
`get_ch_name_mod` gives the type, the decimal id, an underscore and the
modifier; for the same type, a modified name differs from the modified name of
any other pair of id and modifier, and from every unmodified name. -/
theorem channel_names_disambiguate (type : String) (id : Int) (m : Char)
    (hm : m ≠ Char.ofNat 0)
    (hfit : (type.data ++ fmt_d id ++ ['_', m]).length < TMPSTR_SIZE) :
    get_ch_name type id = type ++ String.mk (fmt_d id) ∧
    get_ch_name_mod type id m = type ++ String.mk (fmt_d id) ++ "_" ++ String.singleton m ∧
    (∀ (id2 : Int) (m2 : Char), m2 ≠ Char.ofNat 0 →
      (type.data ++ fmt_d id2 ++ ['_', m2]).length < TMPSTR_SIZE →
      (id ≠ id2 ∨ m ≠ m2) →
      get_ch_name_mod type id m ≠ get_ch_name_mod type id2 m2) ∧
    (∀ id2 : Int, (type.data ++ fmt_d id2).length < TMPSTR_SIZE →
      get_ch_name_mod type id m ≠ get_ch_name type id2) ∧
    (∀ id2 : Int, (type.data ++ fmt_d id2).length < TMPSTR_SIZE → id ≠ id2 →
      get_ch_name type id ≠ get_ch_name type id2) := by
  have hfit1 : (type.data ++ fmt_d id).length < TMPSTR_SIZE := by
    simp only [List.length_append, List.length_cons, List.length_nil] at hfit ⊢
    omega
  refine ⟨?_, ?_, ?_, ?_, ?_⟩
  · rw [get_ch_name_fits type id hfit1]
    apply String.ext
    simp
  · rw [get_ch_name_mod_fits type id m hm hfit]
    apply String.ext
    simp [String.singleton]
  · intro id2 m2 hm2 hfit2 hne heq
    rw [get_ch_name_mod_fits type id m hm hfit,
      get_ch_name_mod_fits type id2 m2 hm2 hfit2] at heq
    have hdata := congrArg String.data heq
    simp only [List.append_assoc, List.append_cancel_left_eq] at hdata
    have hlen : ['_', m].length = ['_', m2].length := rfl
    obtain ⟨h1, h2⟩ := List.append_inj' hdata hlen
    have hid := fmt_d_injective id id2 h1
    simp only [List.cons.injEq, true_and, and_true] at h2
    rcases hne with hne | hne
    · exact hne hid
    · exact hne h2
  · intro id2 hfit2 heq
    rw [get_ch_name_mod_fits type id m hm hfit, get_ch_name_fits type id2 hfit2] at heq
    have hdata := congrArg String.data heq
    simp only [List.append_assoc, List.append_cancel_left_eq] at hdata
    have hmem : '_' ∈ fmt_d id2 := by
      rw [← hdata]
      simp
    exact fmt_d_chars id2 _ hmem rfl
  · intro id2 hfit2 hne heq
    rw [get_ch_name_fits type id hfit1, get_ch_name_fits type id2 hfit2] at heq
    have hdata := congrArg String.data heq
    simp only [List.append_cancel_left_eq] at hdata
    exact hne (fmt_d_injective id id2 hdata)

theorem channel_names_disambiguate_witness :
    ('i' ≠ Char.ofNat 0 ∧
      ("voltage".data ++ fmt_d 0 ++ ['_', 'i']).length < TMPSTR_SIZE) ∧
    get_ch_name "voltage" 0 = "voltage" ++ String.mk (fmt_d 0) ∧
    get_ch_name_mod "voltage" 0 'i' =
      "voltage" ++ String.mk (fmt_d 0) ++ "_" ++ String.singleton 'i' ∧
    get_ch_name_mod "voltage" 0 'i' ≠ get_ch_name_mod "voltage" 0 'q' ∧
    get_ch_name_mod "voltage" 0 'i' ≠ get_ch_name "voltage" 0 :=
  ⟨⟨by decide, by decide⟩,
   (channel_names_disambiguate "voltage" 0 'i' (by decide) (by decide)).1,
   (channel_names_disambiguate "voltage" 0 'i' (by decide) (by decide)).2.1,
   (channel_names_disambiguate "voltage" 0 'i' (by decide) (by decide)).2.2.1 0 'q'
     (by decide) (by decide) (Or.inr (by decide)),
   (channel_names_disambiguate "voltage" 0 'i' (by decide) (by decide)).2.2.2.1 0 (by decide)⟩

end Stream

namespace Stream

theorem map_range_succ {α : Type} (f : Nat → α) (k : Nat) :
    (List.range (k + 1)).map f = f 0 :: (List.range k).map (fun j => f (j + 1)) := by
  rw [List.range_succ_eq_map, List.map_cons, List.map_map]
  rfl

theorem full_chunks_one (n : Nat) (h1 : 4800 ≤ n) (h : n - 4800 ≤ 4800) :
    max 1 ((n + 4799) / 4800 - 1) = 1 := by
  rw [Nat.max_def]
  split_ifs <;> omega

theorem full_chunks_succ (n : Nat) (h : 4800 < n - 4800) :
    max 1 ((n + 4799) / 4800 - 1) = max 1 ((n - 4800 + 4799) / 4800 - 1) + 1 := by
  rw [Nat.max_def, Nat.max_def]
  split_ifs <;> omega

theorem full_chunks_bounds (n : Nat) (h1 : 4800 ≤ n) :
    1 ≤ max 1 ((n + 4799) / 4800 - 1) ∧ 4800 * max 1 ((n + 4799) / 4800 - 1) ≤ n ∧
    n - 4800 * max 1 ((n + 4799) / 4800 - 1) ≤ 4800 := by
  rw [Nat.max_def]
  split_ifs <;> omega

/-- From a counter of at least one chunk the RX loop makes its full copies at
successive multiples of the chunk size, then one tail copy. -/
theorem rx_chunk_loop_closed (n p : Nat) (h1 : CHUNK ≤ n) (h2 : n < 18446744073709551616) :
    rx_chunk_loop n p =
      (List.range (max 1 ((n + 4799) / 4800 - 1))).map
        (fun j => Event.memcpy (Loc.eth_txbuf 80) (Loc.mem (p + 4800 * j)) 4800) ++
      [Event.memcpy (Loc.eth_txbuf 80)
        (Loc.mem (p + 4800 * max 1 ((n + 4799) / 4800 - 1)))
        (n - 4800 * max 1 ((n + 4799) / 4800 - 1))] := by
  have hc : CHUNK = 4800 := rfl
  induction n, p using rx_chunk_loop.induct with
  | case1 n p h =>
    have hs := size_sub_chunk n h1 h2
    rw [hs, hc] at h
    rw [hc] at h1
    rw [rx_chunk_loop.eq_1, dif_pos (by rw [hs, hc]; exact h), hs, full_chunks_one n h1 h]
    rfl
  | case2 n p h ih =>
    have hs := size_sub_chunk n h1 h2
    rw [hs, hc] at h
    rw [hc] at h1
    have h3 : 4800 < n - 4800 := by omega
    have ih2 := ih (by rw [hs, hc]; omega) (by rw [hs]; omega)
    rw [hs] at ih2
    rw [rx_chunk_loop.eq_1, dif_neg (by rw [hs, hc]; exact h), hs, ih2, full_chunks_succ n h3]
    generalize max 1 ((n - 4800 + 4799) / 4800 - 1) = k
    have e1 : p + CHUNK + 4800 * k = p + 4800 * (k + 1) := by omega
    have e2 : n - 4800 - 4800 * k = n - 4800 * (k + 1) := by omega
    have e3 : ∀ j, p + CHUNK + 4800 * j = p + 4800 * (j + 1) := fun j => by omega
    rw [e1, e2, map_range_succ, List.cons_append]
    simp only [e3]
    rfl

/-- From a counter of at least one chunk the TX loop makes its full copies,
all to the same place, then one tail copy. -/
theorem tx_chunk_loop_closed (n p : Nat) (h1 : CHUNK ≤ n) (h2 : n < 18446744073709551616) :
    tx_chunk_loop n p =
      List.replicate (max 1 ((n + 4799) / 4800 - 1))
        (Event.memcpy (Loc.mem p) (Loc.eth_rxbuf 90) 4800) ++
      [Event.memcpy (Loc.mem p) (Loc.eth_rxbuf 90)
        (n - 4800 * max 1 ((n + 4799) / 4800 - 1))] := by
  have hc : CHUNK = 4800 := rfl
  induction n, p using tx_chunk_loop.induct with
  | case1 n p h =>
    have hs := size_sub_chunk n h1 h2
    rw [hs, hc] at h
    rw [hc] at h1
    rw [tx_chunk_loop.eq_1, dif_pos (by rw [hs, hc]; exact h), hs, full_chunks_one n h1 h]
    rfl
  | case2 n p h ih =>
    have hs := size_sub_chunk n h1 h2
    rw [hs, hc] at h
    rw [hc] at h1
    have h3 : 4800 < n - 4800 := by omega
    have ih2 := ih (by rw [hs, hc]; omega) (by rw [hs]; omega)
    rw [hs] at ih2
    rw [tx_chunk_loop.eq_1, dif_neg (by rw [hs, hc]; exact h), hs, ih2, full_chunks_succ n h3,
      List.replicate_succ, List.cons_append]
    generalize max 1 ((n - 4800 + 4799) / 4800 - 1) = k
    have e2 : n - 4800 - 4800 * k = n - 4800 * (k + 1) := by omega
    rw [e2]
    rfl

/-- From a counter of at least one chunk every decrement is exact. -/
theorem chunk_countdown_closed (n : Nat) (h1 : CHUNK ≤ n) (h2 : n < 18446744073709551616) :
    chunk_countdown n =
      (List.range (max 1 ((n + 4799) / 4800 - 1))).map (fun j => n - 4800 * (j + 1)) := by
  have hc : CHUNK = 4800 := rfl
  induction n using chunk_countdown.induct with
  | case1 n h =>
    have hs := size_sub_chunk n h1 h2
    rw [hs, hc] at h
    rw [hc] at h1
    rw [chunk_countdown.eq_1, dif_pos (by rw [hs, hc]; exact h), hs, full_chunks_one n h1 h]
    rfl
  | case2 n h ih =>
    have hs := size_sub_chunk n h1 h2
    rw [hs, hc] at h
    rw [hc] at h1
    have h3 : 4800 < n - 4800 := by omega
    have ih2 := ih (by rw [hs, hc]; omega) (by rw [hs]; omega)
    rw [hs] at ih2
    rw [chunk_countdown.eq_1, dif_neg (by rw [hs, hc]; exact h), hs, ih2, full_chunks_succ n h3]
    generalize max 1 ((n - 4800 + 4799) / 4800 - 1) = k
    have e3 : ∀ j, n - 4800 - 4800 * (j + 1) = n - 4800 * (j + 1 + 1) := fun j => by omega
    rw [map_range_succ]
    simp only [e3]

end Stream

namespace Stream

theorem size_sub_below_chunk (R : Nat) (h : R < 4800) :
    size_sub R CHUNK = 18446744073709551616 - (4800 - R) := by
  unfold size_sub CHUNK
  omega

theorem size_sub_w_below_chunk (w R : Nat) (hw : 14 ≤ w) (h : R < 4800) :
    size_sub_w w R 4800 = 2 ^ w - (4800 - R) ∧ 4800 < size_sub_w w R 4800 := by
  have hp : 2 ^ 14 ≤ 2 ^ w := Nat.pow_le_pow_right (by omega) hw
  have h14 : (2 : Nat) ^ 14 = 16384 := by norm_num
  rw [h14] at hp
  unfold size_sub_w
  generalize 2 ^ w = M at hp
  have e1 : R % M = R := Nat.mod_eq_of_lt (by omega)
  have e2 : 4800 % M = 4800 := Nat.mod_eq_of_lt (by omega)
  have e3 : (R + M - 4800) % M = R + M - 4800 := Nat.mod_eq_of_lt (by omega)
  rw [e1, e2, e3]
  omega

theorem size_sub_eq_size_sub_w (a b : Nat) : size_sub a b = size_sub_w 64 a b := by
  unfold size_sub size_sub_w
  norm_num

/-- C25: for a refill of R bytes, R at least 4800, the copies of the RX chunk
loop are contiguous and disjoint: copy number j reads from offset 4800*j, every
copy before the last has 4800 bytes, the last has what remains (at most 4800),
the lengths add up to R, and the bytes read are exactly those of the region,
each once. -/
theorem rx_copies_contiguous_disjoint (R p : Nat) (h1 : 4800 ≤ R)
    (h2 : R < 18446744073709551616) :
    rx_chunk_loop R p =
      (List.range (max 1 ((R + 4799) / 4800 - 1))).map
        (fun j => Event.memcpy (Loc.eth_txbuf 80) (Loc.mem (p + 4800 * j)) 4800) ++
      [Event.memcpy (Loc.eth_txbuf 80)
        (Loc.mem (p + 4800 * max 1 ((R + 4799) / 4800 - 1)))
        (R - 4800 * max 1 ((R + 4799) / 4800 - 1))] ∧
    R - 4800 * max 1 ((R + 4799) / 4800 - 1) ≤ 4800 ∧
    ((rx_chunk_loop R p).filterMap Event.copy_len).sum = R ∧
    (rx_chunk_loop R p).flatMap Event.read_bytes = (List.range R).map (fun i => p + i) ∧
    ((rx_chunk_loop R p).flatMap Event.read_bytes).Nodup ∧
    (∀ a, a ∈ (rx_chunk_loop R p).flatMap Event.read_bytes ↔ p ≤ a ∧ a < p + R) := by
  have hb := full_chunks_bounds R h1
  have hr := rx_chunk_loop_reads_exact R p h1 h2
  refine ⟨rx_chunk_loop_closed R p h1 h2, hb.2.2, ?_, hr, ?_, ?_⟩
  · rw [rx_chunk_loop_lengths R p h1 h2, List.sum_append, List.sum_replicate, List.sum_singleton,
      smul_eq_mul]
    have := hb.2.1
    generalize max 1 ((R + 4799) / 4800 - 1) = k at *
    omega
  · rw [hr]
    apply List.Nodup.map
    · intro a b hab
      simp only at hab
      omega
    · exact List.nodup_range R
  · intro a
    rw [hr, List.mem_map]
    constructor
    · rintro ⟨i, hi, rfl⟩
      rw [List.mem_range] at hi
      omega
    · rintro ⟨ha1, ha2⟩
      exact ⟨a - p, List.mem_range.2 (by omega), by omega⟩

theorem rx_copies_contiguous_disjoint_witness :
    (4800 : Nat) ≤ 2097152 ∧ (2097152 : Nat) < 18446744073709551616 ∧
    ((rx_chunk_loop 2097152 268435456).filterMap Event.copy_len).sum = 2097152 :=
  ⟨by omega, by omega,
    (rx_copies_contiguous_disjoint 2097152 268435456 (by omega) (by omega)).2.2.1⟩

/-- C26: for a refill of R bytes, R below 4800, the first copy of the RX chunk
loop still reads 4800 bytes, the last 4800 - R of them past the region; the
counter wraps to 2^64 - (4800 - R) (to 2^w - (4800 - R) for any width w of at
least 14 bits), which is above 4800, so the loop goes on after that copy. -/
theorem rx_short_refill_wraps (R p : Nat) (h : R < 4800) :
    size_sub R CHUNK = 18446744073709551616 - (4800 - R) ∧
    4800 < size_sub R CHUNK ∧
    size_sub R CHUNK = size_sub_w 64 R 4800 ∧
    (∀ w, 14 ≤ w →
      size_sub_w w R 4800 = 2 ^ w - (4800 - R) ∧ 4800 < size_sub_w w R 4800) ∧
    rx_chunk_loop R p =
      Event.memcpy (Loc.eth_txbuf 80) (Loc.mem p) 4800 ::
        rx_chunk_loop (size_sub R CHUNK) (p + 4800) ∧
    ((rx_chunk_loop R p).take 1).flatMap Event.read_bytes =
      (List.range R).map (fun i => p + i) ++
        (List.range (4800 - R)).map (fun i => p + R + i) ∧
    3843071682022822 < (rx_chunk_loop R p).length := by
  have hc : CHUNK = 4800 := rfl
  have hs := size_sub_below_chunk R h
  have hgt : 4800 < size_sub R CHUNK := by rw [hs]; omega
  have hstep : rx_chunk_loop R p =
      Event.memcpy (Loc.eth_txbuf 80) (Loc.mem p) 4800 ::
        rx_chunk_loop (size_sub R CHUNK) (p + 4800) := by
    rw [rx_chunk_loop.eq_1, dif_neg (by rw [hs, hc]; omega)]
    rfl
  refine ⟨hs, hgt, size_sub_eq_size_sub_w R CHUNK, fun w hw => size_sub_w_below_chunk w R hw h,
    hstep, ?_, ?_⟩
  · rw [hstep, List.take_succ_cons, List.take_zero]
    simp only [List.flatMap_cons, List.flatMap_nil, List.append_nil, Event.read_bytes]
    rw [range_map_split p R (4800 - R)]
    have e : R + (4800 - R) = 4800 := by omega
    rw [e]
  · have hcl := rx_chunk_loop_closed (size_sub R CHUNK) (p + 4800) (by rw [hs, hc]; omega)
      (by rw [hs]; omega)
    rw [hstep, hcl, hs]
    simp only [List.length_cons, List.length_append, List.length_map, List.length_range,
      List.length_nil]
    rw [Nat.max_def]
    split_ifs <;> omega

theorem rx_short_refill_wraps_witness :
    (4096 : Nat) < 4800 ∧ size_sub 4096 CHUNK = 18446744073709551616 - (4800 - 4096) ∧
    4800 < size_sub 4096 CHUNK :=
  ⟨by omega, (rx_short_refill_wraps 4096 0 (by omega)).1,
    (rx_short_refill_wraps 4096 0 (by omega)).2.1⟩

/-- C27: from a counter n0 of at least 4800 the chunk loops of RX and TX end
after max(1, ceil(n0 / 4800) - 1) copies of a full chunk and one tail copy, and
the counter never wraps: after decrement number j+1 it is n0 - 4800*(j+1), with
4800*(j+1) at most n0. -/
theorem chunk_loops_terminate_without_wrap (n0 p : Nat) (h1 : 4800 ≤ n0)
    (h2 : n0 < 18446744073709551616) :
    (rx_chunk_loop n0 p).length = max 1 ((n0 + 4799) / 4800 - 1) + 1 ∧
    (rx_chunk_loop n0 p).filterMap Event.copy_len =
      List.replicate (max 1 ((n0 + 4799) / 4800 - 1)) 4800 ++
        [n0 - 4800 * max 1 ((n0 + 4799) / 4800 - 1)] ∧
    (tx_chunk_loop n0 p).length = max 1 ((n0 + 4799) / 4800 - 1) + 1 ∧
    (tx_chunk_loop n0 p).filterMap Event.copy_len =
      List.replicate (max 1 ((n0 + 4799) / 4800 - 1)) 4800 ++
        [n0 - 4800 * max 1 ((n0 + 4799) / 4800 - 1)] ∧
    chunk_countdown n0 =
      (List.range (max 1 ((n0 + 4799) / 4800 - 1))).map (fun j => n0 - 4800 * (j + 1)) ∧
    4800 * max 1 ((n0 + 4799) / 4800 - 1) ≤ n0 ∧
    (∀ c ∈ chunk_countdown n0, c + 4800 ≤ n0) := by
  have hb := full_chunks_bounds n0 h1
  have hcd := chunk_countdown_closed n0 h1 h2
  refine ⟨?_, rx_chunk_loop_lengths n0 p h1 h2, ?_, tx_chunk_loop_lengths n0 p h1 h2, hcd,
    hb.2.1, ?_⟩
  · rw [rx_chunk_loop_closed n0 p h1 h2]
    simp only [List.length_append, List.length_map, List.length_range, List.length_cons,
      List.length_nil]
  · rw [tx_chunk_loop_closed n0 p h1 h2]
    simp only [List.length_append, List.length_replicate, List.length_cons, List.length_nil]
  · intro c hcmem
    rw [hcd, List.mem_map] at hcmem
    obtain ⟨j, hj, rfl⟩ := hcmem
    rw [List.mem_range] at hj
    have := hb.2.1
    generalize max 1 ((n0 + 4799) / 4800 - 1) = k at *
    have : 4800 * (j + 1) ≤ 4800 * k := Nat.mul_le_mul_left 4800 hj
    omega

theorem chunk_loops_terminate_without_wrap_witness :
    (4800 : Nat) ≤ 2097152 ∧ (2097152 : Nat) < 18446744073709551616 ∧
    (rx_chunk_loop 2097152 0).length = max 1 ((2097152 + 4799) / 4800 - 1) + 1 :=
  ⟨by omega, by omega, (chunk_loops_terminate_without_wrap 2097152 0 (by omega) (by omega)).1⟩

theorem rx_chunk_loop_staging (n p : Nat) :
    ∀ ev ∈ rx_chunk_loop n p, ∃ src len, ev = Event.memcpy (Loc.eth_txbuf 80) (Loc.mem src) len ∧
      len ≤ 4800 := by
  have hc : CHUNK = 4800 := rfl
  induction n, p using rx_chunk_loop.induct with
  | case1 n p h =>
    rw [rx_chunk_loop.eq_1, dif_pos h]
    intro ev hev
    rcases List.mem_cons.1 hev with rfl | hev
    · exact ⟨p, CHUNK, rfl, by rw [hc]⟩
    · rcases List.mem_cons.1 hev with rfl | hev
      · exact ⟨p + CHUNK, size_sub n CHUNK, rfl, by rw [← hc]; exact h⟩
      · cases hev
  | case2 n p h ih =>
    rw [rx_chunk_loop.eq_1, dif_neg h]
    intro ev hev
    rcases List.mem_cons.1 hev with rfl | hev
    · exact ⟨p, CHUNK, rfl, by rw [hc]⟩
    · exact ih ev hev

theorem tx_chunk_loop_staging (n p : Nat) :
    ∀ ev ∈ tx_chunk_loop n p, ∃ len, ev = Event.memcpy (Loc.mem p) (Loc.eth_rxbuf 90) len ∧
      len ≤ 4800 := by
  have hc : CHUNK = 4800 := rfl
  induction n, p using tx_chunk_loop.induct with
  | case1 n p h =>
    rw [tx_chunk_loop.eq_1, dif_pos h]
    intro ev hev
    rcases List.mem_cons.1 hev with rfl | hev
    · exact ⟨CHUNK, rfl, by rw [hc]⟩
    · rcases List.mem_cons.1 hev with rfl | hev
      · exact ⟨size_sub n CHUNK, rfl, by rw [← hc]; exact h⟩
      · cases hev
  | case2 n p h ih =>
    rw [tx_chunk_loop.eq_1, dif_neg h]
    intro ev hev
    rcases List.mem_cons.1 hev with rfl | hev
    · exact ⟨CHUNK, rfl, by rw [hc]⟩
    · exact ih ev hev

/-- C28: for every counter value and pointer, every copy of the RX chunk loop
writes into eth_txbuf at offset 80 at most 4800 bytes, inside the 4880 bytes of
that array, and every copy of the TX chunk loop reads from eth_rxbuf at offset
90 at most 4800 bytes, inside the 4890 bytes of that array. -/
theorem staging_accesses_in_bounds (n p : Nat) :
    ETH_TXBUF_SIZE = 4880 ∧ ETH_RXBUF_SIZE = 4890 ∧
    (∀ ev ∈ rx_chunk_loop n p, ∃ src len,
      ev = Event.memcpy (Loc.eth_txbuf 80) (Loc.mem src) len ∧ len ≤ 4800 ∧
      80 + len ≤ ETH_TXBUF_SIZE ∧ ev.in_staging_arrays = true) ∧
    (∀ ev ∈ tx_chunk_loop n p, ∃ len,
      ev = Event.memcpy (Loc.mem p) (Loc.eth_rxbuf 90) len ∧ len ≤ 4800 ∧
      90 + len ≤ ETH_RXBUF_SIZE ∧ ev.in_staging_arrays = true) := by
  have ht : ETH_TXBUF_SIZE = 4880 := rfl
  have hr : ETH_RXBUF_SIZE = 4890 := rfl
  refine ⟨ht, hr, ?_, ?_⟩
  · intro ev hev
    obtain ⟨src, len, rfl, hlen⟩ := rx_chunk_loop_staging n p ev hev
    refine ⟨src, len, rfl, hlen, by rw [ht]; omega, ?_⟩
    simp only [Event.in_staging_arrays, Loc.in_array, Bool.and_true, decide_eq_true_eq]
    rw [ht]
    omega
  · intro ev hev
    obtain ⟨len, rfl, hlen⟩ := tx_chunk_loop_staging n p ev hev
    refine ⟨len, rfl, hlen, by rw [hr]; omega, ?_⟩
    simp only [Event.in_staging_arrays, Loc.in_array, Bool.true_and, decide_eq_true_eq]
    rw [hr]
    omega

end Stream

namespace Stream

/-- C24: errchk runs the shutdown sequence exactly when the result v of the
attribute operation is negative; for v at least 0 it does nothing and returns
with the state unchanged; hence wr_ch_lli and rd_ch_lli make their one
attribute call and then end the program exactly when that call returned a
negative value. -/
theorem errchk_shutdown_iff_negative (v : Int) (chn : Nat) (what : String) (val : Int)
    (s : State) :
    (v < 0 → errchk v s = shutdown_run [] s) ∧
    (0 ≤ v → errchk v s = { trace := [], s := s, status := Status.running }) ∧
    ((errchk v s).trace = shutdown s.g ↔ v < 0) ∧
    ((errchk v s).status = Status.exited 0 ↔ v < 0) ∧
    ((errchk v s).status = Status.running ↔ 0 ≤ v) ∧
    (errchk v s).s = s ∧
    (wr_ch_lli v chn what val s).trace =
      Event.iio_channel_attr_write_longlong chn what val ::
        (if v < 0 then shutdown s.g else []) ∧
    ((wr_ch_lli v chn what val s).status = Status.exited 0 ↔ v < 0) ∧
    ((wr_ch_lli v chn what val s).status = Status.running ↔ 0 ≤ v) ∧
    (rd_ch_lli v chn what s).trace =
      Event.iio_channel_attr_read_longlong chn what ::
        (if v < 0 then shutdown s.g else []) ∧
    ((rd_ch_lli v chn what s).status = Status.exited 0 ↔ v < 0) ∧
    ((rd_ch_lli v chn what s).status = Status.running ↔ 0 ≤ v) := by
  have hne : shutdown s.g ≠ [] := by
    unfold shutdown
    simp
  by_cases h : v < 0
  · have h2 : ¬ 0 ≤ v := by omega
    simp [errchk, wr_ch_lli, rd_ch_lli, Run.seq, shutdown_run, h, h2]
  · have h2 : 0 ≤ v := by omega
    simp [errchk, wr_ch_lli, rd_ch_lli, Run.seq, shutdown_run, h, h2]
    exact hne

end Stream

namespace Stream

/-- A run that did not reach its end is not continued. -/
theorem Run.seq_aborted (r : Run) (k : State → Run) (h : r.status = Status.aborted) :
    r.seq k = r := by
  unfold Run.seq
  rw [h]

/-- What `main` does when discovery fails after the context was created. -/
theorem main_discovery_failure (port1 : Bool) (env : SetupEnv) (rx_stack tx_stack : stream_cfg)
    (c : CreateEnv) (envs : List IterEnv) (ctx : Nat)
    (hctx : env.default_context = some ctx)
    (hfail : env.devices_count = 0 ∨ env.find_device "axi-ad9371-tx-hpc" = none ∨
      env.find_device "axi-ad9371-rx-hpc" = none ∨ env.find_device "ad9371-phy" = none) :
    (main port1 env rx_stack tx_stack c envs).status = Status.aborted ∧
    (main port1 env rx_stack tx_stack c envs).s.g.ctx = some ctx ∧
    ((main port1 env rx_stack tx_stack c envs).trace =
        [Event.iio_create_default_context, Event.iio_context_get_devices_count (some ctx),
         Event.abort] ∨
     (main port1 env rx_stack tx_stack c envs).trace =
        [Event.iio_create_default_context, Event.iio_context_get_devices_count (some ctx),
         Event.iio_context_find_device (some ctx) "axi-ad9371-tx-hpc", Event.abort] ∨
     (main port1 env rx_stack tx_stack c envs).trace =
        [Event.iio_create_default_context, Event.iio_context_get_devices_count (some ctx),
         Event.iio_context_find_device (some ctx) "axi-ad9371-tx-hpc",
         Event.iio_context_find_device (some ctx) "axi-ad9371-rx-hpc", Event.abort] ∨
     (main port1 env rx_stack tx_stack c envs).trace =
        [Event.iio_create_default_context, Event.iio_context_get_devices_count (some ctx),
         Event.iio_context_find_device (some ctx) "axi-ad9371-tx-hpc",
         Event.iio_context_find_device (some ctx) "axi-ad9371-rx-hpc",
         Event.iio_context_find_device (some ctx) "ad9371-phy", Event.abort]) := by
  by_cases h0 : env.devices_count = 0
  · simp [main, main_setup, main_acquire_context, Run.seq, ASSERT, initial_state, hctx, h0]
  · have h0p : 0 < env.devices_count := Nat.pos_of_ne_zero h0
    cases htx : env.find_device "axi-ad9371-tx-hpc" with
    | none =>
      simp [main, main_setup, main_acquire_context, main_acquire_devices, get_ad9371_stream_dev,
        Run.seq, Call.seq, ASSERT, initial_state, hctx, h0p, htx]
    | some tx =>
      cases hrx : env.find_device "axi-ad9371-rx-hpc" with
      | none =>
        simp [main, main_setup, main_acquire_context, main_acquire_devices,
          get_ad9371_stream_dev, Run.seq, Call.seq, ASSERT, initial_state, hctx, h0p, htx, hrx]
      | some rx =>
        have hphy : env.find_device "ad9371-phy" = none := by
          rcases hfail with h | h | h | h
          · exact absurd h h0
          · rw [htx] at h; cases h
          · rw [hrx] at h; cases h
          · exact h
        simp [main, main_setup, main_acquire_context, main_acquire_devices,
          get_ad9371_stream_dev, main_configure, assert_cfg, cfg_ad9371_streaming_ch,
          get_phy_chan, get_ad9371_phy, Run.seq, Call.seq, ASSERT, initial_state, hctx, h0p,
          htx, hrx, hphy]

end Stream

namespace Stream

/-- C21 as stated fails: on a board whose context has no device, main creates
the context, asks for the number of devices and ends in abort; the context is
not destroyed. -/
theorem zero_devices_abort_without_destroy :
    main false zero_devices_env ⟨0, 0, 0⟩ ⟨0, 0, 0⟩ ⟨some 100, some 200⟩ [] =
      { trace := [Event.iio_create_default_context,
                  Event.iio_context_get_devices_count (some 1), Event.abort],
        s := sample_cfg_state,
        status := Status.aborted } ∧
    Event.iio_context_destroy 1 ∉
      (main false zero_devices_env ⟨0, 0, 0⟩ ⟨0, 0, 0⟩ ⟨some 100, some 200⟩ []).trace := by
  have h : main false zero_devices_env ⟨0, 0, 0⟩ ⟨0, 0, 0⟩ ⟨some 100, some 200⟩ [] =
      { trace := [Event.iio_create_default_context,
                  Event.iio_context_get_devices_count (some 1), Event.abort],
        s := sample_cfg_state,
        status := Status.aborted } := rfl
  refine ⟨h, ?_⟩
  rw [h]
  simp

/-- C21, amended: when discovery fails after the context was created (no
device in the context, or the TX streaming device, the RX streaming device or
the phy device not found), main ends through abort, called by the failed
ASSERT: the last operation is abort, the context is still held and was not
destroyed, and no operation of the shutdown sequence was issued. -/
theorem discovery_failure_aborts (port1 : Bool) (env : SetupEnv)
    (rx_stack tx_stack : stream_cfg) (c : CreateEnv) (envs : List IterEnv) (ctx : Nat)
    (hctx : env.default_context = some ctx)
    (hfail : env.devices_count = 0 ∨ env.find_device "axi-ad9371-tx-hpc" = none ∨
      env.find_device "axi-ad9371-rx-hpc" = none ∨ env.find_device "ad9371-phy" = none) :
    (main port1 env rx_stack tx_stack c envs).status = Status.aborted ∧
    (main port1 env rx_stack tx_stack c envs).trace.getLast? = some Event.abort ∧
    (main port1 env rx_stack tx_stack c envs).trace.head? =
      some Event.iio_create_default_context ∧
    (main port1 env rx_stack tx_stack c envs).s.g.ctx = some ctx ∧
    Event.iio_context_destroy ctx ∉ (main port1 env rx_stack tx_stack c envs).trace ∧
    (main port1 env rx_stack tx_stack c envs).trace.filter Event.is_shutdown_op = [] := by
  obtain ⟨hs, hc, ht⟩ := main_discovery_failure port1 env rx_stack tx_stack c envs ctx hctx hfail
  refine ⟨hs, ?_, ?_, hc, ?_, ?_⟩
  · rcases ht with h | h | h | h <;> rw [h] <;> rfl
  · rcases ht with h | h | h | h <;> rw [h] <;> rfl
  · rcases ht with h | h | h | h <;> rw [h] <;> simp
  · rcases ht with h | h | h | h <;> rw [h] <;> rfl

theorem discovery_failure_aborts_witness :
    zero_devices_env.default_context = some 1 ∧
    (zero_devices_env.devices_count = 0 ∨
      zero_devices_env.find_device "axi-ad9371-tx-hpc" = none ∨
      zero_devices_env.find_device "axi-ad9371-rx-hpc" = none ∨
      zero_devices_env.find_device "ad9371-phy" = none) ∧
    (main false zero_devices_env ⟨0, 0, 0⟩ ⟨0, 0, 0⟩ ⟨some 100, some 200⟩ []).status =
      Status.aborted :=
  ⟨rfl, Or.inl rfl,
    (discovery_failure_aborts false zero_devices_env ⟨0, 0, 0⟩ ⟨0, 0, 0⟩ ⟨some 100, some 200⟩ []
      1 rfl (Or.inl rfl)).1⟩

end Stream

namespace Stream

theorem decimal_nat_one : decimal_nat 1 = ['1'] := by
  unfold decimal_nat
  simp
  rfl

theorem get_ch_name_altvoltage0 : get_ch_name "altvoltage" 0 = "altvoltage0" := by
  decide

theorem get_ch_name_altvoltage1 : get_ch_name "altvoltage" 1 = "altvoltage1" := by
  have h : fmt_d 1 = ['1'] := decimal_nat_one
  unfold get_ch_name
  rw [h]
  decide

theorem get_ch_name_voltage0 : get_ch_name "voltage" 0 = "voltage0" := by
  decide

/-- The name of the LO channel of a direction. -/
theorem lo_attr_values :
    lo_attr iodev.TX = "TX_LO_frequency" ∧ lo_attr iodev.RX = "RX_LO_frequency" := by
  constructor <;> rfl

/-- With the phy device missing, the configuration of a channel ends in
abort. -/
theorem cfg_phy_device_missing (env : SetupEnv) (ctx : Option Nat) (cfg : stream_cfg)
    (type : iodev) (chid : Int) (s : State) (hphy : env.find_device "ad9371-phy" = none) :
    cfg_ad9371_streaming_ch env ctx cfg type chid s =
      { run := { trace := [Event.iio_context_find_device ctx "ad9371-phy", Event.abort],
                 s := s, status := Status.aborted },
        val := none } := by
  simp [cfg_ad9371_streaming_ch, get_phy_chan, get_ad9371_phy, Run.seq, ASSERT, hphy]

/-- With the phy channel missing, the configuration of a channel returns false
after the two lookups. -/
theorem cfg_phy_chan_missing (env : SetupEnv) (ctx : Option Nat) (cfg : stream_cfg)
    (type : iodev) (chid : Int) (s : State) (dev : Nat)
    (hphy : env.find_device "ad9371-phy" = some dev)
    (hchn : env.find_channel dev (get_ch_name "voltage" chid) (decide (type = iodev.TX)) = none) :
    cfg_ad9371_streaming_ch env ctx cfg type chid s =
      { run := { trace := [Event.iio_context_find_device ctx "ad9371-phy",
                           Event.iio_device_find_channel dev (get_ch_name "voltage" chid)
                             (decide (type = iodev.TX))],
                 s := s, status := Status.running },
        val := some false } := by
  cases type <;>
    simp [cfg_ad9371_streaming_ch, get_phy_chan, get_ad9371_phy, Run.seq, ASSERT, hphy] at hchn ⊢ <;>
    simp [hchn]

/-- With the phy channel found and a failing read of `rf_bandwidth`, the
configuration of a channel ends in the shutdown sequence after that read. -/
theorem cfg_first_read_fails (env : SetupEnv) (ctx : Option Nat) (cfg : stream_cfg)
    (type : iodev) (chid : Int) (s : State) (dev chn : Nat)
    (hphy : env.find_device "ad9371-phy" = some dev)
    (hchn : env.find_channel dev (get_ch_name "voltage" chid) (decide (type = iodev.TX)) =
      some chn)
    (hr1 : env.read_ret chn "rf_bandwidth" < 0) :
    cfg_ad9371_streaming_ch env ctx cfg type chid s =
      { run := { trace := [Event.iio_context_find_device ctx "ad9371-phy",
                           Event.iio_device_find_channel dev (get_ch_name "voltage" chid)
                             (decide (type = iodev.TX)),
                           Event.iio_channel_attr_read_longlong chn "rf_bandwidth"] ++
                          shutdown s.g,
                 s := s, status := Status.exited 0 },
        val := none } := by
  cases type <;>
    simp [cfg_ad9371_streaming_ch, get_phy_chan, get_ad9371_phy, Run.seq, ASSERT, hphy,
      rd_ch_lli, errchk, shutdown_run] at hchn ⊢ <;>
    simp [hchn, hr1]

/-- With the phy channel found, both reads succeeding and the LO channel
missing, the configuration of a channel returns false without a write. -/
theorem cfg_lo_chan_missing (env : SetupEnv) (ctx : Option Nat) (cfg : stream_cfg)
    (type : iodev) (chid : Int) (s : State) (dev chn : Nat)
    (hphy : env.find_device "ad9371-phy" = some dev)
    (hchn : env.find_channel dev (get_ch_name "voltage" chid) (decide (type = iodev.TX)) =
      some chn)
    (hr1 : 0 ≤ env.read_ret chn "rf_bandwidth")
    (hr2 : 0 ≤ env.read_ret chn "sampling_frequency")
    (hlo : env.find_channel dev
      (get_ch_name "altvoltage" (if type = iodev.TX then 1 else 0)) true = none) :
    cfg_ad9371_streaming_ch env ctx cfg type chid s =
      { run := { trace := [Event.iio_context_find_device ctx "ad9371-phy",
                           Event.iio_device_find_channel dev (get_ch_name "voltage" chid)
                             (decide (type = iodev.TX)),
                           Event.iio_channel_attr_read_longlong chn "rf_bandwidth",
                           Event.iio_channel_attr_read_longlong chn "sampling_frequency",
                           Event.iio_context_find_device ctx "ad9371-phy",
                           Event.iio_device_find_channel dev
                             (get_ch_name "altvoltage" (if type = iodev.TX then 1 else 0)) true],
                 s := s, status := Status.running },
        val := some false } := by
  have h1 : ¬ env.read_ret chn "rf_bandwidth" < 0 := by omega
  have h2 : ¬ env.read_ret chn "sampling_frequency" < 0 := by omega
  cases type <;>
    simp [cfg_ad9371_streaming_ch, get_phy_chan, get_lo_chan, get_ad9371_phy, Run.seq, ASSERT,
      hphy, rd_ch_lli, errchk, shutdown_run] at hchn hlo ⊢ <;>
    simp [hchn, h1, h2, hlo]

/-- With both channels found and every attribute operation succeeding, the
configuration of a channel is two reads and one write, and returns true. -/
theorem cfg_success (env : SetupEnv) (ctx : Option Nat) (cfg : stream_cfg)
    (type : iodev) (chid : Int) (s : State) (dev chn lochn : Nat)
    (hphy : env.find_device "ad9371-phy" = some dev)
    (hchn : env.find_channel dev (get_ch_name "voltage" chid) (decide (type = iodev.TX)) =
      some chn)
    (hr1 : 0 ≤ env.read_ret chn "rf_bandwidth")
    (hr2 : 0 ≤ env.read_ret chn "sampling_frequency")
    (hlo : env.find_channel dev
      (get_ch_name "altvoltage" (if type = iodev.TX then 1 else 0)) true = some lochn)
    (hw : 0 ≤ env.write_ret lochn (lo_attr type) cfg.lo_hz) :
    cfg_ad9371_streaming_ch env ctx cfg type chid s =
      { run := { trace := [Event.iio_context_find_device ctx "ad9371-phy",
                           Event.iio_device_find_channel dev (get_ch_name "voltage" chid)
                             (decide (type = iodev.TX)),
                           Event.iio_channel_attr_read_longlong chn "rf_bandwidth",
                           Event.iio_channel_attr_read_longlong chn "sampling_frequency",
                           Event.iio_context_find_device ctx "ad9371-phy",
                           Event.iio_device_find_channel dev
                             (get_ch_name "altvoltage" (if type = iodev.TX then 1 else 0)) true,
                           Event.iio_channel_attr_write_longlong lochn (lo_attr type)
                             cfg.lo_hz],
                 s := s, status := Status.running },
        val := some true } := by
  have h1 : ¬ env.read_ret chn "rf_bandwidth" < 0 := by omega
  have h2 : ¬ env.read_ret chn "sampling_frequency" < 0 := by omega
  have h3 : ¬ env.write_ret lochn (lo_attr type) cfg.lo_hz < 0 := by omega
  cases type <;>
    simp [cfg_ad9371_streaming_ch, get_phy_chan, get_lo_chan, get_ad9371_phy, Run.seq, ASSERT,
      hphy, rd_ch_lli, wr_ch_lli, errchk, shutdown_run, Call.of_run] at hchn hlo ⊢ <;>
    simp [hchn, h1, h2, hlo, h3]

end Stream

namespace Stream

/-- C22 as stated fails: on a board where every lookup and attribute operation
succeeds, the configuration of RX channel 0 with bandwidth 18 MHz, sample rate
30.72 MHz and LO frequency 2.5 GHz makes one attribute write only, of the LO
frequency; the bandwidth and the sample rate are read from the hardware, and
the configured values are not written. -/
theorem cfg_writes_only_lo_frequency :
    cfg_ad9371_streaming_ch sample_setup_env (some 1) ⟨18000000, 30720000, 2500000000⟩
        iodev.RX 0 sample_cfg_state =
      { run := { trace := [Event.iio_context_find_device (some 1) "ad9371-phy",
                           Event.iio_device_find_channel 4 "voltage0" false,
                           Event.iio_channel_attr_read_longlong 40 "rf_bandwidth",
                           Event.iio_channel_attr_read_longlong 40 "sampling_frequency",
                           Event.iio_context_find_device (some 1) "ad9371-phy",
                           Event.iio_device_find_channel 4 "altvoltage0" true,
                           Event.iio_channel_attr_write_longlong 42 "RX_LO_frequency"
                             2500000000],
                 s := sample_cfg_state, status := Status.running },
        val := some true } ∧
    (cfg_ad9371_streaming_ch sample_setup_env (some 1) ⟨18000000, 30720000, 2500000000⟩
        iodev.RX 0 sample_cfg_state).run.trace.filter Event.is_attr_write =
      [Event.iio_channel_attr_write_longlong 42 "RX_LO_frequency" 2500000000] ∧
    Event.iio_channel_attr_write_longlong 40 "rf_bandwidth" 18000000 ∉
      (cfg_ad9371_streaming_ch sample_setup_env (some 1) ⟨18000000, 30720000, 2500000000⟩
        iodev.RX 0 sample_cfg_state).run.trace ∧
    Event.iio_channel_attr_write_longlong 40 "sampling_frequency" 30720000 ∉
      (cfg_ad9371_streaming_ch sample_setup_env (some 1) ⟨18000000, 30720000, 2500000000⟩
        iodev.RX 0 sample_cfg_state).run.trace := by
  have h := cfg_success sample_setup_env (some 1) ⟨18000000, 30720000, 2500000000⟩ iodev.RX 0
    sample_cfg_state 4 40 42 (by decide) (by decide) (by decide) (by decide) (by decide)
    (by decide)
  have e1 : get_ch_name "voltage" 0 = "voltage0" := get_ch_name_voltage0
  have e2 : get_ch_name "altvoltage" 0 = "altvoltage0" := get_ch_name_altvoltage0
  have e3 : lo_attr iodev.RX = "RX_LO_frequency" := rfl
  simp only [reduceIte, e1, e2, e3] at h
  rw [h]
  refine ⟨?_, ?_, ?_, ?_⟩
  · simp [e2]
  · rfl
  · simp
  · simp

/-- C22, amended: for every configuration, direction and channel id for which
the phy device, the phy channel and the LO channel are found and the attribute
operations succeed, cfg_ad9371_streaming_ch returns true after exactly one
attribute write, of lo_hz to the LO-frequency attribute of the LO channel; the
attributes rf_bandwidth and sampling_frequency are read, not written, and
bw_hz and fs_hz have no effect at all. -/
theorem cfg_applies_lo_frequency_only (env : SetupEnv) (ctx : Option Nat) (cfg : stream_cfg)
    (type : iodev) (chid : Int) (s : State) (dev chn lochn : Nat)
    (hphy : env.find_device "ad9371-phy" = some dev)
    (hchn : env.find_channel dev (get_ch_name "voltage" chid) (decide (type = iodev.TX)) =
      some chn)
    (hr1 : 0 ≤ env.read_ret chn "rf_bandwidth")
    (hr2 : 0 ≤ env.read_ret chn "sampling_frequency")
    (hlo : env.find_channel dev
      (get_ch_name "altvoltage" (if type = iodev.TX then 1 else 0)) true = some lochn)
    (hw : 0 ≤ env.write_ret lochn (lo_attr type) cfg.lo_hz) :
    (cfg_ad9371_streaming_ch env ctx cfg type chid s).val = some true ∧
    (cfg_ad9371_streaming_ch env ctx cfg type chid s).run.status = Status.running ∧
    (cfg_ad9371_streaming_ch env ctx cfg type chid s).run.s = s ∧
    (cfg_ad9371_streaming_ch env ctx cfg type chid s).run.trace.filter Event.is_attr_write =
      [Event.iio_channel_attr_write_longlong lochn (lo_attr type) cfg.lo_hz] ∧
    (cfg_ad9371_streaming_ch env ctx cfg type chid s).run.trace.filter Event.is_attr_io =
      [Event.iio_channel_attr_read_longlong chn "rf_bandwidth",
       Event.iio_channel_attr_read_longlong chn "sampling_frequency",
       Event.iio_channel_attr_write_longlong lochn (lo_attr type) cfg.lo_hz] ∧
    (∀ bw fs : Int,
      cfg_ad9371_streaming_ch env ctx ⟨bw, fs, cfg.lo_hz⟩ type chid s =
        cfg_ad9371_streaming_ch env ctx cfg type chid s) := by
  rw [cfg_success env ctx cfg type chid s dev chn lochn hphy hchn hr1 hr2 hlo hw]
  refine ⟨rfl, rfl, rfl, rfl, rfl, ?_⟩
  intro bw fs
  exact cfg_success env ctx ⟨bw, fs, cfg.lo_hz⟩ type chid s dev chn lochn hphy hchn hr1 hr2 hlo hw

theorem cfg_applies_lo_frequency_only_witness :
    sample_setup_env.find_device "ad9371-phy" = some 4 ∧
    sample_setup_env.find_channel 4 (get_ch_name "voltage" 0)
      (decide (iodev.TX = iodev.TX)) = some 41 ∧
    sample_setup_env.find_channel 4
      (get_ch_name "altvoltage" (if iodev.TX = iodev.TX then 1 else 0)) true = some 43 ∧
    (cfg_ad9371_streaming_ch sample_setup_env (some 1) ⟨18000000, 30720000, 2500000000⟩
        iodev.TX 0 sample_cfg_state).run.trace.filter Event.is_attr_write =
      [Event.iio_channel_attr_write_longlong 43 (lo_attr iodev.TX) 2500000000] :=
  have hlo : sample_setup_env.find_channel 4
      (get_ch_name "altvoltage" (if iodev.TX = iodev.TX then 1 else 0)) true = some 43 := by
    rw [if_pos rfl, get_ch_name_altvoltage1]
    decide
  ⟨by decide, by decide, hlo,
    (cfg_applies_lo_frequency_only sample_setup_env (some 1) ⟨18000000, 30720000, 2500000000⟩
      iodev.TX 0 sample_cfg_state 4 41 43 (by decide) (by decide) (by decide) (by decide) hlo
      (by decide)).2.2.2.1⟩

/-- C29 as stated fails: on a board where the phy channel and the LO channel
both exist but the read of rf_bandwidth returns -22, the configuration of RX
channel 0 reads rf_bandwidth, runs the shutdown sequence and exits: it does not
read sampling_frequency, makes no attribute write and does not return. -/
theorem cfg_failing_read_exits :
    failing_read_env.find_channel 4 "voltage0" false = some 40 ∧
    failing_read_env.find_channel 4 "altvoltage0" true = some 42 ∧
    cfg_ad9371_streaming_ch failing_read_env (some 1) ⟨18000000, 30720000, 2500000000⟩
        iodev.RX 0 sample_cfg_state =
      { run := { trace := [Event.iio_context_find_device (some 1) "ad9371-phy",
                           Event.iio_device_find_channel 4 "voltage0" false,
                           Event.iio_channel_attr_read_longlong 40 "rf_bandwidth",
                           Event.iio_context_destroy 1,
                           Event.exit 0],
                 s := sample_cfg_state, status := Status.exited 0 },
        val := none } ∧
    (cfg_ad9371_streaming_ch failing_read_env (some 1) ⟨18000000, 30720000, 2500000000⟩
        iodev.RX 0 sample_cfg_state).run.trace.filter Event.is_attr_write = [] ∧
    Event.iio_channel_attr_read_longlong 40 "sampling_frequency" ∉
      (cfg_ad9371_streaming_ch failing_read_env (some 1) ⟨18000000, 30720000, 2500000000⟩
        iodev.RX 0 sample_cfg_state).run.trace := by
  have h := cfg_first_read_fails failing_read_env (some 1) ⟨18000000, 30720000, 2500000000⟩
    iodev.RX 0 sample_cfg_state 4 40 (by decide) (by decide) (by decide)
  have e1 : get_ch_name "voltage" 0 = "voltage0" := get_ch_name_voltage0
  rw [e1] at h
  rw [h]
  refine ⟨by decide, by decide, ?_, ?_, ?_⟩
  · rfl
  · rfl
  · simp [shutdown, if_set, sample_cfg_state, initial_state]

/-- C29, amended: when the phy device exists and no attribute operation
returns a negative value, cfg_ad9371_streaming_ch returns false with no
attribute operation when the phy channel voltage<chid> (input for RX, output
for TX) is not found; otherwise it reads rf_bandwidth and sampling_frequency
from that channel; it then returns false with no attribute write when the LO
channel (altvoltage1 for TX, altvoltage0 for RX, looked up as output) is not
found; otherwise it makes exactly one attribute write, of lo_hz to
TX_LO_frequency for TX or RX_LO_frequency for RX, and returns true. -/
theorem cfg_streaming_ch_cases (env : SetupEnv) (ctx : Option Nat) (cfg : stream_cfg)
    (type : iodev) (chid : Int) (s : State) (dev : Nat)
    (hphy : env.find_device "ad9371-phy" = some dev)
    (hread : ∀ chn attr, 0 ≤ env.read_ret chn attr)
    (hwrite : ∀ chn attr v, 0 ≤ env.write_ret chn attr v) :
    (env.find_channel dev (get_ch_name "voltage" chid) (decide (type = iodev.TX)) = none →
      cfg_ad9371_streaming_ch env ctx cfg type chid s =
        { run := { trace := [Event.iio_context_find_device ctx "ad9371-phy",
                             Event.iio_device_find_channel dev (get_ch_name "voltage" chid)
                               (decide (type = iodev.TX))],
                   s := s, status := Status.running },
          val := some false }) ∧
    (∀ chn,
      env.find_channel dev (get_ch_name "voltage" chid) (decide (type = iodev.TX)) = some chn →
      (env.find_channel dev
          (get_ch_name "altvoltage" (if type = iodev.TX then 1 else 0)) true = none →
        cfg_ad9371_streaming_ch env ctx cfg type chid s =
          { run := { trace := [Event.iio_context_find_device ctx "ad9371-phy",
                               Event.iio_device_find_channel dev (get_ch_name "voltage" chid)
                                 (decide (type = iodev.TX)),
                               Event.iio_channel_attr_read_longlong chn "rf_bandwidth",
                               Event.iio_channel_attr_read_longlong chn "sampling_frequency",
                               Event.iio_context_find_device ctx "ad9371-phy",
                               Event.iio_device_find_channel dev
                                 (get_ch_name "altvoltage" (if type = iodev.TX then 1 else 0))
                                 true],
                     s := s, status := Status.running },
            val := some false }) ∧
      (∀ lochn,
        env.find_channel dev
          (get_ch_name "altvoltage" (if type = iodev.TX then 1 else 0)) true = some lochn →
        cfg_ad9371_streaming_ch env ctx cfg type chid s =
          { run := { trace := [Event.iio_context_find_device ctx "ad9371-phy",
                               Event.iio_device_find_channel dev (get_ch_name "voltage" chid)
                                 (decide (type = iodev.TX)),
                               Event.iio_channel_attr_read_longlong chn "rf_bandwidth",
                               Event.iio_channel_attr_read_longlong chn "sampling_frequency",
                               Event.iio_context_find_device ctx "ad9371-phy",
                               Event.iio_device_find_channel dev
                                 (get_ch_name "altvoltage" (if type = iodev.TX then 1 else 0))
                                 true,
                               Event.iio_channel_attr_write_longlong lochn (lo_attr type)
                                 cfg.lo_hz],
                     s := s, status := Status.running },
            val := some true })) ∧
    get_ch_name "altvoltage" 1 = "altvoltage1" ∧
    get_ch_name "altvoltage" 0 = "altvoltage0" ∧
    lo_attr iodev.TX = "TX_LO_frequency" ∧
    lo_attr iodev.RX = "RX_LO_frequency" := by
  refine ⟨?_, ?_, get_ch_name_altvoltage1, get_ch_name_altvoltage0, rfl, rfl⟩
  · intro hchn
    exact cfg_phy_chan_missing env ctx cfg type chid s dev hphy hchn
  · intro chn hchn
    refine ⟨?_, ?_⟩
    · intro hlo
      exact cfg_lo_chan_missing env ctx cfg type chid s dev chn hphy hchn (hread _ _)
        (hread _ _) hlo
    · intro lochn hlo
      exact cfg_success env ctx cfg type chid s dev chn lochn hphy hchn (hread _ _)
        (hread _ _) hlo (hwrite _ _ _)

theorem cfg_streaming_ch_cases_witness :
    sample_setup_env.find_device "ad9371-phy" = some 4 ∧
    (∀ chn attr, 0 ≤ sample_setup_env.read_ret chn attr) ∧
    (∀ chn attr v, 0 ≤ sample_setup_env.write_ret chn attr v) ∧
    (cfg_ad9371_streaming_ch sample_setup_env (some 1) ⟨18000000, 30720000, 2500000000⟩
      iodev.TX 0 sample_cfg_state).val = some true :=
  have hlo : sample_setup_env.find_channel 4
      (get_ch_name "altvoltage" (if iodev.TX = iodev.TX then 1 else 0)) true = some 43 := by
    rw [if_pos rfl, get_ch_name_altvoltage1]
    decide
  ⟨by decide, fun _ _ => Int.le_refl 0, fun _ _ _ => Int.le_refl 0,
    congrArg Call.val
      (((cfg_streaming_ch_cases sample_setup_env (some 1) ⟨18000000, 30720000, 2500000000⟩
        iodev.TX 0 sample_cfg_state 4 (by decide) (fun _ _ => Int.le_refl 0)
        (fun _ _ _ => Int.le_refl 0)).2.1 41 (by decide)).2 43 hlo)⟩

end Stream

namespace Stream

theorem decimal_nat_length (n : Nat) (h : n ≤ 2147483648) : (decimal_nat n).length ≤ 10 := by
  unfold decimal_nat
  split_ifs with h0
  · simp
  · rw [List.length_reverse, List.length_map]
    by_contra hlen
    have h11 : 11 ≤ (Nat.digits 10 n).length := by omega
    have hp : 10 ^ 11 ≤ 10 ^ (Nat.digits 10 n).length :=
      Nat.pow_le_pow_right (by omega) h11
    have hb := Nat.base_pow_length_digits_le 10 n (by omega) h0
    have e : (10 : Nat) ^ 11 = 100000000000 := by norm_num
    rw [e] at hp
    omega

theorem fmt_d_length (id : Int) (h1 : -2147483648 ≤ id) (h2 : id < 2147483648) :
    (fmt_d id).length ≤ 11 := by
  cases id with
  | ofNat n =>
    rw [Int.ofNat_eq_coe] at h1 h2
    have hn : n ≤ 2147483648 := by omega
    have := decimal_nat_length n hn
    simp only [fmt_d]
    omega
  | negSucc n =>
    rw [Int.negSucc_eq] at h1 h2
    have hn : n + 1 ≤ 2147483648 := by omega
    have := decimal_nat_length (n + 1) hn
    simp only [fmt_d, List.length_cons]
    omega

/-- C30: get_ad9371_stream_ch looks up the name voltage<chid>_<modifier> when
the modifier is not NUL and voltage<chid> otherwise, with the output flag set
exactly when the direction is TX; it stores the result of the lookup and
returns true exactly when a channel was found; the second lookup has the
arguments of the first, so with a lookup that answers the same both times the
call amounts to a single lookup. -/
theorem stream_ch_is_single_lookup (find : Nat → String → Bool → Option Nat) (d : iodev)
    (dev : Nat) (chid : Int) (modify : Char) (s : State) :
    (get_ad9371_stream_ch (fun _ => find) d dev chid modify s).val =
      some (stream_ch_single_lookup find d dev chid modify) ∧
    (get_ad9371_stream_ch (fun _ => find) d dev chid modify s).val =
      some ((find dev (stream_ch_name chid modify) (decide (d = iodev.TX))).isSome,
        find dev (stream_ch_name chid modify) (decide (d = iodev.TX))) ∧
    (get_ad9371_stream_ch (fun _ => find) d dev chid modify s).run.status = Status.running ∧
    (get_ad9371_stream_ch (fun _ => find) d dev chid modify s).run.s = s ∧
    (get_ad9371_stream_ch (fun _ => find) d dev chid modify s).run.trace =
      (if (find dev (stream_ch_name chid modify) (decide (d = iodev.TX))).isSome then
        [Event.iio_device_find_channel dev (stream_ch_name chid modify) (decide (d = iodev.TX))]
      else
        [Event.iio_device_find_channel dev (stream_ch_name chid modify) (decide (d = iodev.TX)),
         Event.iio_device_find_channel dev (stream_ch_name chid modify)
           (decide (d = iodev.TX))]) ∧
    (∀ lookup : Nat → Nat → String → Bool → Option Nat,
      (get_ad9371_stream_ch lookup d dev chid modify s).val =
        some (((lookup 0 dev (stream_ch_name chid modify) (decide (d = iodev.TX))).orElse
            fun _ => lookup 1 dev (stream_ch_name chid modify) (decide (d = iodev.TX))).isSome,
          (lookup 0 dev (stream_ch_name chid modify) (decide (d = iodev.TX))).orElse
            fun _ => lookup 1 dev (stream_ch_name chid modify) (decide (d = iodev.TX)))) ∧
    (modify ≠ Char.ofNat 0 → -2147483648 ≤ chid → chid < 2147483648 →
      stream_ch_name chid modify =
        "voltage" ++ String.mk (fmt_d chid) ++ "_" ++ String.singleton modify) ∧
    (modify = Char.ofNat 0 → -2147483648 ≤ chid → chid < 2147483648 →
      stream_ch_name chid modify = "voltage" ++ String.mk (fmt_d chid)) ∧
    stream_ch_name 0 'i' = "voltage0_i" ∧ stream_ch_name 0 'q' = "voltage0_q" ∧
    stream_ch_name 0 (Char.ofNat 0) = "voltage0" := by
  have hdet : (get_ad9371_stream_ch (fun _ => find) d dev chid modify s).val =
      some ((find dev (stream_ch_name chid modify) (decide (d = iodev.TX))).isSome,
        find dev (stream_ch_name chid modify) (decide (d = iodev.TX))) := by
    unfold get_ad9371_stream_ch
    cases h : find dev (stream_ch_name chid modify) (decide (d = iodev.TX)) <;> simp [h]
  refine ⟨hdet, hdet, ?_, ?_, ?_, ?_, ?_, ?_, by decide, by decide, by decide⟩
  · unfold get_ad9371_stream_ch
    cases h : find dev (stream_ch_name chid modify) (decide (d = iodev.TX)) <;> simp [h]
  · unfold get_ad9371_stream_ch
    cases h : find dev (stream_ch_name chid modify) (decide (d = iodev.TX)) <;> simp [h]
  · unfold get_ad9371_stream_ch
    cases h : find dev (stream_ch_name chid modify) (decide (d = iodev.TX)) <;> simp [h]
  · intro lookup
    unfold get_ad9371_stream_ch
    cases h : lookup 0 dev (stream_ch_name chid modify) (decide (d = iodev.TX)) <;>
      simp [h, Option.orElse]
  · intro hm h1 h2
    have hl := fmt_d_length chid h1 h2
    have hfit : (("voltage" : String).data ++ fmt_d chid ++ ['_', modify]).length <
        TMPSTR_SIZE := by
      have e : ("voltage" : String).data.length = 7 := rfl
      simp only [List.length_append, List.length_cons, List.length_nil, e, TMPSTR_SIZE]
      omega
    unfold stream_ch_name
    rw [if_pos hm, get_ch_name_mod_fits "voltage" chid modify hm hfit]
    apply String.ext
    simp [String.singleton]
  · intro hm h1 h2
    have hl := fmt_d_length chid h1 h2
    have hfit : (("voltage" : String).data ++ fmt_d chid).length < TMPSTR_SIZE := by
      have e : ("voltage" : String).data.length = 7 := rfl
      simp only [List.length_append, e, TMPSTR_SIZE]
      omega
    unfold stream_ch_name
    rw [if_neg (by simpa using hm), get_ch_name_fits "voltage" chid hfit]
    apply String.ext
    simp

end Stream

namespace Stream

theorem destroyed_context_if_set_destroy (h : Option Nat) :
    (if_set h Event.iio_context_destroy).filterMap Event.destroyed_context = h.toList := by
  cases h <;> simp [if_set, Event.destroyed_context]

theorem destroyed_context_if_set_other (h : Option Nat) (f : Nat → Event)
    (hf : ∀ p, (f p).destroyed_context = none) :
    (if_set h f).filterMap Event.destroyed_context = [] := by
  cases h with
  | none => rfl
  | some p => simp [if_set, hf p]

theorem shutdown_destroyed_context (g : Globals) :
    (shutdown g).filterMap Event.destroyed_context = g.ctx.toList := by
  simp [shutdown, List.filterMap_append, destroyed_context_if_set_destroy,
    destroyed_context_if_set_other _ Event.iio_buffer_destroy (fun _ => rfl),
    destroyed_context_if_set_other _ Event.iio_channel_disable (fun _ => rfl),
    Event.destroyed_context]

theorem if_set_eq_map (h : Option Nat) (f : Nat → Event) : if_set h f = h.toList.map f := by
  cases h <;> rfl

/-- C4: for every combination of present and absent handles, `shutdown` issues
exactly these operations, in this order: the destroy of the RX buffer and of
the TX buffer (each if present), the disable of each present channel of port 0
(rx0_i, rx0_q, tx0_i, tx0_q), the destroy of the context if present, and
`exit`, once and last.  So every buffer destroy is before every channel
disable, every channel disable is before the context destroy, the context
destroy is immediately before `exit`, and nothing follows `exit`. -/
theorem shutdown_order (g : Globals) :
    List.Pairwise (fun a b => a.stage ≤ b.stage) (shutdown g) ∧
    (shutdown g).filterMap Event.destroyed_buffer = g.rxbuf.toList ++ g.txbuf.toList ∧
    (shutdown g).filterMap Event.disabled_channel =
      (g.rx0_i.map some).toList ++ (g.rx0_q.map some).toList ++
      (g.tx0_i.map some).toList ++ (g.tx0_q.map some).toList ∧
    (shutdown g).filterMap Event.destroyed_context = g.ctx.toList ∧
    (∃ pre, shutdown g = pre ++ [Event.exit 0] ∧
      pre.all (fun ev => decide (1 ≤ ev.stage ∧ ev.stage ≤ 3)) = true) ∧
    shutdown g =
      g.rxbuf.toList.map Event.iio_buffer_destroy ++
      g.txbuf.toList.map Event.iio_buffer_destroy ++
      g.rx0_i.toList.map Event.iio_channel_disable ++
      g.rx0_q.toList.map Event.iio_channel_disable ++
      g.tx0_i.toList.map Event.iio_channel_disable ++
      g.tx0_q.toList.map Event.iio_channel_disable ++
      g.ctx.toList.map Event.iio_context_destroy ++
      [Event.exit 0] ∧
    (∀ c, g.ctx = some c →
      ∃ pre, shutdown g = pre ++ [Event.iio_context_destroy c, Event.exit 0] ∧
        pre.all (fun ev => decide (1 ≤ ev.stage ∧ ev.stage ≤ 2)) = true) ∧
    (∀ rb tb a b c d x, g.rxbuf = some rb → g.txbuf = some tb → g.rx0_i = some a →
      g.rx0_q = some b → g.tx0_i = some c → g.tx0_q = some d → g.ctx = some x →
      shutdown g =
        [Event.iio_buffer_destroy rb, Event.iio_buffer_destroy tb,
         Event.iio_channel_disable a, Event.iio_channel_disable b,
         Event.iio_channel_disable c, Event.iio_channel_disable d,
         Event.iio_context_destroy x, Event.exit 0]) := by
  refine ⟨shutdown_pairwise_stage g, shutdown_destroyed_buffers g,
    shutdown_disabled_channels g, shutdown_destroyed_context g, ⟨_, rfl, ?_⟩, ?_, ?_, ?_⟩
  · simp only [List.all_append, Bool.and_eq_true]
    refine ⟨⟨⟨⟨⟨⟨?_, ?_⟩, ?_⟩, ?_⟩, ?_⟩, ?_⟩, ?_⟩ <;>
      exact all_if_set _ _ _ (fun _ => by simp [Event.stage])
  · unfold shutdown
    simp only [if_set_eq_map]
  · intro c hc
    refine ⟨if_set g.rxbuf Event.iio_buffer_destroy ++ if_set g.txbuf Event.iio_buffer_destroy ++
      if_set g.rx0_i Event.iio_channel_disable ++ if_set g.rx0_q Event.iio_channel_disable ++
      if_set g.tx0_i Event.iio_channel_disable ++ if_set g.tx0_q Event.iio_channel_disable,
      ?_, ?_⟩
    · unfold shutdown
      rw [hc]
      simp [if_set]
    · simp only [List.all_append, Bool.and_eq_true]
      refine ⟨⟨⟨⟨⟨?_, ?_⟩, ?_⟩, ?_⟩, ?_⟩, ?_⟩ <;>
        exact all_if_set _ _ _ (fun _ => by simp [Event.stage])
  · intro rb tb a b c d x h1 h2 h3 h4 h5 h6 h7
    unfold shutdown
    rw [h1, h2, h3, h4, h5, h6, h7]
    rfl

end Stream

namespace Stream

theorem is_iio_op_false_iff (ev : Event) :
    ev.is_iio_op = false ↔
      (∃ m, ev = Event.printf m) ∨ (∃ n, ev = Event.exit n) ∨ ev = Event.abort := by
  cases ev <;> simp [Event.is_iio_op]

/-- C20: for every signal number and every state of the globals, `handle_sig`
calls `printf` once and nothing else, so it invokes no Context, Device,
Channel or Buffer operation and touches no buffer memory; it leaves `stop`
set and every handle (context, buffers, channels) as it was, so the `shutdown`
of the handles is the same before and after; and the operations of an
iteration of the loop are the same whether or not, and wherever, the handler
runs during it. -/
theorem handle_sig_only_sets_stop :
    (∀ (sig : Int) (g : Globals),
      (handle_sig sig g).ops = [Event.printf "Waiting for process to finish...\n"] ∧
      (∀ ev ∈ (handle_sig sig g).ops, ev.is_iio_op = false) ∧
      (handle_sig sig g).ops.filter Event.is_iio_op = [] ∧
      (handle_sig sig g).g.stop = true ∧
      (handle_sig sig g).g = { g with stop := true } ∧
      (handle_sig sig g).g.ctx = g.ctx ∧
      (handle_sig sig g).g.rxbuf = g.rxbuf ∧ (handle_sig sig g).g.txbuf = g.txbuf ∧
      (handle_sig sig g).g.rx0_i = g.rx0_i ∧ (handle_sig sig g).g.rx0_q = g.rx0_q ∧
      (handle_sig sig g).g.rx1_i = g.rx1_i ∧ (handle_sig sig g).g.rx1_q = g.rx1_q ∧
      (handle_sig sig g).g.tx0_i = g.tx0_i ∧ (handle_sig sig g).g.tx0_q = g.tx0_q ∧
      (handle_sig sig g).g.tx1_i = g.tx1_i ∧ (handle_sig sig g).g.tx1_q = g.tx1_q ∧
      shutdown (handle_sig sig g).g = shutdown g) ∧
    (∀ ev : Event, ev.is_iio_op = false ↔
      (∃ m, ev = Event.printf m) ∨ (∃ n, ev = Event.exit n) ∨ ev = Event.abort) ∧
    (∀ (port1 : Bool) (e : IterEnv) (s : State) (sg : Option SigPoint),
      (loop_body port1 { e with sigint := sg } s).trace =
        (loop_body port1 { e with sigint := none } s).trace) := by
  refine ⟨fun sig g => ?_, is_iio_op_false_iff, loop_body_trace_signal⟩
  refine ⟨rfl, ?_, rfl, rfl, rfl, rfl, rfl, rfl, rfl, rfl, rfl, rfl, rfl, rfl, rfl, rfl, rfl⟩
  intro ev hev
  rw [show (handle_sig sig g).ops = [Event.printf "Waiting for process to finish...\n"] from rfl,
    List.mem_singleton] at hev
  rw [hev]
  rfl

end Stream
